import Mathlib

/-!
# PackageKit aptcc backend: embedding of `pk-backend-aptcc.cpp`

The backend functions are embedded as functions on an explicit `Backend`
state (the file's static variables, the glib timeout sources and the log of
calls made on the `PkBackend` object).  The thread functions are embedded as
functions from their inputs and the reads of the static `_cancel` flag to the
list of calls they make and their return value.  A thread function clears
`_cancel` when it starts and `backend_cancel` sets it from the main thread, so
the flag is read through `cancel : Nat → Bool`, the value seen at the `k`-th
read of the run; no theorem restricts how these values change.

Code that the backend calls but that is not part of the translated file (the
`aptcc` class, the helpers of `apt-utils`, `matcher`, the package cache of
libapt) is taken as a parameter, collected in `aptcc` and `Helpers`.
-/

namespace PackageKit

/-! ## Enumerations of `pk-enum.h` used by the backend -/

/-- The `PkInfoEnum` values the backend passes to `pk_backend_package`. -/
inductive PkInfoEnum where
  | INSTALLED | AVAILABLE | UPDATING | INSTALLING | DOWNLOADING
  | BLOCKED | NORMAL | SECURITY | CLEANUP
  deriving DecidableEq, Repr

/-- The `PkErrorEnum` values the backend passes to `pk_backend_error_code`. -/
inductive PkErrorEnum where
  | TRANSACTION_CANCELLED | PACKAGE_ID_INVALID | PACKAGE_NOT_FOUND | NO_NETWORK
  | GPG_FAILURE | NO_LICENSE_AGREEMENT | GROUP_NOT_FOUND
  deriving DecidableEq, Repr

/-- The `PkStatusEnum` values the backend passes to `pk_backend_set_status`. -/
inductive PkStatusEnum where
  | QUERY | INSTALL | REFRESH_CACHE | REMOVE | UPDATE | DOWNLOAD | REQUEST
  deriving DecidableEq, Repr

/-- The `PkSigTypeEnum` values. -/
inductive PkSigTypeEnum where
  | GPG | UNKNOWN
  deriving DecidableEq, Repr

/-- The `PkRestartEnum` values. -/
inductive PkRestartEnum where
  | NONE | SYSTEM | SESSION
  deriving DecidableEq, Repr

/-- The `PkUpdateStateEnum` values. -/
inductive PkUpdateStateEnum where
  | STABLE | UNSTABLE | UNKNOWN
  deriving DecidableEq, Repr

/-- The `PkFilterEnum` values the backend tests for. -/
inductive PkFilterEnum where
  | GUI | INSTALLED | NOT_INSTALLED | DEVELOPMENT | NOT_DEVELOPMENT | FREE | COLLECTIONS
  deriving DecidableEq, Repr

/-- A `PkBitfield` of filters, as the set of filter values whose bit is set. -/
abbrev PkBitfield := List PkFilterEnum

/-- The test `pk_bitfield_contain (filters, value)`. -/
def pk_bitfield_contain (filters : PkBitfield) (value : PkFilterEnum) : Bool :=
  filters.contains value

/-- A `PkGroupEnum` value, as the integer of the C enumeration. -/
abbrev PkGroupEnum := Nat

/-! ## The package cache of libapt -/

/-- A `pkgCache::PkgIterator` that is not at its end: the position of a
package in the cache. -/
abbrev PkgIterator := Nat

/-- A `pkgCache::VerIterator` that is not at its end: one version of a package,
with the fields the backend and its comparison helpers read. -/
structure VerIterator where
  ID : Nat
  VerStr : String
  Arch : String
  Section : String
  deriving DecidableEq, Repr

/-- The element type of the `output` vectors:
`pair<pkgCache::PkgIterator, pkgCache::VerIterator>`. -/
abbrev PkgPair := PkgIterator × VerIterator

/-- A `PkPackageId`, the parsed form of a package id string. -/
structure PkPackageId where
  name : String
  version : String
  arch : String
  data : String
  deriving DecidableEq, Repr

/-! ## Calls made on the `PkBackend` object -/

/-- One call made by the backend code: the `pk_backend_*` emitters, and the
calls of `aptcc::emit_package`, which pushes the package event of a result
entry after applying the filters, of `aptcc::emit_details` and of
`emit_files`. -/
inductive Event where
  | package (info : PkInfoEnum) (package_id : String) (summary : Option String)
  | error_code (code : PkErrorEnum) (details : String)
  | finished
  | set_status (status : PkStatusEnum)
  | set_percentage (percentage : Nat)
  | set_sub_percentage (percentage : Nat)
  | set_allow_cancel (allow : Bool)
  | repo_signature_required (package_id repository_name key_url key_userid key_id
      key_fingerprint key_timestamp : String) (type : PkSigTypeEnum)
  | eula_required (eula_id package_id vendor_name license_agreement : String)
  | emit_package (filters : PkBitfield) (pkg : PkgIterator) (ver : VerIterator)
  | update_detail (package_id updates obsoletes vendor_url bugzilla_url : String)
      (cve_url : Option String) (restart : PkRestartEnum) (update_text changelog : String)
      (state : PkUpdateStateEnum) (issued updated : Option String)
  | require_restart (restart : PkRestartEnum) (package_id : Option String)
  | repo_detail (repo_id description : String) (enabled : Bool)
  | files (package_id : Option String) (filelist : String)
  | emit_details (pkg : PkgIterator)
  | emit_files (pi : PkPackageId)
  deriving DecidableEq, Repr

/-- The timeout callbacks the backend registers with `g_timeout_add`. -/
inductive Callback where
  | backend_cancel_timeout
  | backend_get_update_detail_timeout
  | backend_get_updates_timeout
  | backend_install_timeout
  | backend_install_files_timeout
  | backend_refresh_cache_timeout
  | backend_update_packages_update_timeout
  | backend_update_packages_download_timeout
  | backend_update_system_timeout
  | backend_what_provides_timeout
  deriving DecidableEq, Repr

/-- A glib timeout source: its id, its interval in milliseconds, its callback. -/
structure Source where
  id : Nat
  interval : Nat
  callback : Callback
  deriving DecidableEq, Repr

/-- The state the backend functions run on: the static variables of the file
("static bodges"), the timeout sources of the glib main loop, the EULAs the
daemon holds as accepted (read by `pk_backend_is_eula_valid`) and the log of
calls made on the `PkBackend` object, oldest first. -/
structure Backend where
  _cancel : Bool := false
  _progress_percentage : Nat := 0
  _signal_timeout : Nat := 0
  _package_ids : List String := []
  _search : String := ""
  _package_current : Nat := 0
  _repo_enabled_local : Bool := false
  _repo_enabled_fedora : Bool := true
  _repo_enabled_devel : Bool := true
  _repo_enabled_livna : Bool := true
  _updated_gtkhtml : Bool := false
  _updated_kernel : Bool := false
  _updated_powertop : Bool := false
  _has_signature : Bool := false
  sources : List Source := []
  next_source_id : Nat := 1
  eulas : List String := []
  log : List Event := []
  deriving Repr

/-- Append one call to the log. -/
def Backend.emit (backend : Backend) (e : Event) : Backend :=
  { backend with log := backend.log ++ [e] }

/-- The call `pk_backend_package`. -/
def pk_backend_package (backend : Backend) (info : PkInfoEnum) (package_id : String)
    (summary : Option String) : Backend :=
  backend.emit (.package info package_id summary)

/-- The call `pk_backend_error_code`. -/
def pk_backend_error_code (backend : Backend) (code : PkErrorEnum) (details : String) : Backend :=
  backend.emit (.error_code code details)

/-- The call `pk_backend_finished`. -/
def pk_backend_finished (backend : Backend) : Backend :=
  backend.emit .finished

/-- The call `pk_backend_set_status`. -/
def pk_backend_set_status (backend : Backend) (status : PkStatusEnum) : Backend :=
  backend.emit (.set_status status)

/-- The call `pk_backend_set_percentage`. -/
def pk_backend_set_percentage (backend : Backend) (percentage : Nat) : Backend :=
  backend.emit (.set_percentage percentage)

/-- The call `pk_backend_set_sub_percentage`. -/
def pk_backend_set_sub_percentage (backend : Backend) (percentage : Nat) : Backend :=
  backend.emit (.set_sub_percentage percentage)

/-- The call `pk_backend_update_detail`. -/
def pk_backend_update_detail (backend : Backend) (package_id updates obsoletes vendor_url
    bugzilla_url : String) (cve_url : Option String) (restart : PkRestartEnum)
    (update_text changelog : String) (state : PkUpdateStateEnum)
    (issued updated : Option String) : Backend :=
  backend.emit (.update_detail package_id updates obsoletes vendor_url bugzilla_url cve_url
    restart update_text changelog state issued updated)

/-- The call `pk_backend_require_restart`. -/
def pk_backend_require_restart (backend : Backend) (restart : PkRestartEnum)
    (package_id : Option String) : Backend :=
  backend.emit (.require_restart restart package_id)

/-- The call `pk_backend_repo_detail`. -/
def pk_backend_repo_detail (backend : Backend) (repo_id description : String)
    (enabled : Bool) : Backend :=
  backend.emit (.repo_detail repo_id description enabled)

/-- The call `pk_backend_set_allow_cancel`. -/
def pk_backend_set_allow_cancel (backend : Backend) (allow : Bool) : Backend :=
  backend.emit (.set_allow_cancel allow)

/-- The call `pk_backend_repo_signature_required`. -/
def pk_backend_repo_signature_required (backend : Backend) (package_id repository_name key_url
    key_userid key_id key_fingerprint key_timestamp : String) (type : PkSigTypeEnum) : Backend :=
  backend.emit (.repo_signature_required package_id repository_name key_url key_userid key_id
    key_fingerprint key_timestamp type)

/-- The call `pk_backend_eula_required`. -/
def pk_backend_eula_required (backend : Backend) (eula_id package_id vendor_name
    license_agreement : String) : Backend :=
  backend.emit (.eula_required eula_id package_id vendor_name license_agreement)

/-- The query `pk_backend_is_eula_valid` of `pk-backend.c`, which is not part
of the translated file: the lookup of the id among the EULAs the state holds
as accepted.  Every answer it can give for an id is the answer for such a
set. -/
def pk_backend_is_eula_valid (backend : Backend) (eula_id : String) : Bool :=
  backend.eulas.contains eula_id

/-- The call `g_timeout_add (interval, callback, backend)`: registers a source
and returns its id, which is never 0. -/
def g_timeout_add (backend : Backend) (interval : Nat) (callback : Callback) : Backend × Nat :=
  ({ backend with
      sources := backend.sources ++ [⟨backend.next_source_id, interval, callback⟩]
      next_source_id := backend.next_source_id + 1 },
   backend.next_source_id)

/-- The test `egg_strequal (a, b)` of `egg-string.c` on a possibly NULL first
argument: NULL is equal to no string, two strings are equal when `strcmp`
gives 0. -/
def egg_strequal (a : Option String) (b : String) : Bool :=
  match a with
  | none => false
  | some s => s == b

/-! ## `backend_resolve` -/

/-- One pass of the loop body of `backend_resolve`, for the name `packages[i]`. -/
def backend_resolve_step (backend : Backend) (name : String) : Backend :=
  if egg_strequal (some name) "vips-doc" then
    pk_backend_package backend .AVAILABLE
      "vips-doc;7.12.4-2.fc8;noarch;linva" (some "The vips documentation package.")
  else if egg_strequal (some name) "glib2" then
    pk_backend_package backend .INSTALLED
      "glib2;2.14.0;i386;fedora" (some "The GLib library")
  else if egg_strequal (some name) "powertop" then
    pk_backend_package backend .UPDATING
      "powertop;1.8-1.fc8;i386;fedora" (some "Power consumption monitor")
  else if egg_strequal (some name) "kernel" then
    pk_backend_package backend .UPDATING
      "kernel;2.6.23-0.115.rc3.git1.fc8;i386;installed"
      (some "The Linux kernel (the core of the Linux operating system)")
  else if egg_strequal (some name) "gtkhtml2" then
    pk_backend_package backend .UPDATING
      "gtkhtml2;2.19.1-4.fc8;i386;fedora" (some "An HTML widget for GTK+ 2.0")
  else backend

/-- The function `backend_resolve`: sets the status, walks `packages` from
index 0 to `g_strv_length (packages)`, then finishes. -/
def backend_resolve (backend : Backend) (_filters : PkBitfield) (packages : List String) :
    Backend :=
  let backend := pk_backend_set_status backend .QUERY
  let backend := packages.foldl backend_resolve_step backend
  pk_backend_finished backend

/-! ## `backend_install_packages` -/

/-- The licence text `backend_install_packages` shows for `eula_hughsie_dot_com`. -/
def license_agreement : String :=
  "Narrator: In A.D. 2101, war was beginning.\n" ++
  "Captain: What happen ?\n" ++
  "Mechanic: Somebody set up us the bomb.\n\n" ++
  "Operator: We get signal.\n" ++
  "Captain: What !\n" ++
  "Operator: Main screen turn on.\n" ++
  "Captain: It's you !!\n" ++
  "CATS: How are you gentlemen !!\n" ++
  "CATS: All your base are belong to us.\n" ++
  "CATS: You are on the way to destruction.\n\n" ++
  "Captain: What you say !!\n" ++
  "CATS: You have no chance to survive make your time.\n" ++
  "CATS: Ha Ha Ha Ha ....\n\n" ++
  "Operator: Captain!! *\n" ++
  "Captain: Take off every 'ZIG' !!\n" ++
  "Captain: You know what you doing.\n" ++
  "Captain: Move 'ZIG'.\n" ++
  "Captain: For great justice.\n"

/-- The tail of `backend_install_packages` after the signature and EULA
checks: allow cancel, reset the counter, announce the download, start the
100 ms install timer. -/
def backend_install_packages_start (backend : Backend) : Backend :=
  let backend := pk_backend_set_allow_cancel backend true
  let backend := { backend with _progress_percentage := 0 }
  let backend := pk_backend_package backend .DOWNLOADING
    "gtkhtml2;2.19.1-4.fc8;i386;fedora" (some "An HTML widget for GTK+ 2.0")
  let (backend, id) := g_timeout_add backend 100 .backend_install_timeout
  { backend with _signal_timeout := id }

/-- The function `backend_install_packages`.  `package_ids[0]` is the head of
the list, NULL for the empty vector. -/
def backend_install_packages (backend : Backend) (package_ids : List String) : Backend :=
  if egg_strequal package_ids.head? "vips-doc;7.12.4-2.fc8;noarch;linva" then
    if !backend._has_signature then
      let backend := pk_backend_repo_signature_required backend (package_ids.headD "") "updates"
        "http://example.com/gpgkey" "Test Key (Fedora) fedora@example.com" "BB7576AC"
        "D8CC 06C2 77EC 9C53 372F C199 B1EE 1799 F24F 1B08" "2007-10-04" .GPG
      let backend := pk_backend_error_code backend .GPG_FAILURE
        "GPG signed package could not be verified"
      pk_backend_finished backend
    else
      let eula_id := "eula_hughsie_dot_com"
      let has_eula := pk_backend_is_eula_valid backend eula_id
      if !has_eula then
        let backend := pk_backend_eula_required backend eula_id (package_ids.headD "")
          "CATS Inc." license_agreement
        let backend := pk_backend_error_code backend .NO_LICENSE_AGREEMENT
          "licence not installed so cannot install"
        pk_backend_finished backend
      else
        backend_install_packages_start backend
  else
    backend_install_packages_start backend

/-! ## Code outside the translated file, taken as parameters -/

/-- The `aptcc` object after a successful `init`, as far as the backend uses
it: the package table of `cacheFile` in iteration order (`PkgBegin ()` to the
end), the accessors of a package iterator (`Name ()`, `VersionList ()`, the
`OwnerPkg ()` of every entry of `ProvidesList ()`), the members `find_ver`,
`get_depends` and `get_requires`, and the description helpers of `apt-utils`
applied to its `packageRecords`.  `find_ver` gives `none` for the end
iterator.  `get_depends` and `get_requires` take the reference to `_cancel`:
they are given the values of the reads still to come and return, with their
result, the number of reads they made. -/
structure aptcc where
  PkgList : List PkgIterator
  Name : PkgIterator → String
  VersionList : PkgIterator → List VerIterator
  ProvidesList : PkgIterator → List PkgIterator
  find_ver : PkgIterator → Option VerIterator
  get_depends : PkgIterator → Bool → (Nat → Bool) → List PkgPair × Nat
  get_requires : PkgIterator → Bool → (Nat → Bool) → List PkgPair × Nat
  get_default_short_description : VerIterator → String
  get_default_long_description : VerIterator → String
  get_short_description : VerIterator → String
  get_long_description : VerIterator → String

/-- The free functions and functors the backend calls: the functors `compare`
and `result_equality`, `get_enum_group` and `search_file` of `apt-utils`, the
constructor of `matcher` (`none` when `hasError ()`, else its `matches`),
`pk_group_enum_from_text` and `pk_package_id_new_from_string` (`none` for
NULL).  `search_file` takes the reference to `_cancel` like `get_depends`. -/
structure Helpers where
  compare : PkgPair → PkgPair → Bool
  result_equality : PkgPair → PkgPair → Bool
  get_enum_group : String → PkGroupEnum
  pk_group_enum_from_text : String → PkGroupEnum
  search_file : String → (Nat → Bool) → List String × Nat
  matcher : String → Option (String → Bool)
  pk_package_id_new_from_string : String → Option PkPackageId

/-- The lookup `cacheFile->FindPkg (name)`: the package of that name, `none`
for the end iterator. -/
def aptcc.FindPkg (m_apt : aptcc) (name : String) : Option PkgIterator :=
  m_apt.PkgList.find? fun pkg => m_apt.Name pkg == name

/-- Modelled from the spec: the percentage value standing for "unknown", the
constant `PK_BACKEND_PERCENTAGE_INVALID` of `pk-backend.h`; the spec gives the
percentage as 0-100 or unknown, and `backend_install_files` passes 101. -/
def PK_BACKEND_PERCENTAGE_INVALID : Nat := 101

/-! ## The C++ library calls -/

/-- The requirements of the C++ standard on the comparison given to
`std::sort`: a strict weak ordering. -/
structure StrictWeakOrder {α : Type} (lt : α → α → Bool) : Prop where
  irrefl : ∀ a, lt a a = false
  trans : ∀ a b c, lt a b = true → lt b c = true → lt a c = true
  incomp_trans : ∀ a b c, lt a b = false → lt b a = false → lt b c = false → lt c b = false →
    lt a c = false ∧ lt c a = false

/-- Insert `x` into a sorted list, before the first element that is not less
than `x`. -/
def ordered_insert {α : Type} (lt : α → α → Bool) (x : α) : List α → List α
  | [] => [x]
  | y :: ys => if lt y x then y :: ordered_insert lt x ys else x :: y :: ys

/-- The call `sort (output.begin (), output.end (), compare ())`, as an
insertion sort.  The standard leaves the order of equivalent elements open;
the theorems use only that the result is a sorted rearrangement. -/
def std_sort {α : Type} (lt : α → α → Bool) : List α → List α
  | [] => []
  | x :: xs => ordered_insert lt x (std_sort lt xs)

/-- The loop of `std::unique` after its first kept element: an element is
dropped when the predicate holds between the last kept element and it. -/
def std_unique_from {α : Type} (eq : α → α → Bool) (kept : α) : List α → List α
  | [] => []
  | y :: ys => if eq kept y then std_unique_from eq kept ys else y :: std_unique_from eq y ys

/-- The statement `output.erase (unique (output.begin (), output.end (),
result_equality ()), output.end ())`. -/
def std_unique {α : Type} (eq : α → α → Bool) : List α → List α
  | [] => []
  | x :: xs => x :: std_unique_from eq x xs

/-- The value `std::string::npos` for a 64-bit `size_t`. -/
def npos : Nat := 2 ^ 64 - 1

/-- The scan behind `find_last_of`: the index of the last `c` seen so far. -/
def find_last_of_from (c : Char) : List Char → Nat → Nat → Nat
  | [], _, last => last
  | x :: xs, i, last => find_last_of_from c xs (i + 1) (if x == c then i else last)

/-- The call `section.find_last_of (c)`: the index of the last `c`, `npos`
when there is none. -/
def find_last_of (s : String) (c : Char) : Nat :=
  find_last_of_from c s.data 0 npos

/-- The call `section.substr (pos)` for `pos` within the string. -/
def substr (s : String) (pos : Nat) : String :=
  ⟨s.data.drop pos⟩

/-- The section name `backend_search_group_thread` classifies: the part after
the last `/`, where `found + 1` is computed in `size_t`. -/
def section_tail (sect : String) : String :=
  let found := find_last_of sect '/'
  substr sect ((found + 1) % 2 ^ 64)

/-! ## The loops shared by the thread functions -/

/-- The accumulation loops `for (pkg = PkgBegin (); !pkg.end (); ++pkg)`:
each pass first reads `_cancel` (the `k`-th read of the run) and breaks when it
is set, else appends what the body pushes for `pkg`.  Returns the vector and
the number of reads made so far. -/
def accumulate_loop (body : PkgIterator → List PkgPair) (cancel : Nat → Bool) :
    List PkgIterator → Nat → List PkgPair × Nat
  | [], k => ([], k)
  | pkg :: rest, k =>
    if cancel k then ([], k + 1)
    else
      let r := accumulate_loop body cancel rest (k + 1)
      (body pkg ++ r.1, r.2)

/-- The emission loops over `output`: each pass first reads `_cancel` and
breaks when it is set, else calls `m_apt->emit_package`. -/
def emit_loop (filters : PkBitfield) (cancel : Nat → Bool) : List PkgPair → Nat → List Event
  | [], _ => []
  | i :: rest, k =>
    if cancel k then []
    else Event.emit_package filters i.1 i.2 :: emit_loop filters cancel rest (k + 1)

/-- The test "Ignore packages that exist only due to dependencies":
`pkg.VersionList ().end () && pkg.ProvidesList ().end ()`. -/
def only_due_to_dependencies (m_apt : aptcc) (pkg : PkgIterator) : Bool :=
  (m_apt.VersionList pkg).isEmpty && (m_apt.ProvidesList pkg).isEmpty

/-- The providers loop `for (Prv = pkg.ProvidesList (); Prv.end () == false;
Prv++)`: every owner package with a version found and accepted by `keep`. -/
def providers (m_apt : aptcc) (keep : PkgIterator → VerIterator → Bool) (pkg : PkgIterator) :
    List PkgPair :=
  (m_apt.ProvidesList pkg).filterMap fun owner =>
    match m_apt.find_ver owner with
    | some ver => if keep owner ver then some (owner, ver) else none
    | none => none

/-- Whether one of the four descriptions of `ver` matches. -/
def description_matches (m_apt : aptcc) (m_matches : String → Bool) (ver : VerIterator) : Bool :=
  m_matches (m_apt.get_default_short_description ver)
    || m_matches (m_apt.get_default_long_description ver)
    || m_matches (m_apt.get_short_description ver)
    || m_matches (m_apt.get_long_description ver)

/-! ## `backend_get_depends_or_requires_thread` -/

/-- The loop over `package_ids` of `backend_get_depends_or_requires_thread`:
an error exit with the error it reports, or the accumulated vector and the
number of reads of `_cancel` made. -/
def depends_loop (h : Helpers) (m_apt : aptcc) (depends : Bool) (cancel : Nat → Bool) :
    List String → Nat → Except (PkErrorEnum × String) (List PkgPair × Nat)
  | [], k => .ok ([], k)
  | id :: rest, k =>
    if cancel k then .ok ([], k + 1)
    else
      match h.pk_package_id_new_from_string id with
      | none => .error (.PACKAGE_ID_INVALID, "invalid package id")
      | some pi =>
        match m_apt.FindPkg pi.name with
        | none => .error (.PACKAGE_NOT_FOUND, "couldn't find package")
        | some pkg =>
          let pkgOutput :=
            if depends then m_apt.get_depends pkg false (fun i => cancel (k + 1 + i))
            else m_apt.get_requires pkg false (fun i => cancel (k + 1 + i))
          match depends_loop h m_apt depends cancel rest (k + 1 + pkgOutput.2) with
          | .error e => .error e
          | .ok r => .ok (pkgOutput.1 ++ r.1, r.2)

/-- The function `backend_get_depends_or_requires_thread`: the calls it makes
and its return value.  `init` is the `aptcc` object when `m_apt->init`
succeeds, `none` when it fails; `cancel k` is the value of `_cancel` at the
`k`-th read of the run. -/
def backend_get_depends_or_requires_thread (h : Helpers) (init : Option aptcc)
    (package_ids : List String) (filters : PkBitfield) (depends : Bool) (cancel : Nat → Bool) :
    List Event × Bool :=
  let log := [Event.set_allow_cancel true]
  match package_ids.head?.bind h.pk_package_id_new_from_string with
  | none =>
    (log ++ [Event.error_code .PACKAGE_ID_INVALID "invalid package id", Event.finished], false)
  | some _ =>
    let log := log ++ [Event.set_status .QUERY]
    match init with
    | none => (log, false)
    | some m_apt =>
      match depends_loop h m_apt depends cancel package_ids 0 with
      | .error e => (log ++ [Event.error_code e.1 e.2, Event.finished], false)
      | .ok r =>
        let output := std_sort h.compare r.1
        let output := std_unique h.result_equality output
        (log ++ emit_loop filters cancel output r.2 ++ [Event.finished], true)

/-! ## `backend_search_file_thread` -/

/-- The loop over the names returned by `search_file`. -/
def search_file_loop (m_apt : aptcc) (filters : PkBitfield) (cancel : Nat → Bool) :
    List String → Nat → List Event
  | [], _ => []
  | i :: rest, k =>
    if cancel k then []
    else
      match (m_apt.FindPkg i).bind fun pkg => (m_apt.find_ver pkg).map fun ver => (pkg, ver) with
      | none => search_file_loop m_apt filters cancel rest (k + 1)
      | some r => Event.emit_package filters r.1 r.2
          :: search_file_loop m_apt filters cancel rest (k + 1)

/-- The function `backend_search_file_thread`. -/
def backend_search_file_thread (h : Helpers) (init : Option aptcc) (search : String)
    (filters : PkBitfield) (cancel : Nat → Bool) : List Event × Bool :=
  let log := [Event.set_status .QUERY, Event.set_allow_cancel true]
  if !pk_bitfield_contain filters .NOT_INSTALLED then
    match init with
    | none => (log, false)
    | some m_apt =>
      let packages := h.search_file search cancel
      (log ++ search_file_loop m_apt filters cancel packages.1 packages.2 ++ [Event.finished],
        true)
  else
    (log ++ [Event.finished], true)

/-! ## `backend_search_group_thread` -/

/-- The string `pkg.VersionList ().Section ()`: the section of the first
version of the package (the empty string stands for the read through an end
iterator, which no package with a version found reaches). -/
def version_list_section (m_apt : aptcc) (pkg : PkgIterator) : String :=
  match m_apt.VersionList pkg with
  | [] => ""
  | ver :: _ => ver.Section

/-- The body of the accumulation loop of `backend_search_group_thread`. -/
def search_group_body (h : Helpers) (m_apt : aptcc) (pkGroup : PkGroupEnum)
    (pkg : PkgIterator) : List PkgPair :=
  if only_due_to_dependencies m_apt pkg then []
  else
    match m_apt.find_ver pkg with
    | some ver =>
      let sect := section_tail (version_list_section m_apt pkg)
      if pkGroup == h.get_enum_group sect then [(pkg, ver)] else []
    | none => []

/-- The function `backend_search_group_thread`; `group` is `none` for NULL. -/
def backend_search_group_thread (h : Helpers) (init : Option aptcc) (group : Option String)
    (filters : PkBitfield) (cancel : Nat → Bool) : List Event × Bool :=
  let log := [Event.set_allow_cancel true]
  match group with
  | none => (log ++ [Event.error_code .GROUP_NOT_FOUND "Group is invalid.", Event.finished], false)
  | some group =>
    let log := log ++ [Event.set_status .QUERY, Event.set_percentage 0]
    let pkGroup := h.pk_group_enum_from_text group
    match init with
    | none => (log, false)
    | some m_apt =>
      let r := accumulate_loop (search_group_body h m_apt pkGroup) cancel m_apt.PkgList 0
      let output := std_sort h.compare r.1
      (log ++ emit_loop filters cancel output r.2
        ++ [Event.set_percentage 100, Event.finished], true)

/-! ## `backend_search_package_thread` -/

/-- The body of the accumulation loop of `backend_search_package_thread` when
`search_details` is set. -/
def search_details_body (m_apt : aptcc) (m_matches : String → Bool) (pkg : PkgIterator) :
    List PkgPair :=
  if only_due_to_dependencies m_apt pkg then []
  else if m_matches (m_apt.Name pkg) then
    match m_apt.find_ver pkg with
    | some ver => [(pkg, ver)]
    | none => providers m_apt (fun _ _ => true) pkg
  else
    match m_apt.find_ver pkg with
    | some ver => if description_matches m_apt m_matches ver then [(pkg, ver)] else []
    | none =>
      providers m_apt
        (fun owner ver => m_matches (m_apt.Name owner) || description_matches m_apt m_matches ver)
        pkg

/-- The body of the accumulation loop of `backend_search_package_thread` when
`search_details` is not set. -/
def search_name_body (m_apt : aptcc) (m_matches : String → Bool) (pkg : PkgIterator) :
    List PkgPair :=
  if only_due_to_dependencies m_apt pkg then []
  else if m_matches (m_apt.Name pkg) then
    match m_apt.find_ver pkg with
    | some ver => [(pkg, ver)]
    | none => providers m_apt (fun _ _ => true) pkg
  else []

/-- The accumulation phase of `backend_search_package_thread`: the vector
`output` before it is sorted, and the number of reads of `_cancel` made. -/
def search_package_output (m_apt : aptcc) (m_matches : String → Bool) (search_details : Bool)
    (cancel : Nat → Bool) : List PkgPair × Nat :=
  if search_details then
    accumulate_loop (search_details_body m_apt m_matches) cancel m_apt.PkgList 0
  else
    accumulate_loop (search_name_body m_apt m_matches) cancel m_apt.PkgList 0

/-- The function `backend_search_package_thread`, run by `backend_search_name`
with `search_details` false and by `backend_search_details` with it true.
`pending_error` is the value of `_error->PendingError ()`. -/
def backend_search_package_thread (h : Helpers) (init : Option aptcc) (pending_error : Bool)
    (search : String) (filters : PkBitfield) (search_details : Bool) (cancel : Nat → Bool) :
    List Event × Bool :=
  let log := [Event.set_percentage PK_BACKEND_PERCENTAGE_INVALID, Event.set_allow_cancel true,
    Event.set_status .QUERY]
  match h.matcher search with
  | none => (log, false)
  | some m_matches =>
    match init with
    | none => (log, false)
    | some m_apt =>
      if pending_error then (log, false)
      else
        let r := search_package_output m_apt m_matches search_details cancel
        let output := std_sort h.compare r.1
        let output := std_unique h.result_equality output
        (log ++ emit_loop filters cancel output r.2
          ++ [Event.set_percentage 100, Event.finished], true)

/-! ## `backend_get_packages_thread` -/

/-- The body of the accumulation loop of `backend_get_packages_thread`. -/
def get_packages_body (m_apt : aptcc) (pkg : PkgIterator) : List PkgPair :=
  if only_due_to_dependencies m_apt pkg then []
  else
    match m_apt.find_ver pkg with
    | some ver => [(pkg, ver)]
    | none => []

/-- The function `backend_get_packages_thread`. -/
def backend_get_packages_thread (h : Helpers) (init : Option aptcc) (filters : PkBitfield)
    (cancel : Nat → Bool) : List Event × Bool :=
  let log := [Event.set_status .QUERY, Event.set_allow_cancel true]
  match init with
  | none => (log, false)
  | some m_apt =>
    let r := accumulate_loop (get_packages_body m_apt) cancel m_apt.PkgList 0
    let output := std_sort h.compare r.1
    (log ++ emit_loop filters cancel output r.2 ++ [Event.finished], true)

/-! ## `backend_cancel` and the timeout callbacks -/

/-- The call `g_source_remove (tag)`: the source of that id leaves the main
loop; nothing happens when there is none. -/
def g_source_remove (backend : Backend) (tag : Nat) : Backend :=
  { backend with sources := backend.sources.filter fun s => s.id != tag }

/-- The callback `backend_cancel_timeout`: the state after it and its return
value. -/
def backend_cancel_timeout (backend : Backend) : Backend × Bool :=
  let backend := { backend with _signal_timeout := 0 }
  let backend := pk_backend_error_code backend .TRANSACTION_CANCELLED
    "The task was stopped successfully"
  let backend := pk_backend_finished backend
  (backend, false)

/-- The function `backend_cancel`.  The id that `g_timeout_add` returns for
the cancel callback is not stored. -/
def backend_cancel (backend : Backend) : Backend :=
  let backend :=
    if backend._signal_timeout != 0 then
      let backend := g_source_remove backend backend._signal_timeout
      (g_timeout_add backend 1500 .backend_cancel_timeout).1
    else backend
  { backend with _cancel := true }

/-- The entry `_package_ids[i]`: NULL at and after the end of the vector. -/
def package_ids_at (backend : Backend) (i : Nat) : Option String :=
  backend._package_ids.get? i

/-- The callback `backend_get_update_detail_timeout`. -/
def backend_get_update_detail_timeout (backend : Backend) : Backend × Bool :=
  let backend := backend._package_ids.foldl (fun backend package_id =>
    let backend :=
      if egg_strequal (some package_id) "powertop;1.8-1.fc8;i386;fedora" then
        pk_backend_update_detail backend package_id
          "powertop;1.7-1.fc8;i386;installed" ""
          "http://www.distro-update.org/page?moo;Bugfix release for powertop"
          "http://bgzilla.fd.org/result.php?#12344;Freedesktop Bugzilla #12344"
          (some "") .NONE "Update to newest upstream source"
          "" .STABLE (some "2008-07-31") none
      else backend
    let backend :=
      if egg_strequal (some package_id) "kernel;2.6.23-0.115.rc3.git1.fc8;i386;installed" then
        pk_backend_update_detail backend package_id
          ("kernel;2.6.22-0.104.rc3.git6.fc8;i386;installed^" ++
            "kernel;2.6.22-0.105.rc3.git7.fc8;i386;installed") ""
          "http://www.distro-update.org/page?moo;Bugfix release for kernel"
          ("http://bgzilla.fd.org/result.php?#12344;Freedesktop Bugzilla #12344;" ++
            "http://bgzilla.gnome.org/result.php?#9876;GNOME Bugzilla #9876")
          (some "http://nvd.nist.gov/nvd.cfm?cvename=CVE-2007-3381;CVE-2007-3381")
          .SYSTEM "Update to newest version"
          "" .UNSTABLE (some "2008-06-28") none
      else backend
    if egg_strequal (some package_id) "gtkhtml2;2.19.1-4.fc8;i386;fedora" then
      pk_backend_update_detail backend package_id
        "gtkhtml2;2.18.1-22.fc8;i386;installed" ""
        "http://www.distro-update.org/page?moo;Bugfix release for gtkhtml"
        "http://bgzilla.gnome.org/result.php?#9876;GNOME Bugzilla #9876"
        none .SESSION
        ("Update to latest whizz bang version\n" ++
          "* support this new thing\n" ++
          "* something else\n" ++
          "- and that new thing")
        "" .UNKNOWN (some "2008-07-25") none
    else backend) backend
  let backend := pk_backend_finished backend
  ({ backend with _signal_timeout := 0 }, false)

/-- The callback `backend_get_updates_timeout`. -/
def backend_get_updates_timeout (backend : Backend) : Backend × Bool :=
  let backend :=
    if !backend._updated_powertop && !backend._updated_kernel && !backend._updated_gtkhtml then
      pk_backend_package backend .BLOCKED "vino;2.24.2.fc9;i386;fedora"
        (some "Remote desktop server for the desktop")
    else backend
  let backend :=
    if !backend._updated_powertop then
      pk_backend_package backend .NORMAL "powertop;1.8-1.fc8;i386;fedora"
        (some "Power consumption monitor")
    else backend
  let backend :=
    if !backend._updated_kernel then
      pk_backend_package backend .SECURITY "kernel;2.6.23-0.115.rc3.git1.fc8;i386;installed"
        (some "The Linux kernel (the core of the Linux operating system)")
    else backend
  let backend :=
    if !backend._updated_gtkhtml then
      pk_backend_package backend .SECURITY "gtkhtml2;2.19.1-4.fc8;i386;fedora"
        (some "An HTML widget for GTK+ 2.0")
    else backend
  let backend := pk_backend_finished backend
  ({ backend with _signal_timeout := 0 }, false)

/-- The value of `((gfloat) (_progress_percentage - 30.0f) / 20.0f) * 100.0f`
converted to `guint`, computed in exact arithmetic (for the counter values 31
to 49, where it is used, the exact value is the multiple of five
`5 * (percentage - 30)`). -/
def install_sub_percent (percentage : Nat) : Nat :=
  (percentage - 30) * 100 / 20

/-- The callback `backend_install_timeout`.  The counter is a `guint`. -/
def backend_install_timeout (backend : Backend) : Backend × Bool :=
  if backend._progress_percentage == 100 then
    (pk_backend_finished backend, false)
  else
    let backend :=
      if backend._progress_percentage == 30 then
        let backend := pk_backend_set_allow_cancel backend false
        let backend := pk_backend_package backend .INSTALLING
          "gtkhtml2;2.19.1-4.fc8;i386;fedora" (some "An HTML widget for GTK+ 2.0")
        pk_backend_set_status backend .INSTALL
      else backend
    let backend :=
      if backend._progress_percentage == 50 then
        let backend := pk_backend_package backend .INSTALLING
          "gtkhtml2-devel;2.19.1-0.fc8;i386;fedora" (some "Devel files for gtkhtml")
        let backend := pk_backend_package backend .INSTALLING
          "gtkhtml2-devel;2.19.1-0.fc8;i386;fedora" none
        pk_backend_set_status backend .INSTALL
      else backend
    let backend :=
      if backend._progress_percentage > 30 && backend._progress_percentage < 50 then
        pk_backend_set_sub_percentage backend (install_sub_percent backend._progress_percentage)
      else
        pk_backend_set_sub_percentage backend PK_BACKEND_PERCENTAGE_INVALID
    let backend :=
      { backend with _progress_percentage := (backend._progress_percentage + 1) % 2 ^ 32 }
    let backend := pk_backend_set_percentage backend backend._progress_percentage
    (backend, true)

/-- The callback `backend_install_files_timeout`. -/
def backend_install_files_timeout (backend : Backend) : Backend × Bool :=
  (pk_backend_finished backend, false)

/-- The function `backend_install_files`. -/
def backend_install_files (backend : Backend) (_trusted : Bool) (_full_paths : List String) :
    Backend :=
  let backend := pk_backend_set_status backend .INSTALL
  let backend := pk_backend_set_percentage backend 101
  let (backend, id) := g_timeout_add backend 2000 .backend_install_files_timeout
  { backend with _signal_timeout := id }

/-- The callback `backend_refresh_cache_timeout`. -/
def backend_refresh_cache_timeout (backend : Backend) : Backend × Bool :=
  if backend._progress_percentage == 100 then
    (pk_backend_finished backend, false)
  else
    let backend :=
      if backend._progress_percentage == 80 then pk_backend_set_allow_cancel backend false
      else backend
    let backend :=
      { backend with _progress_percentage := (backend._progress_percentage + 10) % 2 ^ 32 }
    let backend := pk_backend_set_percentage backend backend._progress_percentage
    (backend, true)

/-- The callback `backend_update_packages_update_timeout`. -/
def backend_update_packages_update_timeout (backend : Backend) : Backend × Bool :=
  let package := package_ids_at backend backend._package_current
  let backend :=
    if egg_strequal package "powertop;1.8-1.fc8;i386;fedora" then
      let backend := pk_backend_package backend .UPDATING (package.getD "")
        (some "Power consumption monitor")
      { backend with _updated_powertop := true }
    else backend
  let backend :=
    if egg_strequal package "kernel;2.6.23-0.115.rc3.git1.fc8;i386;installed" then
      let backend := pk_backend_package backend .UPDATING (package.getD "")
        (some "The Linux kernel (the core of the Linux operating system)")
      { backend with _updated_kernel := true }
    else backend
  let backend :=
    if egg_strequal package "gtkhtml2;2.19.1-4.fc8;i386;fedora" then
      let backend := pk_backend_package backend .UPDATING (package.getD "")
        (some "An HTML widget for GTK+ 2.0")
      { backend with _updated_gtkhtml := true }
    else backend
  let backend := { backend with _package_current := (backend._package_current + 1) % 2 ^ 32 }
  let len : Nat := backend._package_ids.length
  if (backend._package_current + 1) % 2 ^ 32 > len then
    let backend := pk_backend_set_percentage backend 100
    let backend := pk_backend_finished backend
    ({ backend with _signal_timeout := 0 }, false)
  else
    (backend, true)

/-- The callback `backend_update_packages_download_timeout`.  A NULL entry of
`_package_ids` is passed on as the empty id. -/
def backend_update_packages_download_timeout (backend : Backend) : Backend × Bool :=
  let backend := pk_backend_package backend .DOWNLOADING
    ((package_ids_at backend backend._package_current).getD "") (some "The same thing")
  let backend := { backend with _package_current := (backend._package_current + 1) % 2 ^ 32 }
  let len : Nat := backend._package_ids.length
  if (backend._package_current + 1) % 2 ^ 32 > len then
    let backend := { backend with _package_current := 0 }
    let backend := pk_backend_set_status backend .UPDATE
    let backend := pk_backend_set_percentage backend 50
    let (backend, id) := g_timeout_add backend 2000 .backend_update_packages_update_timeout
    ({ backend with _signal_timeout := id }, false)
  else
    (backend, true)

/-- The callback `backend_update_system_timeout`. -/
def backend_update_system_timeout (backend : Backend) : Backend × Bool :=
  if backend._progress_percentage == 100 then
    (pk_backend_finished backend, false)
  else
    let backend :=
      if backend._progress_percentage == 0 && !backend._updated_powertop then
        pk_backend_package backend .DOWNLOADING "powertop;1.8-1.fc8;i386;fedora"
          (some "Power consumption monitor")
      else backend
    let backend :=
      if backend._progress_percentage == 20 && !backend._updated_kernel then
        pk_backend_package backend .DOWNLOADING "kernel;2.6.23-0.115.rc3.git1.fc8;i386;installed"
          (some "The Linux kernel (the core of the Linux operating system)")
      else backend
    let backend :=
      if backend._progress_percentage == 30 && !backend._updated_gtkhtml then
        let backend := pk_backend_package backend .BLOCKED "gtkhtml2;2.19.1-4.fc8;i386;fedora"
          (some "An HTML widget for GTK+ 2.0")
        { backend with _updated_gtkhtml := false }
      else backend
    let backend :=
      if backend._progress_percentage == 40 && !backend._updated_powertop then
        let backend := pk_backend_set_status backend .UPDATE
        let backend := pk_backend_set_allow_cancel backend false
        let backend := pk_backend_package backend .INSTALLING "powertop;1.8-1.fc8;i386;fedora"
          (some "Power consumption monitor")
        { backend with _updated_powertop := true }
      else backend
    let backend :=
      if backend._progress_percentage == 60 && !backend._updated_kernel then
        let backend := pk_backend_package backend .UPDATING
          "kernel;2.6.23-0.115.rc3.git1.fc8;i386;installed"
          (some "The Linux kernel (the core of the Linux operating system)")
        { backend with _updated_kernel := true }
      else backend
    let backend :=
      if backend._progress_percentage == 80 && !backend._updated_kernel then
        pk_backend_package backend .CLEANUP "kernel;2.6.23-0.115.rc3.git1.fc8;i386;installed"
          (some "The Linux kernel (the core of the Linux operating system)")
      else backend
    let backend :=
      { backend with _progress_percentage := (backend._progress_percentage + 10) % 2 ^ 32 }
    let backend := pk_backend_set_percentage backend backend._progress_percentage
    (backend, true)

/-- The callback `backend_what_provides_timeout`. -/
def backend_what_provides_timeout (backend : Backend) : Backend × Bool :=
  if backend._progress_percentage == 100 then
    let backend :=
      if egg_strequal (some backend._search)
          "gstreamer0.10(decoder-audio/x-wma)(wmaversion=3)" then
        pk_backend_package backend .AVAILABLE "gstreamer-plugins-bad;0.10.3-5.lvn;i386;available"
          (some "GStreamer streaming media framework \"bad\" plug-ins")
      else if egg_strequal (some backend._search)
          "gstreamer0.10(decoder-video/x-wma)(wmaversion=3)" then
        pk_backend_package backend .AVAILABLE
          "gstreamer-plugins-flumpegdemux;0.10.15-5.lvn;i386;available"
          (some "MPEG demuxer for GStreamer")
      else
        let backend := pk_backend_package backend .INSTALLED "evince;0.9.3-5.fc8;i386;installed"
          (some "PDF Document viewer")
        pk_backend_package backend .AVAILABLE "scribus;1.3.4-1.fc8;i386;fedora"
          (some "Scribus is an desktop open source page layout program")
    (pk_backend_finished backend, false)
  else
    let backend :=
      { backend with _progress_percentage := (backend._progress_percentage + 10) % 2 ^ 32 }
    let backend := pk_backend_set_percentage backend backend._progress_percentage
    (backend, true)

/-! ## The glib main loop -/

/-- Run the function a `Callback` names. -/
def dispatch (callback : Callback) (backend : Backend) : Backend × Bool :=
  match callback with
  | .backend_cancel_timeout => backend_cancel_timeout backend
  | .backend_get_update_detail_timeout => backend_get_update_detail_timeout backend
  | .backend_get_updates_timeout => backend_get_updates_timeout backend
  | .backend_install_timeout => backend_install_timeout backend
  | .backend_install_files_timeout => backend_install_files_timeout backend
  | .backend_refresh_cache_timeout => backend_refresh_cache_timeout backend
  | .backend_update_packages_update_timeout => backend_update_packages_update_timeout backend
  | .backend_update_packages_download_timeout => backend_update_packages_download_timeout backend
  | .backend_update_system_timeout => backend_update_system_timeout backend
  | .backend_what_provides_timeout => backend_what_provides_timeout backend

/-- One firing of the timeout source `id` by the main loop: its callback runs,
and the source is destroyed when the callback returns false.  Nothing happens
when no source has that id. -/
def fire (backend : Backend) (id : Nat) : Backend :=
  match backend.sources.find? fun s => s.id == id with
  | none => backend
  | some s =>
    let r := dispatch s.callback backend
    if r.2 then r.1 else g_source_remove r.1 id

/-- The main loop firing the sources `ids` one after the other. -/
def fire_all (backend : Backend) (ids : List Nat) : Backend :=
  ids.foldl fire backend

/-- The events `backend_install_timeout` emits on a call with the counter at
`percentage`, below 100. -/
def install_step_events (percentage : Nat) : List Event :=
  (if percentage = 30 then
    [Event.set_allow_cancel false,
      Event.package .INSTALLING "gtkhtml2;2.19.1-4.fc8;i386;fedora"
        (some "An HTML widget for GTK+ 2.0"),
      Event.set_status .INSTALL]
  else []) ++
  (if percentage = 50 then
    [Event.package .INSTALLING "gtkhtml2-devel;2.19.1-0.fc8;i386;fedora"
        (some "Devel files for gtkhtml"),
      Event.package .INSTALLING "gtkhtml2-devel;2.19.1-0.fc8;i386;fedora" none,
      Event.set_status .INSTALL]
  else []) ++
  [Event.set_sub_percentage
      (if 30 < percentage ∧ percentage < 50 then install_sub_percent percentage
        else PK_BACKEND_PERCENTAGE_INVALID),
    Event.set_percentage (percentage + 1)]

/-- The events of the first `n` calls of `backend_install_timeout` after the
counter was reset. -/
def install_events (n : Nat) : List Event :=
  (List.range n).flatMap install_step_events

/-! ## `backend_get_details_thread` and `backend_get_files_thread` -/

/-- The loop over `package_ids` of `backend_get_details_thread` (with
`emit_one` the call `m_apt->emit_details`) and of `backend_get_files_thread`
(with `emit_one` the call `emit_files`): the calls made, and whether the loop
ran to its end. -/
def details_loop (h : Helpers) (m_apt : aptcc)
    (emit_one : PkgIterator → PkPackageId → Event) : List String → List Event × Bool
  | [] => ([], true)
  | id :: rest =>
    match h.pk_package_id_new_from_string id with
    | none => ([Event.error_code .PACKAGE_ID_INVALID "invalid package id", Event.finished], false)
    | some pi =>
      match m_apt.FindPkg pi.name with
      | none =>
        ([Event.error_code .PACKAGE_NOT_FOUND "couldn't find package", Event.finished], false)
      | some pkg =>
        let r := details_loop h m_apt emit_one rest
        (emit_one pkg pi :: r.1, r.2)

/-- The common shape of `backend_get_details_thread` and
`backend_get_files_thread`; `package_ids` is `none` for NULL. -/
def details_or_files_thread (h : Helpers) (init : Option aptcc)
    (emit_one : PkgIterator → PkPackageId → Event) (package_ids : Option (List String)) :
    List Event × Bool :=
  match package_ids with
  | none => ([Event.error_code .PACKAGE_ID_INVALID "invalid package id", Event.finished], false)
  | some package_ids =>
    let log := [Event.set_status .QUERY]
    match init with
    | none => (log, false)
    | some m_apt =>
      let r := details_loop h m_apt emit_one package_ids
      if r.2 then (log ++ r.1 ++ [Event.finished], true) else (log ++ r.1, false)

/-- The function `backend_get_details_thread`. -/
def backend_get_details_thread (h : Helpers) (init : Option aptcc)
    (package_ids : Option (List String)) : List Event × Bool :=
  details_or_files_thread h init (fun pkg _ => Event.emit_details pkg) package_ids

/-- The function `backend_get_files_thread`. -/
def backend_get_files_thread (h : Helpers) (init : Option aptcc)
    (package_ids : Option (List String)) : List Event × Bool :=
  details_or_files_thread h init (fun _ pi => Event.emit_files pi) package_ids

/-! ## The remaining operations run on the main loop -/

/-- The function `backend_install_signature`. -/
def backend_install_signature (backend : Backend) (type : PkSigTypeEnum) (key_id : String)
    (package_id : String) : Backend :=
  let backend := pk_backend_set_status backend .INSTALL
  let backend :=
    if type == .GPG &&
        egg_strequal (some package_id) "vips-doc;7.12.4-2.fc8;noarch;linva" &&
        egg_strequal (some key_id) "BB7576AC" then
      { backend with _has_signature := true }
    else
      pk_backend_error_code backend .GPG_FAILURE
        ("GPG key " ++ key_id ++ " not recognised for package_id " ++ package_id)
  pk_backend_finished backend

/-- The function `backend_update_packages`. -/
def backend_update_packages (backend : Backend) (package_ids : List String) : Backend :=
  let backend := { backend with _package_ids := package_ids }
  let backend := { backend with _package_current := 0 }
  let backend := pk_backend_set_percentage backend 0
  let backend := pk_backend_set_status backend .DOWNLOAD
  let (backend, id) := g_timeout_add backend 2000 .backend_update_packages_download_timeout
  { backend with _signal_timeout := id }

/-- The function `backend_update_system`. -/
def backend_update_system (backend : Backend) : Backend :=
  let backend := pk_backend_set_status backend .DOWNLOAD
  let backend := pk_backend_set_allow_cancel backend true
  let backend := { backend with _progress_percentage := 0 }
  let backend := pk_backend_require_restart backend .SYSTEM none
  let (backend, id) := g_timeout_add backend 1000 .backend_update_system_timeout
  { backend with _signal_timeout := id }

/-- The function `backend_get_repo_list`. -/
def backend_get_repo_list (backend : Backend) (filters : PkBitfield) : Backend :=
  let backend := pk_backend_set_status backend .QUERY
  let backend := pk_backend_repo_detail backend "fedora" "Fedora - 9"
    backend._repo_enabled_fedora
  let backend :=
    if !pk_bitfield_contain filters .NOT_DEVELOPMENT then
      pk_backend_repo_detail backend "development" "Fedora - Development"
        backend._repo_enabled_devel
    else backend
  let backend := pk_backend_repo_detail backend "livna-development"
    "Livna for Fedora Core 8 - i386 - Development Tree" backend._repo_enabled_livna
  pk_backend_finished backend

/-- The function `backend_repo_enable`. -/
def backend_repo_enable (backend : Backend) (rid : String) (enabled : Bool) : Backend :=
  let backend := pk_backend_set_status backend .REQUEST
  let backend :=
    if egg_strequal (some rid) "local" then
      { backend with _repo_enabled_local := enabled }
    else if egg_strequal (some rid) "development" then
      { backend with _repo_enabled_devel := enabled }
    else if egg_strequal (some rid) "fedora" then
      { backend with _repo_enabled_fedora := enabled }
    else if egg_strequal (some rid) "livna-development" then
      { backend with _repo_enabled_livna := enabled }
    else backend
  pk_backend_finished backend

/-- The percentages of a log: the argument of every `pk_backend_set_percentage`
call, in order. -/
def percentages (log : List Event) : List Nat :=
  log.filterMap fun e =>
    match e with
    | .set_percentage percentage => some percentage
    | _ => none

/-- The repositories of a log: id and enabled flag of every
`pk_backend_repo_detail` call, in order. -/
def repo_details (log : List Event) : List (String × Bool) :=
  log.filterMap fun e =>
    match e with
    | .repo_detail repo_id _ enabled => some (repo_id, enabled)
    | _ => none

/-- The flag `_cancel` being set (by `backend_cancel`) at the moment of the
`c`-th read of a run and staying set: the reads before `c` see false, the
reads from `c` on see true. -/
def cancel_at (c : Nat) : Nat → Bool :=
  fun k => decide (c ≤ k)

/-- The events `backend_update_packages_update_timeout` emits for one id. -/
def update_step_events (package : String) : List Event :=
  (if package = "powertop;1.8-1.fc8;i386;fedora" then
    [Event.package .UPDATING package (some "Power consumption monitor")] else []) ++
  (if package = "kernel;2.6.23-0.115.rc3.git1.fc8;i386;installed" then
    [Event.package .UPDATING package
      (some "The Linux kernel (the core of the Linux operating system)")] else []) ++
  (if package = "gtkhtml2;2.19.1-4.fc8;i386;fedora" then
    [Event.package .UPDATING package (some "An HTML widget for GTK+ 2.0")] else [])

/-- The Downloading events of an update of `package_ids`, one per id. -/
def download_events (package_ids : List String) : List Event :=
  package_ids.map fun package => Event.package .DOWNLOADING package (some "The same thing")

/-- The Updating events of an update of `package_ids`: one for every id that is
one of the three known update ids, in order. -/
def update_events (package_ids : List String) : List Event :=
  package_ids.flatMap update_step_events

/-- The signature prompts of a log: the package id of every
`pk_backend_repo_signature_required` call, in order. -/
def signature_required_events (log : List Event) : List String :=
  log.filterMap fun e =>
    match e with
    | .repo_signature_required package_id _ _ _ _ _ _ _ => some package_id
    | _ => none

/-- The calls of a complete run of `backend_update_system` and its timer, by
the values the three updated flags have when the run starts: the calls of
`backend_update_system`, then those of the ten calls of
`backend_update_system_timeout` with the counter at 0, 10, ..., 90, then the
`finished` of the call with the counter at 100. -/
def update_system_events (updated_powertop updated_kernel updated_gtkhtml : Bool) :
    List Event :=
  [Event.set_status .DOWNLOAD, Event.set_allow_cancel true,
    Event.require_restart .SYSTEM none] ++
  (if !updated_powertop then
    [Event.package .DOWNLOADING "powertop;1.8-1.fc8;i386;fedora"
      (some "Power consumption monitor")] else []) ++
  [Event.set_percentage 10, Event.set_percentage 20] ++
  (if !updated_kernel then
    [Event.package .DOWNLOADING "kernel;2.6.23-0.115.rc3.git1.fc8;i386;installed"
      (some "The Linux kernel (the core of the Linux operating system)")] else []) ++
  [Event.set_percentage 30] ++
  (if !updated_gtkhtml then
    [Event.package .BLOCKED "gtkhtml2;2.19.1-4.fc8;i386;fedora"
      (some "An HTML widget for GTK+ 2.0")] else []) ++
  [Event.set_percentage 40] ++
  (if !updated_powertop then
    [Event.set_status .UPDATE, Event.set_allow_cancel false,
      Event.package .INSTALLING "powertop;1.8-1.fc8;i386;fedora"
        (some "Power consumption monitor")] else []) ++
  [Event.set_percentage 50, Event.set_percentage 60] ++
  (if !updated_kernel then
    [Event.package .UPDATING "kernel;2.6.23-0.115.rc3.git1.fc8;i386;installed"
      (some "The Linux kernel (the core of the Linux operating system)")] else []) ++
  [Event.set_percentage 70, Event.set_percentage 80, Event.set_percentage 90,
    Event.set_percentage 100, Event.finished]

/-! ## The synchronous client wrappers of `pk-client-sync.c` -/

/-- A `PkProvidesEnum` value, as its number. -/
abbrev PkProvidesEnum := Nat

/-- A `PkResults` object, by its address. -/
structure PkResults where
  address : Nat
  deriving DecidableEq, Repr

/-- The `cancellable`, `progress_callback` and `progress_user_data` a caller
passes, each by its address (0 is NULL). -/
structure AsyncContext where
  cancellable : Nat
  progress_callback : Nat
  progress_user_data : Nat
  deriving DecidableEq, Repr

/-- The asynchronous operations of `pk-client.h`, each with the arguments of a
call; the ready callback and its user data, which are
`pk_client_generic_finish_sync` and the helper at every call of
`pk-client-sync.c`, are left out.  `pk_client_rollback_async` is declared in
`pk-client.h` and called nowhere in `pk-client-sync.c`. -/
inductive AsyncCall where
  | pk_client_resolve_async (filters : PkBitfield) (packages : List String) (context : AsyncContext)
  | pk_client_search_name_async (filters : PkBitfield) (search : String) (context : AsyncContext)
  | pk_client_search_details_async (filters : PkBitfield) (search : String) (context : AsyncContext)
  | pk_client_search_group_async (filters : PkBitfield) (search : String) (context : AsyncContext)
  | pk_client_search_file_async (filters : PkBitfield) (search : String) (context : AsyncContext)
  | pk_client_get_details_async (package_ids : List String) (context : AsyncContext)
  | pk_client_get_update_detail_async (package_ids : List String) (context : AsyncContext)
  | pk_client_download_packages_async (package_ids : List String) (directory : String)
      (context : AsyncContext)
  | pk_client_get_updates_async (filters : PkBitfield) (context : AsyncContext)
  | pk_client_get_old_transactions_async (number : Nat) (context : AsyncContext)
  | pk_client_update_system_async (only_trusted : Bool) (context : AsyncContext)
  | pk_client_get_depends_async (filters : PkBitfield) (package_ids : List String) (recursive : Bool)
      (context : AsyncContext)
  | pk_client_get_packages_async (filters : PkBitfield) (context : AsyncContext)
  | pk_client_get_requires_async (filters : PkBitfield) (package_ids : List String) (recursive : Bool)
      (context : AsyncContext)
  | pk_client_what_provides_async (filters : PkBitfield) (provides : PkProvidesEnum) (search : String)
      (context : AsyncContext)
  | pk_client_get_distro_upgrades_async (context : AsyncContext)
  | pk_client_get_files_async (package_ids : List String) (context : AsyncContext)
  | pk_client_get_categories_async (context : AsyncContext)
  | pk_client_remove_packages_async (package_ids : List String) (allow_deps autoremove : Bool)
      (context : AsyncContext)
  | pk_client_refresh_cache_async (force : Bool) (context : AsyncContext)
  | pk_client_install_packages_async (only_trusted : Bool) (package_ids : List String)
      (context : AsyncContext)
  | pk_client_install_signature_async (type : PkSigTypeEnum) (key_id package_id : String)
      (context : AsyncContext)
  | pk_client_update_packages_async (only_trusted : Bool) (package_ids : List String)
      (context : AsyncContext)
  | pk_client_install_files_async (only_trusted : Bool) (files : List String)
      (context : AsyncContext)
  | pk_client_accept_eula_async (eula_id : String) (context : AsyncContext)
  | pk_client_rollback_async (transaction_id : String) (context : AsyncContext)
  | pk_client_get_repo_list_async (filters : PkBitfield) (context : AsyncContext)
  | pk_client_repo_enable_async (repo_id : String) (enabled : Bool) (context : AsyncContext)
  | pk_client_repo_set_data_async (repo_id parameter value : String) (context : AsyncContext)
  | pk_client_simulate_install_files_async (files : List String) (context : AsyncContext)
  | pk_client_simulate_install_packages_async (package_ids : List String) (context : AsyncContext)
  | pk_client_simulate_remove_packages_async (package_ids : List String) (context : AsyncContext)
  | pk_client_simulate_update_packages_async (package_ids : List String) (context : AsyncContext)
  | pk_client_adopt_async (transaction_id : String) (context : AsyncContext)
  deriving DecidableEq, Repr

/-- The struct `PkClientHelper`, by the field the wrappers read back; `error`
and `loop` only carry the caller's pointer and the main loop. -/
structure PkClientHelper where
  results : Option PkResults
  deriving DecidableEq, Repr

/-- The callback `pk_client_generic_finish_sync`; `results` is what
`pk_client_generic_finish (client, res, helper->error)` returned, `none` for
NULL. -/
def pk_client_generic_finish_sync (results : Option PkResults) (helper : PkClientHelper) :
    PkClientHelper :=
  match results with
  | some results => { helper with results := some results }
  | none => helper

/-- What a synchronous wrapper did: the asynchronous call it made, if it made
one, and the pointer it returned (`none` for NULL). -/
structure SyncOutcome where
  started : Option AsyncCall
  results : Option PkResults
  deriving DecidableEq, Repr

/-- The body every wrapper of `pk-client-sync.c` repeats around its
asynchronous call `call`: the two `g_return_val_if_fail` guards
(`PK_IS_CLIENT (client)`, then `error == NULL || *error == NULL`), the zeroed
helper, the call, the main loop running until the ready callback has run, and
the return of `helper->results`.  `finish` stands for `pk-client.c`, which is
not part of the translated files: it gives what `pk_client_generic_finish`
returns for the result the started operation completes with. -/
def pk_client_sync_body (finish : AsyncCall → Option PkResults) (client_valid error_clear : Bool)
    (call : AsyncCall) : SyncOutcome :=
  if !client_valid then ⟨none, none⟩
  else if !error_clear then ⟨none, none⟩
  else
    let helper : PkClientHelper := ⟨none⟩
    let helper := pk_client_generic_finish_sync (finish call) helper
    let results := helper.results
    ⟨some call, results⟩

/-- The function `pk_client_resolve`. -/
def pk_client_resolve (finish : AsyncCall → Option PkResults) (client_valid : Bool)
    (filters : PkBitfield) (packages : List String) (context : AsyncContext) (error_clear : Bool) :
    SyncOutcome :=
  pk_client_sync_body finish client_valid error_clear
    (.pk_client_resolve_async filters packages context)

/-- The function `pk_client_search_name`. -/
def pk_client_search_name (finish : AsyncCall → Option PkResults) (client_valid : Bool)
    (filters : PkBitfield) (search : String) (context : AsyncContext) (error_clear : Bool) :
    SyncOutcome :=
  pk_client_sync_body finish client_valid error_clear
    (.pk_client_search_name_async filters search context)

/-- The function `pk_client_search_details`. -/
def pk_client_search_details (finish : AsyncCall → Option PkResults) (client_valid : Bool)
    (filters : PkBitfield) (search : String) (context : AsyncContext) (error_clear : Bool) :
    SyncOutcome :=
  pk_client_sync_body finish client_valid error_clear
    (.pk_client_search_details_async filters search context)

/-- The function `pk_client_search_group`. -/
def pk_client_search_group (finish : AsyncCall → Option PkResults) (client_valid : Bool)
    (filters : PkBitfield) (search : String) (context : AsyncContext) (error_clear : Bool) :
    SyncOutcome :=
  pk_client_sync_body finish client_valid error_clear
    (.pk_client_search_group_async filters search context)

/-- The function `pk_client_search_file`. -/
def pk_client_search_file (finish : AsyncCall → Option PkResults) (client_valid : Bool)
    (filters : PkBitfield) (search : String) (context : AsyncContext) (error_clear : Bool) :
    SyncOutcome :=
  pk_client_sync_body finish client_valid error_clear
    (.pk_client_search_file_async filters search context)

/-- The function `pk_client_get_details`. -/
def pk_client_get_details (finish : AsyncCall → Option PkResults) (client_valid : Bool)
    (package_ids : List String) (context : AsyncContext) (error_clear : Bool) : SyncOutcome :=
  pk_client_sync_body finish client_valid error_clear
    (.pk_client_get_details_async package_ids context)

/-- The function `pk_client_get_update_detail`. -/
def pk_client_get_update_detail (finish : AsyncCall → Option PkResults) (client_valid : Bool)
    (package_ids : List String) (context : AsyncContext) (error_clear : Bool) : SyncOutcome :=
  pk_client_sync_body finish client_valid error_clear
    (.pk_client_get_update_detail_async package_ids context)

/-- The function `pk_client_download_packages`. -/
def pk_client_download_packages (finish : AsyncCall → Option PkResults) (client_valid : Bool)
    (package_ids : List String) (directory : String) (context : AsyncContext) (error_clear : Bool) :
    SyncOutcome :=
  pk_client_sync_body finish client_valid error_clear
    (.pk_client_download_packages_async package_ids directory context)

/-- The function `pk_client_get_updates`. -/
def pk_client_get_updates (finish : AsyncCall → Option PkResults) (client_valid : Bool)
    (filters : PkBitfield) (context : AsyncContext) (error_clear : Bool) : SyncOutcome :=
  pk_client_sync_body finish client_valid error_clear (.pk_client_get_updates_async filters context)

/-- The function `pk_client_get_old_transactions`. -/
def pk_client_get_old_transactions (finish : AsyncCall → Option PkResults) (client_valid : Bool)
    (number : Nat) (context : AsyncContext) (error_clear : Bool) : SyncOutcome :=
  pk_client_sync_body finish client_valid error_clear
    (.pk_client_get_old_transactions_async number context)

/-- The function `pk_client_update_system`. -/
def pk_client_update_system (finish : AsyncCall → Option PkResults) (client_valid : Bool)
    (only_trusted : Bool) (context : AsyncContext) (error_clear : Bool) : SyncOutcome :=
  pk_client_sync_body finish client_valid error_clear
    (.pk_client_update_system_async only_trusted context)

/-- The function `pk_client_get_depends`. -/
def pk_client_get_depends (finish : AsyncCall → Option PkResults) (client_valid : Bool)
    (filters : PkBitfield) (package_ids : List String) (recursive : Bool) (context : AsyncContext) (error_clear : Bool) :
    SyncOutcome :=
  pk_client_sync_body finish client_valid error_clear
    (.pk_client_get_depends_async filters package_ids recursive context)

/-- The function `pk_client_get_packages`. -/
def pk_client_get_packages (finish : AsyncCall → Option PkResults) (client_valid : Bool)
    (filters : PkBitfield) (context : AsyncContext) (error_clear : Bool) : SyncOutcome :=
  pk_client_sync_body finish client_valid error_clear
    (.pk_client_get_packages_async filters context)

/-- The function `pk_client_get_requires`. -/
def pk_client_get_requires (finish : AsyncCall → Option PkResults) (client_valid : Bool)
    (filters : PkBitfield) (package_ids : List String) (recursive : Bool) (context : AsyncContext) (error_clear : Bool) :
    SyncOutcome :=
  pk_client_sync_body finish client_valid error_clear
    (.pk_client_get_requires_async filters package_ids recursive context)

/-- The function `pk_client_what_provides`. -/
def pk_client_what_provides (finish : AsyncCall → Option PkResults) (client_valid : Bool)
    (filters : PkBitfield) (provides : PkProvidesEnum) (search : String) (context : AsyncContext) (error_clear : Bool) :
    SyncOutcome :=
  pk_client_sync_body finish client_valid error_clear
    (.pk_client_what_provides_async filters provides search context)

/-- The function `pk_client_get_distro_upgrades`. -/
def pk_client_get_distro_upgrades (finish : AsyncCall → Option PkResults) (client_valid : Bool)
    (context : AsyncContext) (error_clear : Bool) : SyncOutcome :=
  pk_client_sync_body finish client_valid error_clear (.pk_client_get_distro_upgrades_async context)

/-- The function `pk_client_get_files`. -/
def pk_client_get_files (finish : AsyncCall → Option PkResults) (client_valid : Bool)
    (package_ids : List String) (context : AsyncContext) (error_clear : Bool) : SyncOutcome :=
  pk_client_sync_body finish client_valid error_clear
    (.pk_client_get_files_async package_ids context)

/-- The function `pk_client_get_categories`. -/
def pk_client_get_categories (finish : AsyncCall → Option PkResults) (client_valid : Bool)
    (context : AsyncContext) (error_clear : Bool) : SyncOutcome :=
  pk_client_sync_body finish client_valid error_clear (.pk_client_get_categories_async context)

/-- The function `pk_client_remove_packages`. -/
def pk_client_remove_packages (finish : AsyncCall → Option PkResults) (client_valid : Bool)
    (package_ids : List String) (allow_deps autoremove : Bool) (context : AsyncContext) (error_clear : Bool) :
    SyncOutcome :=
  pk_client_sync_body finish client_valid error_clear
    (.pk_client_remove_packages_async package_ids allow_deps autoremove context)

/-- The function `pk_client_refresh_cache`. -/
def pk_client_refresh_cache (finish : AsyncCall → Option PkResults) (client_valid : Bool)
    (force : Bool) (context : AsyncContext) (error_clear : Bool) : SyncOutcome :=
  pk_client_sync_body finish client_valid error_clear (.pk_client_refresh_cache_async force context)

/-- The function `pk_client_install_packages`. -/
def pk_client_install_packages (finish : AsyncCall → Option PkResults) (client_valid : Bool)
    (only_trusted : Bool) (package_ids : List String) (context : AsyncContext) (error_clear : Bool) :
    SyncOutcome :=
  pk_client_sync_body finish client_valid error_clear
    (.pk_client_install_packages_async only_trusted package_ids context)

/-- The function `pk_client_install_signature`. -/
def pk_client_install_signature (finish : AsyncCall → Option PkResults) (client_valid : Bool)
    (type : PkSigTypeEnum) (key_id package_id : String) (context : AsyncContext) (error_clear : Bool) :
    SyncOutcome :=
  pk_client_sync_body finish client_valid error_clear
    (.pk_client_install_signature_async type key_id package_id context)

/-- The function `pk_client_update_packages`. -/
def pk_client_update_packages (finish : AsyncCall → Option PkResults) (client_valid : Bool)
    (only_trusted : Bool) (package_ids : List String) (context : AsyncContext) (error_clear : Bool) :
    SyncOutcome :=
  pk_client_sync_body finish client_valid error_clear
    (.pk_client_update_packages_async only_trusted package_ids context)

/-- The function `pk_client_install_files`. -/
def pk_client_install_files (finish : AsyncCall → Option PkResults) (client_valid : Bool)
    (only_trusted : Bool) (files : List String) (context : AsyncContext) (error_clear : Bool) :
    SyncOutcome :=
  pk_client_sync_body finish client_valid error_clear
    (.pk_client_install_files_async only_trusted files context)

/-- The function `pk_client_accept_eula`. -/
def pk_client_accept_eula (finish : AsyncCall → Option PkResults) (client_valid : Bool)
    (eula_id : String) (context : AsyncContext) (error_clear : Bool) : SyncOutcome :=
  pk_client_sync_body finish client_valid error_clear (.pk_client_accept_eula_async eula_id context)

/-- The function `pk_client_rollback`: the asynchronous call in its body is
`pk_client_accept_eula_async (client, transaction_id, ...)`. -/
def pk_client_rollback (finish : AsyncCall → Option PkResults) (client_valid : Bool)
    (transaction_id : String) (context : AsyncContext) (error_clear : Bool) : SyncOutcome :=
  pk_client_sync_body finish client_valid error_clear
    (.pk_client_accept_eula_async transaction_id context)

/-- The function `pk_client_get_repo_list`. -/
def pk_client_get_repo_list (finish : AsyncCall → Option PkResults) (client_valid : Bool)
    (filters : PkBitfield) (context : AsyncContext) (error_clear : Bool) : SyncOutcome :=
  pk_client_sync_body finish client_valid error_clear
    (.pk_client_get_repo_list_async filters context)

/-- The function `pk_client_repo_enable`. -/
def pk_client_repo_enable (finish : AsyncCall → Option PkResults) (client_valid : Bool)
    (repo_id : String) (enabled : Bool) (context : AsyncContext) (error_clear : Bool) :
    SyncOutcome :=
  pk_client_sync_body finish client_valid error_clear
    (.pk_client_repo_enable_async repo_id enabled context)

/-- The function `pk_client_repo_set_data`. -/
def pk_client_repo_set_data (finish : AsyncCall → Option PkResults) (client_valid : Bool)
    (repo_id parameter value : String) (context : AsyncContext) (error_clear : Bool) :
    SyncOutcome :=
  pk_client_sync_body finish client_valid error_clear
    (.pk_client_repo_set_data_async repo_id parameter value context)

/-- The function `pk_client_simulate_install_files`. -/
def pk_client_simulate_install_files (finish : AsyncCall → Option PkResults) (client_valid : Bool)
    (files : List String) (context : AsyncContext) (error_clear : Bool) : SyncOutcome :=
  pk_client_sync_body finish client_valid error_clear
    (.pk_client_simulate_install_files_async files context)

/-- The function `pk_client_simulate_install_packages`. -/
def pk_client_simulate_install_packages (finish : AsyncCall → Option PkResults) (client_valid : Bool)
    (package_ids : List String) (context : AsyncContext) (error_clear : Bool) : SyncOutcome :=
  pk_client_sync_body finish client_valid error_clear
    (.pk_client_simulate_install_packages_async package_ids context)

/-- The function `pk_client_simulate_remove_packages`. -/
def pk_client_simulate_remove_packages (finish : AsyncCall → Option PkResults) (client_valid : Bool)
    (package_ids : List String) (context : AsyncContext) (error_clear : Bool) : SyncOutcome :=
  pk_client_sync_body finish client_valid error_clear
    (.pk_client_simulate_remove_packages_async package_ids context)

/-- The function `pk_client_simulate_update_packages`. -/
def pk_client_simulate_update_packages (finish : AsyncCall → Option PkResults) (client_valid : Bool)
    (package_ids : List String) (context : AsyncContext) (error_clear : Bool) : SyncOutcome :=
  pk_client_sync_body finish client_valid error_clear
    (.pk_client_simulate_update_packages_async package_ids context)

/-- The function `pk_client_adopt`. -/
def pk_client_adopt (finish : AsyncCall → Option PkResults) (client_valid : Bool)
    (transaction_id : String) (context : AsyncContext) (error_clear : Bool) : SyncOutcome :=
  pk_client_sync_body finish client_valid error_clear
    (.pk_client_adopt_async transaction_id context)


/-! ## The mutating operations run one after the other -/

/-- The characters of a string as numbers, the order `strcmp` compares by. -/
def bytes (s : String) : List Nat := s.data.map Char.toNat

/-- The key the spec's ordering reads from a result entry: name, then
version, then architecture, each compared lexicographically. -/
def compare_key (Name : PkgIterator → String) (a : PkgPair) :
    Lex (List Nat × Lex (List Nat × List Nat)) :=
  toLex (bytes (Name a.1), toLex (bytes a.2.VerStr, bytes a.2.Arch))

/-- Modelled from the spec: the functor `compare` of the `apt` sources that
are not part of the translated file; "results are sorted by a stable
comparison (name, then version, then architecture)". -/
def spec_compare (Name : PkgIterator → String) (a b : PkgPair) : Bool :=
  decide (compare_key Name a < compare_key Name b)

/-- Modelled from the spec: the functor `result_equality` of the `apt`
sources that are not part of the translated file; two entries are the same
result when they agree on the identity fields the ordering reads (name,
version, architecture). -/
def spec_result_equality (Name : PkgIterator → String) (a b : PkgPair) : Bool :=
  decide (compare_key Name a = compare_key Name b)

/-- Split a string at every `c`. -/
def split_on (c : Char) : List Char → List (List Char)
  | [] => [[]]
  | x :: xs =>
    if x == c then [] :: split_on c xs
    else
      match split_on c xs with
      | [] => [[x]]
      | field :: fields => (x :: field) :: fields

/-- Modelled from the spec: `pk_package_id_new_from_string` of
`packagekit-glib`, not part of the translated file; a package id is "four
semicolon-delimited fields" `name;version;arch;origin`, anything else is
malformed. -/
def spec_package_id_new_from_string (package_id : String) : Option PkPackageId :=
  match split_on ';' package_id.data with
  | [name, version, arch, data] => some ⟨⟨name⟩, ⟨version⟩, ⟨arch⟩, ⟨data⟩⟩
  | _ => none

/-- The version of the example package `bash`. -/
def bash_ver : VerIterator := ⟨0, "5.0-4", "amd64", "shells"⟩

/-- The version of the example package `zsh`. -/
def zsh_ver : VerIterator := ⟨1, "5.7.1-1", "amd64", "shells"⟩

/-- The version of the example package `postfix`. -/
def postfix_ver : VerIterator := ⟨2, "3.4.14-0", "amd64", "universe/mail"⟩

/-- The version of the example package `exim4`. -/
def exim_ver : VerIterator := ⟨3, "4.92-8", "amd64", "mail"⟩

/-- The version lists of the example cache: package 2 is virtual. -/
def example_versions (pkg : PkgIterator) : List VerIterator :=
  match pkg with
  | 0 => [bash_ver]
  | 1 => [zsh_ver]
  | 3 => [postfix_ver]
  | 4 => [exim_ver]
  | _ => []

/-- An example cache: `bash`, `zsh`, the virtual package
`mail-transport-agent`, and its two providers `postfix` and `exim4`. -/
def example_apt : aptcc where
  PkgList := [0, 1, 2, 3, 4]
  Name := fun pkg =>
    match pkg with
    | 0 => "bash"
    | 1 => "zsh"
    | 2 => "mail-transport-agent"
    | 3 => "postfix"
    | 4 => "exim4"
    | _ => ""
  VersionList := example_versions
  ProvidesList := fun pkg =>
    match pkg with
    | 2 => [3, 4]
    | _ => []
  find_ver := fun pkg => (example_versions pkg).head?
  get_depends := fun pkg _ _ =>
    match pkg with
    | 3 => ([(0, bash_ver)], 0)
    | _ => ([], 0)
  get_requires := fun pkg _ _ =>
    match pkg with
    | 0 => ([(3, postfix_ver)], 0)
    | _ => ([], 0)
  get_default_short_description := fun ver =>
    match ver.ID with
    | 0 => "GNU Bourne Again SHell"
    | 1 => "shell with lots of features"
    | 2 => "High-performance mail transport agent"
    | _ => "lightweight mailer"
  get_default_long_description := fun _ => ""
  get_short_description := fun _ => ""
  get_long_description := fun _ => ""

/-- Example helpers: the comparison and equality of the spec, three groups
(1 for the section `mail`, 2 for `shells`, 3 named `system`), a file search
that answers `zsh` then `bash`, and a matcher that matches exactly the
pattern. -/
def example_helpers : Helpers where
  compare := spec_compare example_apt.Name
  result_equality := spec_result_equality example_apt.Name
  get_enum_group := fun sect => if sect == "mail" then 1 else if sect == "shells" then 2 else 0
  pk_group_enum_from_text := fun group =>
    if group == "network" then 1 else if group == "admin-tools" then 2
    else if group == "system" then 3 else 0
  search_file := fun _ _ => (["zsh", "bash"], 0)
  matcher := fun search => some fun s => s == search
  pk_package_id_new_from_string := spec_package_id_new_from_string

/-! ## Reading the log -/

/-- The package events of a log: info-state, package id and summary of every
`pk_backend_package` call, in order. -/
def package_events (log : List Event) : List (PkInfoEnum × String × Option String) :=
  log.filterMap fun e =>
    match e with
    | .package info package_id summary => some (info, package_id, summary)
    | _ => none

/-- The error kinds of a log: the code of every `pk_backend_error_code` call. -/
def error_events (log : List Event) : List PkErrorEnum :=
  log.filterMap fun e =>
    match e with
    | .error_code code _ => some code
    | _ => none

/-- The result entries handed to `aptcc::emit_package`, in order. -/
def handed (log : List Event) : List PkgPair :=
  log.filterMap fun e =>
    match e with
    | .emit_package _ pkg ver => some (pkg, ver)
    | _ => none

/-- Modelled from the spec: the deduplication policy of section 4.2
("PackageEvent entries with identical PackageRef AND identical info-state are
folded to one (duplicate suppressed)"), which in the repository is the work of
`pk_backend_package` in `pk-backend.c`, not part of the translated files.  Of
the entries with the same info-state and package id the first is kept; `seen`
holds the pairs already kept. -/
def fold_duplicates (seen : List (PkInfoEnum × String)) :
    List (PkInfoEnum × String × Option String) → List (PkInfoEnum × String × Option String)
  | [] => []
  | e :: rest =>
    if (e.1, e.2.1) ∈ seen then fold_duplicates seen rest
    else e :: fold_duplicates ((e.1, e.2.1) :: seen) rest

/-- Modelled from the spec: the package events produced from the calls of a
log, which are the `pk_backend_package` calls with the duplicates folded as
the deduplication policy says. -/
def produced_package_events (log : List Event) : List (PkInfoEnum × String × Option String) :=
  fold_duplicates [] (package_events log)

/-- The fixed answer of `backend_resolve` for one name, as a table: info-state,
package id and summary of the names it knows, nothing for every other name. -/
def resolve_table (name : String) : Option (PkInfoEnum × String × Option String) :=
  if name = "vips-doc" then
    some (.AVAILABLE, "vips-doc;7.12.4-2.fc8;noarch;linva", some "The vips documentation package.")
  else if name = "glib2" then
    some (.INSTALLED, "glib2;2.14.0;i386;fedora", some "The GLib library")
  else if name = "powertop" then
    some (.UPDATING, "powertop;1.8-1.fc8;i386;fedora", some "Power consumption monitor")
  else if name = "kernel" then
    some (.UPDATING, "kernel;2.6.23-0.115.rc3.git1.fc8;i386;installed",
      some "The Linux kernel (the core of the Linux operating system)")
  else if name = "gtkhtml2" then
    some (.UPDATING, "gtkhtml2;2.19.1-4.fc8;i386;fedora", some "An HTML widget for GTK+ 2.0")
  else none

/-! ## Theorems -/

theorem log_emit (backend : Backend) (e : Event) :
    (backend.emit e).log = backend.log ++ [e] := rfl

theorem backend_resolve_step_log (backend : Backend) (name : String) :
    (backend_resolve_step backend name).log =
      backend.log ++ ((resolve_table name).map
        fun r => Event.package r.1 r.2.1 r.2.2).toList := by
  unfold backend_resolve_step resolve_table egg_strequal
  simp only [beq_iff_eq]
  split_ifs <;> simp [pk_backend_package, Backend.emit]

theorem backend_resolve_loop_log (packages : List String) (backend : Backend) :
    (packages.foldl backend_resolve_step backend).log =
      backend.log ++ (packages.filterMap resolve_table).map
        fun r => Event.package r.1 r.2.1 r.2.2 := by
  induction packages generalizing backend with
  | nil => simp
  | cons name rest ih =>
    rw [List.foldl_cons, ih, backend_resolve_step_log]
    cases h : resolve_table name <;> simp [List.filterMap_cons, h]

theorem package_events_map (rs : List (PkInfoEnum × String × Option String)) :
    package_events (rs.map fun r => Event.package r.1 r.2.1 r.2.2) = rs := by
  induction rs with
  | nil => rfl
  | cons r rest ih =>
    simp only [package_events] at ih
    simp [package_events, List.filterMap_cons, ih]

/-! ### The log readers on the loops -/

theorem handed_append (a b : List Event) : handed (a ++ b) = handed a ++ handed b := by
  simp [handed, List.filterMap_append]

theorem handed_emit_loop (filters : PkBitfield) (cancel : Nat → Bool) (l : List PkgPair) :
    ∀ k, handed (emit_loop filters cancel l k) <+: l := by
  induction l with
  | nil => intro k; simp [emit_loop, handed]
  | cons i rest ih =>
    intro k
    unfold emit_loop
    by_cases hc : cancel k = true
    · simp [hc, handed]
    · have hrest := ih (k + 1)
      simp only [hc, if_false, Bool.false_eq_true]
      have : handed (Event.emit_package filters i.1 i.2 :: emit_loop filters cancel rest (k + 1))
          = i :: handed (emit_loop filters cancel rest (k + 1)) := by
        simp [handed, List.filterMap_cons]
      rw [this]
      exact (List.prefix_cons_inj i).mpr hrest

theorem handed_emit_loop_no_cancel (filters : PkBitfield) (l : List PkgPair) :
    ∀ k, handed (emit_loop filters (fun _ => false) l k) = l := by
  induction l with
  | nil => intro k; simp [emit_loop, handed]
  | cons i rest ih =>
    intro k
    have hrest := ih (k + 1)
    simp only [handed] at hrest
    simp [emit_loop, handed, List.filterMap_cons, hrest]

/-! ### `std_sort` gives a sorted rearrangement -/

theorem StrictWeakOrder.asymm {α : Type} {lt : α → α → Bool} (hlt : StrictWeakOrder lt)
    (a b : α) (hab : lt a b = true) : lt b a = false := by
  cases hba : lt b a with
  | false => rfl
  | true =>
    have haa := hlt.trans a b a hab hba
    rw [hlt.irrefl a] at haa
    exact absurd haa (by decide)

theorem StrictWeakOrder.le_trans {α : Type} {lt : α → α → Bool} (hlt : StrictWeakOrder lt)
    (a b c : α) (hab : lt b a = false) (hbc : lt c b = false) : lt c a = false := by
  cases hca : lt c a with
  | false => rfl
  | true =>
    cases h1 : lt a b with
    | true =>
      have := hlt.trans c a b hca h1
      rw [hbc] at this
      exact absurd this (by decide)
    | false =>
      cases h2 : lt b c with
      | true =>
        have := hlt.trans b c a h2 hca
        rw [hab] at this
        exact absurd this (by decide)
      | false =>
        have := (hlt.incomp_trans a b c h1 hab h2 hbc).2
        rw [hca] at this
        exact absurd this (by decide)

theorem ordered_insert_perm {α : Type} (lt : α → α → Bool) (x : α) (l : List α) :
    (ordered_insert lt x l).Perm (x :: l) := by
  induction l with
  | nil => simp [ordered_insert]
  | cons y ys ih =>
    unfold ordered_insert
    split_ifs
    · exact (List.Perm.cons y ih).trans (List.Perm.swap x y ys)
    · exact List.Perm.refl _

theorem std_sort_perm {α : Type} (lt : α → α → Bool) (l : List α) : (std_sort lt l).Perm l := by
  induction l with
  | nil => simp [std_sort]
  | cons x xs ih =>
    unfold std_sort
    exact (ordered_insert_perm lt x _).trans (List.Perm.cons x ih)

theorem ordered_insert_sorted {α : Type} {lt : α → α → Bool} (hlt : StrictWeakOrder lt) (x : α)
    (l : List α) (hl : l.Pairwise fun a b => lt b a = false) :
    (ordered_insert lt x l).Pairwise fun a b => lt b a = false := by
  induction l with
  | nil => simp [ordered_insert]
  | cons y ys ih =>
    rw [List.pairwise_cons] at hl
    unfold ordered_insert
    by_cases hyx : lt y x = true
    · simp only [hyx, if_true]
      rw [List.pairwise_cons]
      refine ⟨?_, ih hl.2⟩
      intro z hz
      have hz2 := (ordered_insert_perm lt x ys).mem_iff.mp hz
      rw [List.mem_cons] at hz2
      rcases hz2 with rfl | hzx
      · exact hlt.asymm y z hyx
      · exact hl.1 z hzx
    · have hyx0 : lt y x = false := by simpa using hyx
      simp only [hyx0, if_false, Bool.false_eq_true]
      rw [List.pairwise_cons, List.pairwise_cons]
      refine ⟨?_, hl⟩
      intro z hz
      rw [List.mem_cons] at hz
      rcases hz with rfl | hz
      · exact hyx0
      · exact hlt.le_trans x y z hyx0 (hl.1 z hz)

theorem std_sort_sorted {α : Type} {lt : α → α → Bool} (hlt : StrictWeakOrder lt) (l : List α) :
    (std_sort lt l).Pairwise fun a b => lt b a = false := by
  induction l with
  | nil => simp [std_sort]
  | cons x xs ih =>
    unfold std_sort
    exact ordered_insert_sorted hlt x _ ih

/-! ### `std_unique` keeps one entry of every run -/

theorem std_unique_from_sublist {α : Type} (eq : α → α → Bool) (l : List α) :
    ∀ kept, (std_unique_from eq kept l).Sublist l := by
  induction l with
  | nil => intro kept; simp [std_unique_from]
  | cons y ys ih =>
    intro kept
    unfold std_unique_from
    split_ifs
    · exact (ih kept).cons y
    · exact (ih y).cons₂ y

theorem std_unique_sublist {α : Type} (eq : α → α → Bool) (l : List α) :
    (std_unique eq l).Sublist l := by
  cases l with
  | nil => simp [std_unique]
  | cons x xs =>
    unfold std_unique
    exact (std_unique_from_sublist eq xs x).cons₂ x

theorem std_unique_from_no_duplicate {α : Type} {lt eq : α → α → Bool}
    (hconvex : ∀ a b c, lt b a = false → lt c b = false → eq a c = true → eq a b = true)
    (l : List α) :
    ∀ kept, (kept :: l).Pairwise (fun a b => lt b a = false) →
      (kept :: std_unique_from eq kept l).Pairwise fun a b => eq a b = false := by
  induction l with
  | nil => intro kept _; simp [std_unique_from]
  | cons y ys ih =>
    intro kept hs
    have hs2 := hs
    rw [List.pairwise_cons, List.pairwise_cons] at hs2
    obtain ⟨hkept, hy, hys⟩ := hs2
    unfold std_unique_from
    by_cases he : eq kept y = true
    · simp only [he, if_true]
      apply ih kept
      rw [List.pairwise_cons]
      exact ⟨fun z hz => hkept z (List.mem_cons_of_mem y hz), hys⟩
    · have he0 : eq kept y = false := by simpa using he
      simp only [he0, if_false, Bool.false_eq_true]
      have htail := ih y (List.pairwise_cons.mpr ⟨hy, hys⟩)
      rw [List.pairwise_cons]
      refine ⟨?_, htail⟩
      intro z hz
      rw [List.mem_cons] at hz
      rcases hz with rfl | hz
      · exact he0
      · have hzmem : z ∈ ys := (std_unique_from_sublist eq ys y).subset hz
        cases hkz : eq kept z with
        | false => rfl
        | true =>
          have := hconvex kept y z (hkept y (List.mem_cons_self y ys)) (hy z hzmem) hkz
          rw [he0] at this
          exact absurd this (by decide)

theorem std_unique_no_duplicate {α : Type} {lt eq : α → α → Bool}
    (hconvex : ∀ a b c, lt b a = false → lt c b = false → eq a c = true → eq a b = true)
    (l : List α) (hs : l.Pairwise fun a b => lt b a = false) :
    (std_unique eq l).Pairwise fun a b => eq a b = false := by
  cases l with
  | nil => simp [std_unique]
  | cons x xs =>
    unfold std_unique
    exact std_unique_from_no_duplicate hconvex xs x hs

theorem std_unique_from_represents {α : Type} (eq : α → α → Bool) (l : List α) :
    ∀ kept, ∀ x ∈ l, eq kept x = true ∨
      ∃ e ∈ std_unique_from eq kept l, e = x ∨ eq e x = true := by
  induction l with
  | nil => intro kept x hx; simp at hx
  | cons y ys ih =>
    intro kept x hx
    rw [List.mem_cons] at hx
    unfold std_unique_from
    by_cases he : eq kept y = true
    · simp only [he, if_true]
      rcases hx with rfl | hx
      · exact Or.inl he
      · exact ih kept x hx
    · have he0 : eq kept y = false := by simpa using he
      simp only [he0, if_false, Bool.false_eq_true]
      rcases hx with rfl | hx
      · exact Or.inr ⟨x, List.mem_cons_self _ _, Or.inl rfl⟩
      · rcases ih y x hx with hyx | ⟨e, hemem, hex⟩
        · exact Or.inr ⟨y, List.mem_cons_self _ _, Or.inr hyx⟩
        · exact Or.inr ⟨e, List.mem_cons_of_mem _ hemem, hex⟩

theorem std_unique_represents {α : Type} (eq : α → α → Bool) (l : List α) :
    ∀ x ∈ l, ∃ e ∈ std_unique eq l, e = x ∨ eq e x = true := by
  cases l with
  | nil => intro x hx; simp at hx
  | cons y ys =>
    intro x hx
    rw [List.mem_cons] at hx
    unfold std_unique
    rcases hx with rfl | hx
    · exact ⟨x, List.mem_cons_self _ _, Or.inl rfl⟩
    · rcases std_unique_from_represents eq ys y x hx with hyx | ⟨e, hemem, hex⟩
      · exact ⟨y, List.mem_cons_self _ _, Or.inr hyx⟩
      · exact ⟨e, List.mem_cons_of_mem _ hemem, hex⟩

/-! ### The accumulation loop -/

theorem mem_accumulate_loop (body : PkgIterator → List PkgPair) (cancel : Nat → Bool)
    (l : List PkgIterator) :
    ∀ k, ∀ x ∈ (accumulate_loop body cancel l k).1, ∃ pkg ∈ l, x ∈ body pkg := by
  induction l with
  | nil => intro k x hx; simp [accumulate_loop] at hx
  | cons pkg rest ih =>
    intro k x hx
    unfold accumulate_loop at hx
    by_cases hc : cancel k = true
    · simp [hc] at hx
    · simp only [hc, if_false, Bool.false_eq_true, List.mem_append] at hx
      rcases hx with hx | hx
      · exact ⟨pkg, List.mem_cons_self _ _, hx⟩
      · obtain ⟨p, hp, hxp⟩ := ih (k + 1) x hx
        exact ⟨p, List.mem_cons_of_mem _ hp, hxp⟩

theorem accumulate_loop_no_cancel (body : PkgIterator → List PkgPair) (l : List PkgIterator) :
    ∀ k, ∀ pkg ∈ l, ∀ x ∈ body pkg, x ∈ (accumulate_loop body (fun _ => false) l k).1 := by
  induction l with
  | nil => intro k pkg hp; simp at hp
  | cons p rest ih =>
    intro k pkg hp x hx
    rw [List.mem_cons] at hp
    simp only [accumulate_loop, if_false, Bool.false_eq_true, List.mem_append]
    rcases hp with rfl | hp
    · exact Or.inl hx
    · exact Or.inr (ih (k + 1) pkg hp x hx)

/-! ### The comparison and equality of the spec -/

theorem spec_compare_strict_weak_order (Name : PkgIterator → String) :
    StrictWeakOrder (spec_compare Name) where
  irrefl := by
    intro a
    simp [spec_compare]
  trans := by
    intro a b c hab hbc
    simp only [spec_compare, decide_eq_true_eq] at *
    exact lt_trans hab hbc
  incomp_trans := by
    intro a b c hab hba hbc hcb
    simp only [spec_compare, decide_eq_false_iff_not, not_lt] at *
    have h1 := le_antisymm hba hab
    have h2 := le_antisymm hcb hbc
    rw [h1, h2]
    exact ⟨le_refl _, le_refl _⟩

theorem spec_compare_convex (Name : PkgIterator → String) (a b c : PkgPair)
    (hab : spec_compare Name b a = false) (hbc : spec_compare Name c b = false)
    (hac : spec_result_equality Name a c = true) : spec_result_equality Name a b = true := by
  simp only [spec_compare, spec_result_equality, decide_eq_false_iff_not, not_lt,
    decide_eq_true_eq] at *
  rw [← hac] at hbc
  exact le_antisymm hab hbc

theorem spec_result_equality_refl (Name : PkgIterator → String) (a : PkgPair) :
    spec_result_equality Name a a = true := by
  simp [spec_result_equality]

/-! ### What the loop bodies push -/

theorem mem_providers (m_apt : aptcc) (keep : PkgIterator → VerIterator → Bool)
    (pkg : PkgIterator) (x : PkgPair) (hx : x ∈ providers m_apt keep pkg) :
    m_apt.find_ver x.1 = some x.2 := by
  unfold providers at hx
  rw [List.mem_filterMap] at hx
  obtain ⟨owner, _, ho⟩ := hx
  cases hv : m_apt.find_ver owner with
  | none => simp [hv] at ho
  | some ver =>
    simp only [hv] at ho
    split_ifs at ho
    simp only [Option.some.injEq] at ho
    rw [← ho]
    exact hv

theorem providers_all (m_apt : aptcc) (pkg owner : PkgIterator) (ver : VerIterator)
    (howner : owner ∈ m_apt.ProvidesList pkg) (hver : m_apt.find_ver owner = some ver) :
    (owner, ver) ∈ providers m_apt (fun _ _ => true) pkg := by
  unfold providers
  rw [List.mem_filterMap]
  exact ⟨owner, howner, by simp [hver]⟩

theorem search_name_body_version (m_apt : aptcc) (m_matches : String → Bool) (pkg : PkgIterator)
    (x : PkgPair) (hx : x ∈ search_name_body m_apt m_matches pkg) :
    m_apt.find_ver x.1 = some x.2 := by
  unfold search_name_body at hx
  split_ifs at hx
  · simp at hx
  · cases hv : m_apt.find_ver pkg with
    | none =>
      simp only [hv] at hx
      exact mem_providers m_apt _ pkg x hx
    | some ver =>
      simp only [hv, List.mem_singleton] at hx
      rw [hx]
      exact hv
  · simp at hx

theorem search_details_body_version (m_apt : aptcc) (m_matches : String → Bool)
    (pkg : PkgIterator) (x : PkgPair) (hx : x ∈ search_details_body m_apt m_matches pkg) :
    m_apt.find_ver x.1 = some x.2 := by
  unfold search_details_body at hx
  split_ifs at hx
  · simp at hx
  · cases hv : m_apt.find_ver pkg with
    | none =>
      simp only [hv] at hx
      exact mem_providers m_apt _ pkg x hx
    | some ver =>
      simp only [hv, List.mem_singleton] at hx
      rw [hx]
      exact hv
  · cases hv : m_apt.find_ver pkg with
    | none =>
      simp only [hv] at hx
      exact mem_providers m_apt _ pkg x hx
    | some ver =>
      simp only [hv] at hx
      split_ifs at hx
      · simp only [List.mem_singleton] at hx
        rw [hx]
        exact hv
      · simp at hx

theorem search_group_body_version (h : Helpers) (m_apt : aptcc) (pkGroup : PkGroupEnum)
    (pkg : PkgIterator) (x : PkgPair) (hx : x ∈ search_group_body h m_apt pkGroup pkg) :
    m_apt.find_ver x.1 = some x.2 := by
  unfold search_group_body at hx
  split_ifs at hx
  · simp at hx
  · cases hv : m_apt.find_ver pkg with
    | none => simp [hv] at hx
    | some ver =>
      simp only [hv] at hx
      split_ifs at hx
      · simp only [List.mem_singleton] at hx
        rw [hx]
        exact hv
      · simp at hx

theorem get_packages_body_version (m_apt : aptcc) (pkg : PkgIterator) (x : PkgPair)
    (hx : x ∈ get_packages_body m_apt pkg) : m_apt.find_ver x.1 = some x.2 := by
  unfold get_packages_body at hx
  split_ifs at hx
  · simp at hx
  · cases hv : m_apt.find_ver pkg with
    | none => simp [hv] at hx
    | some ver =>
      simp only [hv, List.mem_singleton] at hx
      rw [hx]
      exact hv

theorem search_package_output_version (m_apt : aptcc) (m_matches : String → Bool)
    (search_details : Bool) (cancel : Nat → Bool) (x : PkgPair)
    (hx : x ∈ (search_package_output m_apt m_matches search_details cancel).1) :
    m_apt.find_ver x.1 = some x.2 := by
  unfold search_package_output at hx
  cases search_details with
  | true =>
    simp only [if_true] at hx
    obtain ⟨pkg, _, hxp⟩ := mem_accumulate_loop _ cancel _ 0 x hx
    exact search_details_body_version m_apt m_matches pkg x hxp
  | false =>
    simp only [Bool.false_eq_true, if_false] at hx
    obtain ⟨pkg, _, hxp⟩ := mem_accumulate_loop _ cancel _ 0 x hx
    exact search_name_body_version m_apt m_matches pkg x hxp

theorem mem_unique_sort {α : Type} (lt eq : α → α → Bool) (l : List α) (x : α)
    (hx : x ∈ std_unique eq (std_sort lt l)) : x ∈ l :=
  (std_sort_perm lt l).mem_iff.mp ((std_unique_sublist eq _).subset hx)

theorem unique_sort_sorted {α : Type} {lt : α → α → Bool} (hlt : StrictWeakOrder lt)
    (eq : α → α → Bool) (l : List α) :
    (std_unique eq (std_sort lt l)).Pairwise fun a b => lt b a = false :=
  (std_sort_sorted hlt l).sublist (std_unique_sublist eq _)

/-- C1: on every list of names, `backend_resolve` appends to the log the
status call, then one package event per known name in input order (with the
fixed info-state, id and summary of that name, nothing for other names), then
`finished` once; resolving `["vips-doc"]` gives the single package event
`vips-doc;7.12.4-2.fc8;noarch;linva` with info-state Available. -/
theorem backend_resolve_events (backend : Backend) (filters : PkBitfield)
    (packages : List String) :
    (∃ new : List Event,
      (backend_resolve backend filters packages).log = backend.log ++ new ∧
      new = Event.set_status .QUERY ::
        ((packages.filterMap resolve_table).map fun r => Event.package r.1 r.2.1 r.2.2)
          ++ [Event.finished] ∧
      package_events new = packages.filterMap resolve_table ∧
      new.count Event.finished = 1 ∧
      new.getLast? = some Event.finished) ∧
    package_events (backend_resolve {} filters ["vips-doc"]).log =
      [(.AVAILABLE, "vips-doc;7.12.4-2.fc8;noarch;linva",
        some "The vips documentation package.")] := by
  refine ⟨⟨_, ?_, rfl, ?_, ?_, ?_⟩, ?_⟩
  · simp [backend_resolve, pk_backend_finished, pk_backend_set_status, log_emit,
      backend_resolve_loop_log]
  · have h := package_events_map (packages.filterMap resolve_table)
    simp only [package_events] at h ⊢
    simp [List.filterMap_cons, List.filterMap_append, h]
  · simp [List.count_cons, List.count_append, List.count_eq_zero]
  · rw [List.getLast?_concat]
  · rfl

/-- C2: when the first package id is `vips-doc;7.12.4-2.fc8;noarch;linva` and
no signature has been accepted, `backend_install_packages` appends exactly a
signature-required event, an error of kind GPG failure and `finished`, in that
order; no package event is among them, no timeout source is added and no
static variable changes. -/
theorem backend_install_packages_unsigned (backend : Backend) (package_ids : List String)
    (hid : package_ids.head? = some "vips-doc;7.12.4-2.fc8;noarch;linva")
    (hsig : backend._has_signature = false) :
    ∃ new : List Event,
      backend_install_packages backend package_ids = { backend with log := backend.log ++ new } ∧
      new = [Event.repo_signature_required "vips-doc;7.12.4-2.fc8;noarch;linva" "updates"
          "http://example.com/gpgkey" "Test Key (Fedora) fedora@example.com" "BB7576AC"
          "D8CC 06C2 77EC 9C53 372F C199 B1EE 1799 F24F 1B08" "2007-10-04" .GPG,
        Event.error_code .GPG_FAILURE "GPG signed package could not be verified",
        Event.finished] ∧
      package_events new = [] ∧
      (backend_install_packages backend package_ids).sources = backend.sources ∧
      (backend_install_packages backend package_ids)._signal_timeout = backend._signal_timeout := by
  have hd : package_ids.headD "" = "vips-doc;7.12.4-2.fc8;noarch;linva" := by
    cases package_ids with
    | nil => simp at hid
    | cons a rest => simpa using hid
  have h : backend_install_packages backend package_ids =
      { backend with log := backend.log ++
        [Event.repo_signature_required "vips-doc;7.12.4-2.fc8;noarch;linva" "updates"
          "http://example.com/gpgkey" "Test Key (Fedora) fedora@example.com" "BB7576AC"
          "D8CC 06C2 77EC 9C53 372F C199 B1EE 1799 F24F 1B08" "2007-10-04" .GPG,
        Event.error_code .GPG_FAILURE "GPG signed package could not be verified",
        Event.finished] } := by
    simp [backend_install_packages, hid, hsig, hd, egg_strequal, pk_backend_finished,
      pk_backend_error_code, pk_backend_repo_signature_required, Backend.emit]
  refine ⟨_, h, rfl, rfl, ?_, ?_⟩ <;> rw [h]

/-- Witness of C2: the install of the vips-doc id on the initial state. -/
theorem backend_install_packages_unsigned_witness :
    ∃ new : List Event,
      backend_install_packages {} ["vips-doc;7.12.4-2.fc8;noarch;linva"] =
        { ({} : Backend) with log := ({} : Backend).log ++ new } ∧
      new = [Event.repo_signature_required "vips-doc;7.12.4-2.fc8;noarch;linva" "updates"
          "http://example.com/gpgkey" "Test Key (Fedora) fedora@example.com" "BB7576AC"
          "D8CC 06C2 77EC 9C53 372F C199 B1EE 1799 F24F 1B08" "2007-10-04" .GPG,
        Event.error_code .GPG_FAILURE "GPG signed package could not be verified",
        Event.finished] ∧
      package_events new = [] ∧
      (backend_install_packages {} ["vips-doc;7.12.4-2.fc8;noarch;linva"]).sources =
        ({} : Backend).sources ∧
      (backend_install_packages {} ["vips-doc;7.12.4-2.fc8;noarch;linva"])._signal_timeout =
        ({} : Backend)._signal_timeout :=
  backend_install_packages_unsigned {} ["vips-doc;7.12.4-2.fc8;noarch;linva"] rfl rfl

/-- C3: when the first package id is `vips-doc;7.12.4-2.fc8;noarch;linva`, the
signature has been accepted and the EULA `eula_hughsie_dot_com` is not valid,
`backend_install_packages` appends exactly an eula-required event, an error of
kind no-license-agreement and `finished`; no package event is among them, no
timeout source is added (nothing is left to wait or retry) and no static
variable changes. -/
theorem backend_install_packages_no_eula (backend : Backend) (package_ids : List String)
    (hid : package_ids.head? = some "vips-doc;7.12.4-2.fc8;noarch;linva")
    (hsig : backend._has_signature = true)
    (heula : pk_backend_is_eula_valid backend "eula_hughsie_dot_com" = false) :
    ∃ new : List Event,
      backend_install_packages backend package_ids = { backend with log := backend.log ++ new } ∧
      new = [Event.eula_required "eula_hughsie_dot_com" "vips-doc;7.12.4-2.fc8;noarch;linva"
          "CATS Inc." license_agreement,
        Event.error_code .NO_LICENSE_AGREEMENT "licence not installed so cannot install",
        Event.finished] ∧
      package_events new = [] ∧
      (backend_install_packages backend package_ids).sources = backend.sources ∧
      (backend_install_packages backend package_ids)._signal_timeout = backend._signal_timeout := by
  have hd : package_ids.headD "" = "vips-doc;7.12.4-2.fc8;noarch;linva" := by
    cases package_ids with
    | nil => simp at hid
    | cons a rest => simpa using hid
  have h : backend_install_packages backend package_ids =
      { backend with log := backend.log ++
        [Event.eula_required "eula_hughsie_dot_com" "vips-doc;7.12.4-2.fc8;noarch;linva"
          "CATS Inc." license_agreement,
        Event.error_code .NO_LICENSE_AGREEMENT "licence not installed so cannot install",
        Event.finished] } := by
    simp [backend_install_packages, hid, hsig, hd, heula, egg_strequal, pk_backend_finished,
      pk_backend_error_code, pk_backend_eula_required, Backend.emit]
  refine ⟨_, h, rfl, rfl, ?_, ?_⟩ <;> rw [h]

/-- Witness of C3: the install of the vips-doc id with the signature accepted
and no EULA accepted. -/
theorem backend_install_packages_no_eula_witness :
    ∃ new : List Event,
      backend_install_packages { _has_signature := true } ["vips-doc;7.12.4-2.fc8;noarch;linva"] =
        { ({ _has_signature := true } : Backend) with
          log := ({ _has_signature := true } : Backend).log ++ new } ∧
      new = [Event.eula_required "eula_hughsie_dot_com" "vips-doc;7.12.4-2.fc8;noarch;linva"
          "CATS Inc." license_agreement,
        Event.error_code .NO_LICENSE_AGREEMENT "licence not installed so cannot install",
        Event.finished] ∧
      package_events new = [] ∧
      (backend_install_packages { _has_signature := true }
        ["vips-doc;7.12.4-2.fc8;noarch;linva"]).sources =
        ({ _has_signature := true } : Backend).sources ∧
      (backend_install_packages { _has_signature := true }
        ["vips-doc;7.12.4-2.fc8;noarch;linva"])._signal_timeout =
        ({ _has_signature := true } : Backend)._signal_timeout :=
  backend_install_packages_no_eula { _has_signature := true }
    ["vips-doc;7.12.4-2.fc8;noarch;linva"] rfl rfl rfl


/-! ### The entries handed over by each thread function -/

theorem search_package_handed_ok (h : Helpers) (m_apt : aptcc) (m_matches : String → Bool)
    (search : String) (filters : PkBitfield) (search_details : Bool) (cancel : Nat → Bool)
    (hm : h.matcher search = some m_matches) :
    handed (backend_search_package_thread h (some m_apt) false search filters search_details
      cancel).1 =
    handed (emit_loop filters cancel
      (std_unique h.result_equality (std_sort h.compare
        (search_package_output m_apt m_matches search_details cancel).1))
      (search_package_output m_apt m_matches search_details cancel).2) := by
  simp [backend_search_package_thread, hm, handed_append, handed]

theorem search_package_handed_fail (h : Helpers) (init : Option aptcc) (pending_error : Bool)
    (search : String) (filters : PkBitfield) (search_details : Bool) (cancel : Nat → Bool)
    (hfail : h.matcher search = none ∨ init = none ∨ pending_error = true) :
    handed (backend_search_package_thread h init pending_error search filters search_details
      cancel).1 = [] := by
  unfold backend_search_package_thread
  cases hm : h.matcher search with
  | none => simp [handed]
  | some m_matches =>
    cases init with
    | none => simp [handed]
    | some m_apt =>
      cases pending_error with
      | true => simp [handed]
      | false => simp [hm] at hfail

theorem search_group_handed_ok (h : Helpers) (m_apt : aptcc) (group : String)
    (filters : PkBitfield) (cancel : Nat → Bool) :
    handed (backend_search_group_thread h (some m_apt) (some group) filters cancel).1 =
    handed (emit_loop filters cancel
      (std_sort h.compare (accumulate_loop
        (search_group_body h m_apt (h.pk_group_enum_from_text group)) cancel m_apt.PkgList 0).1)
      (accumulate_loop
        (search_group_body h m_apt (h.pk_group_enum_from_text group)) cancel m_apt.PkgList 0).2) := by
  simp [backend_search_group_thread, handed_append, handed]

theorem search_group_handed_fail (h : Helpers) (init : Option aptcc) (group : Option String)
    (filters : PkBitfield) (cancel : Nat → Bool) (hfail : group = none ∨ init = none) :
    handed (backend_search_group_thread h init group filters cancel).1 = [] := by
  unfold backend_search_group_thread
  cases group with
  | none => simp [handed]
  | some group =>
    cases init with
    | none => simp [handed]
    | some m_apt => simp at hfail

theorem get_packages_handed_ok (h : Helpers) (m_apt : aptcc) (filters : PkBitfield)
    (cancel : Nat → Bool) :
    handed (backend_get_packages_thread h (some m_apt) filters cancel).1 =
    handed (emit_loop filters cancel
      (std_sort h.compare (accumulate_loop (get_packages_body m_apt) cancel m_apt.PkgList 0).1)
      (accumulate_loop (get_packages_body m_apt) cancel m_apt.PkgList 0).2) := by
  simp [backend_get_packages_thread, handed_append, handed]

theorem get_packages_handed_fail (h : Helpers) (filters : PkBitfield) (cancel : Nat → Bool) :
    handed (backend_get_packages_thread h none filters cancel).1 = [] := by
  simp [backend_get_packages_thread, handed]

theorem depends_handed (h : Helpers) (init : Option aptcc) (package_ids : List String)
    (filters : PkBitfield) (depends : Bool) (cancel : Nat → Bool) :
    handed (backend_get_depends_or_requires_thread h init package_ids filters depends cancel).1
        = [] ∨
    ∃ m_apt r, init = some m_apt ∧ depends_loop h m_apt depends cancel package_ids 0 = .ok r ∧
      handed (backend_get_depends_or_requires_thread h init package_ids filters depends
        cancel).1 =
      handed (emit_loop filters cancel
        (std_unique h.result_equality (std_sort h.compare r.1)) r.2) := by
  unfold backend_get_depends_or_requires_thread
  cases hp : package_ids.head?.bind h.pk_package_id_new_from_string with
  | none => left; simp [handed]
  | some pi =>
    cases init with
    | none => left; simp [handed]
    | some m_apt =>
      cases hl : depends_loop h m_apt depends cancel package_ids 0 with
      | error e => left; simp [hl, handed]
      | ok r =>
        right
        refine ⟨m_apt, r, rfl, hl, ?_⟩
        simp [hl, handed_append, handed]

theorem accumulate_loop_nil (body : PkgIterator → List PkgPair) (cancel : Nat → Bool)
    (l : List PkgIterator) (k : Nat) (hbody : ∀ pkg ∈ l, body pkg = []) :
    (accumulate_loop body cancel l k).1 = [] := by
  apply List.eq_nil_iff_forall_not_mem.mpr
  intro x hx
  obtain ⟨pkg, hp, hxp⟩ := mem_accumulate_loop body cancel l k x hx
  rw [hbody pkg hp] at hxp
  simp at hxp

/-- C4: with a group given, the cache opened, and no package with a version
found whose section (the part after the last `/`) classifies to the requested
group, `backend_search_group_thread` makes exactly the calls allow-cancel,
status, percentage 0, percentage 100, `finished`, whatever `_cancel` reads: no
package event, no call of `emit_package`, no error event, `finished` once and
last, return value true. -/
theorem search_group_no_match (h : Helpers) (m_apt : aptcc) (group : String)
    (filters : PkBitfield) (cancel : Nat → Bool)
    (hnone : ∀ pkg ∈ m_apt.PkgList, ∀ ver, m_apt.find_ver pkg = some ver →
      h.get_enum_group (section_tail (version_list_section m_apt pkg)) ≠
        h.pk_group_enum_from_text group) :
    backend_search_group_thread h (some m_apt) (some group) filters cancel =
      ([Event.set_allow_cancel true, Event.set_status .QUERY, Event.set_percentage 0,
        Event.set_percentage 100, Event.finished], true) ∧
    package_events (backend_search_group_thread h (some m_apt) (some group) filters cancel).1
      = [] ∧
    handed (backend_search_group_thread h (some m_apt) (some group) filters cancel).1 = [] ∧
    error_events (backend_search_group_thread h (some m_apt) (some group) filters cancel).1
      = [] ∧
    (backend_search_group_thread h (some m_apt) (some group) filters cancel).1.count
      Event.finished = 1 ∧
    (backend_search_group_thread h (some m_apt) (some group) filters cancel).1.getLast?
      = some Event.finished := by
  have hbody : ∀ pkg ∈ m_apt.PkgList,
      search_group_body h m_apt (h.pk_group_enum_from_text group) pkg = [] := by
    intro pkg hp
    unfold search_group_body
    split_ifs with hd
    · rfl
    · cases hv : m_apt.find_ver pkg with
      | none => rfl
      | some ver =>
        have hne := hnone pkg hp ver hv
        have : (h.pk_group_enum_from_text group ==
            h.get_enum_group (section_tail (version_list_section m_apt pkg))) = false := by
          rw [beq_eq_false_iff_ne]
          exact fun heq => hne heq.symm
        simp [this]
  have hout := accumulate_loop_nil _ cancel m_apt.PkgList 0 hbody
  have hrun : backend_search_group_thread h (some m_apt) (some group) filters cancel =
      ([Event.set_allow_cancel true, Event.set_status .QUERY, Event.set_percentage 0,
        Event.set_percentage 100, Event.finished], true) := by
    simp [backend_search_group_thread, hout, std_sort, emit_loop]
  rw [hrun]
  exact ⟨rfl, rfl, rfl, rfl, by decide, rfl⟩

/-- Witness of C4: the group `system` on the example cache, where the
sections classify to groups 1 and 2 only. -/
theorem search_group_no_match_witness :
    backend_search_group_thread example_helpers (some example_apt) (some "system") []
        (fun _ => false) =
      ([Event.set_allow_cancel true, Event.set_status .QUERY, Event.set_percentage 0,
        Event.set_percentage 100, Event.finished], true) ∧
    package_events (backend_search_group_thread example_helpers (some example_apt)
      (some "system") [] (fun _ => false)).1 = [] ∧
    handed (backend_search_group_thread example_helpers (some example_apt)
      (some "system") [] (fun _ => false)).1 = [] ∧
    error_events (backend_search_group_thread example_helpers (some example_apt)
      (some "system") [] (fun _ => false)).1 = [] ∧
    (backend_search_group_thread example_helpers (some example_apt)
      (some "system") [] (fun _ => false)).1.count Event.finished = 1 ∧
    (backend_search_group_thread example_helpers (some example_apt)
      (some "system") [] (fun _ => false)).1.getLast? = some Event.finished :=
  search_group_no_match example_helpers example_apt "system" [] (fun _ => false) (by decide)

/-- C5: in search_name and search_details (`backend_search_package_thread`),
search_group, get_packages, get_depends and get_requires
(`backend_get_depends_or_requires_thread`), for every cache, input and reads
of `_cancel`, the entries handed to `emit_package` are sorted with respect to
`compare` (no later entry is less than an earlier one), and they are an
initial segment of the whole accumulated vector after it has been sorted (and,
where the code does so, made unique): nothing is handed over from a partly
accumulated or unsorted vector.  `compare` is a strict weak ordering, as
`std::sort` requires. -/
theorem emitted_in_sorted_order (h : Helpers) (hlt : StrictWeakOrder h.compare)
    (init : Option aptcc) (filters : PkBitfield) (cancel : Nat → Bool) (pending_error : Bool)
    (search : String) (search_details : Bool) (group : Option String)
    (package_ids : List String) (depends : Bool) :
    ((handed (backend_search_package_thread h init pending_error search filters search_details
        cancel).1).Pairwise (fun a b => h.compare b a = false) ∧
      ∀ m_apt m_matches, init = some m_apt → h.matcher search = some m_matches →
        handed (backend_search_package_thread h init pending_error search filters
          search_details cancel).1 <+:
        std_unique h.result_equality (std_sort h.compare
          (search_package_output m_apt m_matches search_details cancel).1)) ∧
    ((handed (backend_search_group_thread h init group filters cancel).1).Pairwise
        (fun a b => h.compare b a = false) ∧
      ∀ m_apt g, init = some m_apt → group = some g →
        handed (backend_search_group_thread h init group filters cancel).1 <+:
        std_sort h.compare (accumulate_loop
          (search_group_body h m_apt (h.pk_group_enum_from_text g)) cancel m_apt.PkgList 0).1) ∧
    ((handed (backend_get_packages_thread h init filters cancel).1).Pairwise
        (fun a b => h.compare b a = false) ∧
      ∀ m_apt, init = some m_apt →
        handed (backend_get_packages_thread h init filters cancel).1 <+:
        std_sort h.compare
          (accumulate_loop (get_packages_body m_apt) cancel m_apt.PkgList 0).1) ∧
    ((handed (backend_get_depends_or_requires_thread h init package_ids filters depends
        cancel).1).Pairwise (fun a b => h.compare b a = false) ∧
      ∀ m_apt r, init = some m_apt →
        depends_loop h m_apt depends cancel package_ids 0 = .ok r →
        handed (backend_get_depends_or_requires_thread h init package_ids filters depends
          cancel).1 <+:
        std_unique h.result_equality (std_sort h.compare r.1)) := by
  have hsp : ∀ m_apt m_matches, init = some m_apt → h.matcher search = some m_matches →
      handed (backend_search_package_thread h init pending_error search filters
        search_details cancel).1 <+:
      std_unique h.result_equality (std_sort h.compare
        (search_package_output m_apt m_matches search_details cancel).1) := by
    intro m_apt m_matches hi hm
    subst hi
    cases pending_error with
    | true =>
      rw [search_package_handed_fail h _ true search filters search_details cancel
        (Or.inr (Or.inr rfl))]
      exact List.nil_prefix
    | false =>
      rw [search_package_handed_ok h m_apt m_matches search filters search_details cancel hm]
      exact handed_emit_loop filters cancel _ _
  have hsg : ∀ m_apt g, init = some m_apt → group = some g →
      handed (backend_search_group_thread h init group filters cancel).1 <+:
      std_sort h.compare (accumulate_loop
        (search_group_body h m_apt (h.pk_group_enum_from_text g)) cancel m_apt.PkgList 0).1 := by
    intro m_apt g hi hg
    subst hi hg
    rw [search_group_handed_ok]
    exact handed_emit_loop filters cancel _ _
  have hgp : ∀ m_apt, init = some m_apt →
      handed (backend_get_packages_thread h init filters cancel).1 <+:
      std_sort h.compare
        (accumulate_loop (get_packages_body m_apt) cancel m_apt.PkgList 0).1 := by
    intro m_apt hi
    subst hi
    rw [get_packages_handed_ok]
    exact handed_emit_loop filters cancel _ _
  have hdp : ∀ m_apt r, init = some m_apt →
      depends_loop h m_apt depends cancel package_ids 0 = .ok r →
      handed (backend_get_depends_or_requires_thread h init package_ids filters depends
        cancel).1 <+:
      std_unique h.result_equality (std_sort h.compare r.1) := by
    intro m_apt r hi hr
    rcases depends_handed h init package_ids filters depends cancel with hnil | ⟨m, r2, hm, hr2, he⟩
    · rw [hnil]
      exact List.nil_prefix
    · rw [hi] at hm
      cases hm
      rw [hr] at hr2
      cases hr2
      rw [he]
      exact handed_emit_loop filters cancel _ _
  refine ⟨⟨?_, hsp⟩, ⟨?_, hsg⟩, ⟨?_, hgp⟩, ⟨?_, hdp⟩⟩
  · cases hm : h.matcher search with
    | none =>
      rw [search_package_handed_fail h init pending_error search filters search_details cancel
        (Or.inl hm)]
      exact List.Pairwise.nil
    | some m_matches =>
      cases hi : init with
      | none =>
        rw [search_package_handed_fail h none pending_error search filters search_details
          cancel (Or.inr (Or.inl rfl))]
        exact List.Pairwise.nil
      | some m_apt =>
        exact (unique_sort_sorted hlt _ _).sublist
          (hi ▸ hsp m_apt m_matches hi hm).sublist
  · cases hg : group with
    | none =>
      rw [search_group_handed_fail h init none filters cancel (Or.inl rfl)]
      exact List.Pairwise.nil
    | some g =>
      cases hi : init with
      | none =>
        rw [search_group_handed_fail h none (some g) filters cancel (Or.inr rfl)]
        exact List.Pairwise.nil
      | some m_apt =>
        have := hsg m_apt g hi hg
        rw [hi, hg] at this
        exact (std_sort_sorted hlt _).sublist this.sublist
  · cases hi : init with
    | none =>
      rw [get_packages_handed_fail]
      exact List.Pairwise.nil
    | some m_apt =>
      have := hgp m_apt hi
      rw [hi] at this
      exact (std_sort_sorted hlt _).sublist this.sublist
  · rcases depends_handed h init package_ids filters depends cancel with hnil | ⟨m, r, _, _, he⟩
    · rw [hnil]
      exact List.Pairwise.nil
    · rw [he]
      exact (unique_sort_sorted hlt _ _).sublist (handed_emit_loop filters cancel _ _).sublist

/-- Witness of C5: the search for `mail-transport-agent` by name on the example
cache hands over its two providers in name order. -/
theorem emitted_in_sorted_order_witness :
    StrictWeakOrder example_helpers.compare ∧
    (handed (backend_search_package_thread example_helpers (some example_apt) false
      "mail-transport-agent" [] false (fun _ => false)).1).Pairwise
      (fun a b => example_helpers.compare b a = false) :=
  ⟨spec_compare_strict_weak_order example_apt.Name,
    (emitted_in_sorted_order example_helpers (spec_compare_strict_weak_order example_apt.Name)
      (some example_apt) [] (fun _ => false) false "mail-transport-agent" false none []
      true).1.1⟩

/-- C6: when `compare` is a strict weak ordering under which every entry
sorted between two entries equal under `result_equality` is itself equal to
them (equal entries end up next to each other), the entries that search_name,
search_details, get_depends and get_requires hand to `emit_package` contain no
two entries equal under `result_equality`, for every cache, pattern, id list
and reads of `_cancel`. -/
theorem emitted_without_duplicates (h : Helpers) (hlt : StrictWeakOrder h.compare)
    (hconvex : ∀ a b c, h.compare b a = false → h.compare c b = false →
      h.result_equality a c = true → h.result_equality a b = true)
    (init : Option aptcc) (filters : PkBitfield) (cancel : Nat → Bool) (pending_error : Bool)
    (search : String) (search_details : Bool) (package_ids : List String) (depends : Bool) :
    (handed (backend_search_package_thread h init pending_error search filters search_details
      cancel).1).Pairwise (fun a b => h.result_equality a b = false) ∧
    (handed (backend_get_depends_or_requires_thread h init package_ids filters depends
      cancel).1).Pairwise (fun a b => h.result_equality a b = false) := by
  constructor
  · cases hm : h.matcher search with
    | none =>
      rw [search_package_handed_fail h init pending_error search filters search_details cancel
        (Or.inl hm)]
      exact List.Pairwise.nil
    | some m_matches =>
      cases init with
      | none =>
        rw [search_package_handed_fail h none pending_error search filters search_details
          cancel (Or.inr (Or.inl rfl))]
        exact List.Pairwise.nil
      | some m_apt =>
        cases pending_error with
        | true =>
          rw [search_package_handed_fail h _ true search filters search_details cancel
            (Or.inr (Or.inr rfl))]
          exact List.Pairwise.nil
        | false =>
          rw [search_package_handed_ok h m_apt m_matches search filters search_details cancel hm]
          exact (std_unique_no_duplicate hconvex _ (std_sort_sorted hlt _)).sublist
            (handed_emit_loop filters cancel _ _).sublist
  · rcases depends_handed h init package_ids filters depends cancel with hnil | ⟨m, r, _, _, he⟩
    · rw [hnil]
      exact List.Pairwise.nil
    · rw [he]
      exact (std_unique_no_duplicate hconvex _ (std_sort_sorted hlt _)).sublist
        (handed_emit_loop filters cancel _ _).sublist

/-- Witness of C6: the details search for `postfix` on the example cache, where
`postfix` is reached both directly and as a provider of the virtual package. -/
theorem emitted_without_duplicates_witness :
    (StrictWeakOrder example_helpers.compare ∧
      ∀ a b c, example_helpers.compare b a = false → example_helpers.compare c b = false →
        example_helpers.result_equality a c = true →
        example_helpers.result_equality a b = true) ∧
    (handed (backend_search_package_thread example_helpers (some example_apt) false
      "postfix" [] true (fun _ => false)).1).Pairwise
      (fun a b => example_helpers.result_equality a b = false) :=
  ⟨⟨spec_compare_strict_weak_order example_apt.Name, spec_compare_convex example_apt.Name⟩,
    (emitted_without_duplicates example_helpers
      (spec_compare_strict_weak_order example_apt.Name) (spec_compare_convex example_apt.Name)
      (some example_apt) [] (fun _ => false) false "postfix" true [] true).1⟩

/-- C7: `backend_search_file_thread` hands the packages over in the order in
which `search_file` returned their names, without sorting.  On the example
cache, where `search_file` answers `zsh` then `bash`, the entry for `zsh` is
handed to `emit_package` before the entry for `bash`, although `bash` is less
than `zsh` in the order by name, version and architecture. -/
theorem search_file_not_sorted :
    handed (backend_search_file_thread example_helpers (some example_apt) "/bin/sh" []
      (fun _ => false)).1 = [(1, zsh_ver), (0, bash_ver)] ∧
    spec_compare example_apt.Name (0, bash_ver) (1, zsh_ver) = true ∧
    ¬ (handed (backend_search_file_thread example_helpers (some example_apt) "/bin/sh" []
      (fun _ => false)).1).Pairwise (fun a b => spec_compare example_apt.Name b a = false) := by
  decide

/-- C8: every entry that search_name, search_details, search_group or
get_packages hands to `emit_package` is a package together with the version
`find_ver` found for it, for every cache, input and reads of `_cancel`; so a
package for which `find_ver` finds no version (a virtual package) is never
handed over. -/
theorem emitted_has_version (h : Helpers) (init : Option aptcc) (filters : PkBitfield)
    (cancel : Nat → Bool) (pending_error : Bool) (search : String) (search_details : Bool)
    (group : Option String) (x : PkgPair)
    (hx : x ∈ handed (backend_search_package_thread h init pending_error search filters
        search_details cancel).1 ∨
      x ∈ handed (backend_search_group_thread h init group filters cancel).1 ∨
      x ∈ handed (backend_get_packages_thread h init filters cancel).1) :
    ∃ m_apt, init = some m_apt ∧ m_apt.find_ver x.1 = some x.2 ∧ m_apt.find_ver x.1 ≠ none := by
  suffices hs : ∃ m_apt, init = some m_apt ∧ m_apt.find_ver x.1 = some x.2 by
    obtain ⟨m_apt, hi, hv⟩ := hs
    exact ⟨m_apt, hi, hv, by simp [hv]⟩
  rcases hx with hx | hx | hx
  · cases hm : h.matcher search with
    | none =>
      rw [search_package_handed_fail h init pending_error search filters search_details cancel
        (Or.inl hm)] at hx
      simp at hx
    | some m_matches =>
      cases init with
      | none =>
        rw [search_package_handed_fail h none pending_error search filters search_details
          cancel (Or.inr (Or.inl rfl))] at hx
        simp at hx
      | some m_apt =>
        cases pending_error with
        | true =>
          rw [search_package_handed_fail h _ true search filters search_details cancel
            (Or.inr (Or.inr rfl))] at hx
          simp at hx
        | false =>
          rw [search_package_handed_ok h m_apt m_matches search filters search_details cancel
            hm] at hx
          have hx2 := mem_unique_sort _ _ _ x
            ((handed_emit_loop filters cancel _ _).subset hx)
          exact ⟨m_apt, rfl, search_package_output_version m_apt m_matches search_details
            cancel x hx2⟩
  · cases group with
    | none =>
      rw [search_group_handed_fail h init none filters cancel (Or.inl rfl)] at hx
      simp at hx
    | some g =>
      cases init with
      | none =>
        rw [search_group_handed_fail h none (some g) filters cancel (Or.inr rfl)] at hx
        simp at hx
      | some m_apt =>
        rw [search_group_handed_ok] at hx
        have hx2 := (std_sort_perm h.compare _).mem_iff.mp
          ((handed_emit_loop filters cancel _ _).subset hx)
        obtain ⟨pkg, _, hxp⟩ := mem_accumulate_loop _ cancel _ 0 x hx2
        exact ⟨m_apt, rfl, search_group_body_version h m_apt _ pkg x hxp⟩
  · cases init with
    | none =>
      rw [get_packages_handed_fail] at hx
      simp at hx
    | some m_apt =>
      rw [get_packages_handed_ok] at hx
      have hx2 := (std_sort_perm h.compare _).mem_iff.mp
        ((handed_emit_loop filters cancel _ _).subset hx)
      obtain ⟨pkg, _, hxp⟩ := mem_accumulate_loop _ cancel _ 0 x hx2
      exact ⟨m_apt, rfl, get_packages_body_version m_apt pkg x hxp⟩

/-- Witness of C8: `exim4`, handed over by the name search for the virtual
package `mail-transport-agent` on the example cache. -/
theorem emitted_has_version_witness :
    ((4, exim_ver) ∈ handed (backend_search_package_thread example_helpers (some example_apt)
        false "mail-transport-agent" [] false (fun _ => false)).1 ∨
      (4, exim_ver) ∈ handed (backend_search_group_thread example_helpers (some example_apt)
        none [] (fun _ => false)).1 ∨
      (4, exim_ver) ∈ handed (backend_get_packages_thread example_helpers (some example_apt) []
        (fun _ => false)).1) ∧
    ∃ m_apt, some example_apt = some m_apt ∧ m_apt.find_ver 4 = some exim_ver ∧
      m_apt.find_ver 4 ≠ none :=
  ⟨Or.inl (by decide),
    emitted_has_version example_helpers (some example_apt) [] (fun _ => false) false
      "mail-transport-agent" false none (4, exim_ver) (Or.inl (by decide))⟩

/-- C9, the claim fails: on the example cache the name search for
`mail-transport-agent`, with `_cancel` never set and the matcher built and the
cache opened, finds `_error->PendingError ()` true and returns at once:
`postfix`, an owner with a version in the provides list of the matching package
without version, is not handed to `emit_package`, nor is anything else. -/
theorem search_name_pending_error_hands_nothing :
    (example_helpers.matcher "mail-transport-agent"
        = some (fun s => s == "mail-transport-agent") ∧
      2 ∈ example_apt.PkgList ∧
      (example_apt.Name 2 == "mail-transport-agent") = true ∧
      example_apt.find_ver 2 = none ∧
      3 ∈ example_apt.ProvidesList 2 ∧
      example_apt.find_ver 3 = some postfix_ver) ∧
    backend_search_package_thread example_helpers (some example_apt) true
        "mail-transport-agent" [] false (fun _ => false) =
      ([Event.set_percentage PK_BACKEND_PERCENTAGE_INVALID, Event.set_allow_cancel true,
        Event.set_status .QUERY], false) ∧
    ¬ ∃ e ∈ handed (backend_search_package_thread example_helpers (some example_apt) true
      "mail-transport-agent" [] false (fun _ => false)).1,
      example_helpers.result_equality e (3, postfix_ver) = true := by
  refine ⟨⟨rfl, by decide, by decide, rfl, by decide, rfl⟩, rfl, ?_⟩
  rw [search_package_handed_fail example_helpers (some example_apt) true "mail-transport-agent"
    [] false _ (Or.inr (Or.inr rfl))]
  simp

/-- C9 as amended: in search_name with `_cancel` never set and no apt error
pending once the cache is opened (`_error->PendingError ()` false), for every
package of the cache whose name matches and for which `find_ver` finds no
version, every owner package of its provides list for which `find_ver` finds a
version has an entry equal to it under `result_equality` among those handed to
`emit_package`; nothing is asked of the owner's own name. -/
theorem search_name_hands_providers (h : Helpers)
    (hrefl : ∀ a, h.result_equality a a = true) (m_apt : aptcc) (m_matches : String → Bool)
    (search : String) (filters : PkBitfield) (hm : h.matcher search = some m_matches)
    (pkg : PkgIterator) (hpkg : pkg ∈ m_apt.PkgList)
    (hname : m_matches (m_apt.Name pkg) = true) (hvirtual : m_apt.find_ver pkg = none)
    (owner : PkgIterator) (howner : owner ∈ m_apt.ProvidesList pkg) (ver : VerIterator)
    (hver : m_apt.find_ver owner = some ver) :
    ∃ e ∈ handed (backend_search_package_thread h (some m_apt) false search filters false
      (fun _ => false)).1, h.result_equality e (owner, ver) = true := by
  rw [search_package_handed_ok h m_apt m_matches search filters false _ hm,
    handed_emit_loop_no_cancel]
  have hbody : (owner, ver) ∈ search_name_body m_apt m_matches pkg := by
    have hne : m_apt.ProvidesList pkg ≠ [] := List.ne_nil_of_mem howner
    have hskip : only_due_to_dependencies m_apt pkg = false := by
      simp [only_due_to_dependencies, hne]
    simp only [search_name_body, hskip, hname, hvirtual, if_true, Bool.false_eq_true, if_false]
    exact providers_all m_apt pkg owner ver howner hver
  have hout : (owner, ver) ∈ (search_package_output m_apt m_matches false (fun _ => false)).1 := by
    simp only [search_package_output, Bool.false_eq_true, if_false]
    exact accumulate_loop_no_cancel _ _ 0 pkg hpkg _ hbody
  have hsort := (std_sort_perm h.compare _).mem_iff.mpr hout
  obtain ⟨e, he, hex⟩ := std_unique_represents h.result_equality _ _ hsort
  refine ⟨e, he, ?_⟩
  rcases hex with rfl | hex
  · exact hrefl _
  · exact hex

/-- Witness of C9: `postfix`, a provider of the virtual package
`mail-transport-agent` of the example cache, whose own name does not match. -/
theorem search_name_hands_providers_witness :
    ((∀ a, example_helpers.result_equality a a = true) ∧
      example_helpers.matcher "mail-transport-agent"
        = some (fun s => s == "mail-transport-agent") ∧
      2 ∈ example_apt.PkgList ∧
      (example_apt.Name 2 == "mail-transport-agent") = true ∧
      example_apt.find_ver 2 = none ∧
      3 ∈ example_apt.ProvidesList 2 ∧
      example_apt.find_ver 3 = some postfix_ver) ∧
    ∃ e ∈ handed (backend_search_package_thread example_helpers (some example_apt) false
      "mail-transport-agent" [] false (fun _ => false)).1,
      example_helpers.result_equality e (3, postfix_ver) = true :=
  ⟨⟨spec_result_equality_refl example_apt.Name, rfl, by decide, by decide, rfl, by decide, rfl⟩,
    search_name_hands_providers example_helpers (spec_result_equality_refl example_apt.Name)
      example_apt (fun s => s == "mail-transport-agent") "mail-transport-agent" [] rfl
      2 (by decide) (by decide) rfl 3 (by decide) postfix_ver rfl⟩

/-- C10, the claim fails: on the example cache the details search for the
short description of `postfix`, with `_cancel` never set and the matcher built
and the cache opened, finds `_error->PendingError ()` true and returns at
once: `postfix`, which has a version and a matching default-locale short
description, is not handed to `emit_package`, nor is anything else. -/
theorem search_details_pending_error_hands_nothing :
    (example_helpers.matcher "High-performance mail transport agent"
        = some (fun s => s == "High-performance mail transport agent") ∧
      3 ∈ example_apt.PkgList ∧
      example_apt.find_ver 3 = some postfix_ver ∧
      postfix_ver ∈ example_apt.VersionList 3 ∧
      (example_apt.get_default_short_description postfix_ver
        == "High-performance mail transport agent") = true) ∧
    backend_search_package_thread example_helpers (some example_apt) true
        "High-performance mail transport agent" [] true (fun _ => false) =
      ([Event.set_percentage PK_BACKEND_PERCENTAGE_INVALID, Event.set_allow_cancel true,
        Event.set_status .QUERY], false) ∧
    handed (backend_search_package_thread example_helpers (some example_apt) true
      "High-performance mail transport agent" [] true (fun _ => false)).1 = [] := by
  refine ⟨⟨rfl, by decide, rfl, by decide, by decide⟩, rfl, ?_⟩
  exact search_package_handed_fail example_helpers (some example_apt) true
    "High-performance mail transport agent" [] true _ (Or.inr (Or.inr rfl))

/-- C10 as amended: in search_details with `_cancel` never set and no apt
error pending once the cache is opened (`_error->PendingError ()` false),
every package of the cache with a version found among its versions whose name,
default-locale short or long description, or localized short or long
description matches is pushed to the candidate vector, and an entry that is
this package or equal to it under `result_equality` is handed to
`emit_package`. -/
theorem search_details_includes (h : Helpers) (m_apt : aptcc) (m_matches : String → Bool)
    (search : String) (filters : PkBitfield) (hm : h.matcher search = some m_matches)
    (pkg : PkgIterator) (hpkg : pkg ∈ m_apt.PkgList) (ver : VerIterator)
    (hver : m_apt.find_ver pkg = some ver) (hlist : ver ∈ m_apt.VersionList pkg)
    (hmatch : m_matches (m_apt.Name pkg) = true ∨
      m_matches (m_apt.get_default_short_description ver) = true ∨
      m_matches (m_apt.get_default_long_description ver) = true ∨
      m_matches (m_apt.get_short_description ver) = true ∨
      m_matches (m_apt.get_long_description ver) = true) :
    (pkg, ver) ∈ (search_package_output m_apt m_matches true (fun _ => false)).1 ∧
    ∃ e ∈ handed (backend_search_package_thread h (some m_apt) false search filters true
      (fun _ => false)).1, e = (pkg, ver) ∨ h.result_equality e (pkg, ver) = true := by
  have hbody : (pkg, ver) ∈ search_details_body m_apt m_matches pkg := by
    have hne : m_apt.VersionList pkg ≠ [] := List.ne_nil_of_mem hlist
    have hskip : only_due_to_dependencies m_apt pkg = false := by
      simp [only_due_to_dependencies, hne]
    by_cases hname : m_matches (m_apt.Name pkg) = true
    · simp [search_details_body, hskip, hname, hver]
    · have hdesc : description_matches m_apt m_matches ver = true := by
        rcases hmatch with hn | hd | hd | hd | hd
        · exact absurd hn hname
        all_goals simp [description_matches, hd]
      simp [search_details_body, hskip, hname, hver, hdesc]
  have hout : (pkg, ver) ∈ (search_package_output m_apt m_matches true (fun _ => false)).1 := by
    simp only [search_package_output, if_true]
    exact accumulate_loop_no_cancel _ _ 0 pkg hpkg _ hbody
  refine ⟨hout, ?_⟩
  rw [search_package_handed_ok h m_apt m_matches search filters true _ hm,
    handed_emit_loop_no_cancel]
  exact std_unique_represents h.result_equality _ _
    ((std_sort_perm h.compare _).mem_iff.mpr hout)

/-- Witness of C10: `postfix` on the example cache, found by the pattern that
is its default-locale short description while its name does not match. -/
theorem search_details_includes_witness :
    (example_helpers.matcher "High-performance mail transport agent"
        = some (fun s => s == "High-performance mail transport agent") ∧
      3 ∈ example_apt.PkgList ∧
      example_apt.find_ver 3 = some postfix_ver ∧
      postfix_ver ∈ example_apt.VersionList 3 ∧
      (example_apt.get_default_short_description postfix_ver
        == "High-performance mail transport agent") = true) ∧
    (3, postfix_ver) ∈ (search_package_output example_apt
      (fun s => s == "High-performance mail transport agent") true (fun _ => false)).1 ∧
    ∃ e ∈ handed (backend_search_package_thread example_helpers (some example_apt) false
      "High-performance mail transport agent" [] true (fun _ => false)).1,
      e = (3, postfix_ver) ∨ example_helpers.result_equality e (3, postfix_ver) = true :=
  ⟨⟨rfl, by decide, rfl, by decide, by decide⟩,
    search_details_includes example_helpers example_apt
      (fun s => s == "High-performance mail transport agent")
      "High-performance mail transport agent" [] rfl 3 (by decide) postfix_ver rfl (by decide)
      (Or.inr (Or.inl (by decide)))⟩

/-! ### The main loop and the install timer -/

theorem fire_no_source (backend : Backend) (id : Nat) (hs : backend.sources = []) :
    fire backend id = backend := by
  simp [fire, hs]

theorem fire_all_no_source (ids : List Nat) (backend : Backend) (hs : backend.sources = []) :
    fire_all backend ids = backend := by
  induction ids with
  | nil => rfl
  | cons id rest ih =>
    have hstep : fire_all backend (id :: rest) = fire_all (fire backend id) rest := rfl
    rw [hstep, fire_no_source backend id hs]
    exact ih

theorem fire_all_append (backend : Backend) (ids later : List Nat) :
    fire_all backend (ids ++ later) = fire_all (fire_all backend ids) later := by
  simp [fire_all, List.foldl_append]

theorem fire_all_replicate_succ (backend : Backend) (n id : Nat) :
    fire_all backend (List.replicate (n + 1) id) =
      fire (fire_all backend (List.replicate n id)) id := by
  rw [List.replicate_succ', fire_all_append]
  rfl

theorem backend_install_timeout_step (backend : Backend)
    (hp : backend._progress_percentage < 100) :
    backend_install_timeout backend =
      ({ backend with
          _progress_percentage := backend._progress_percentage + 1
          log := backend.log ++ install_step_events backend._progress_percentage }, true) := by
  have hmod : (backend._progress_percentage + 1) % 2 ^ 32 = backend._progress_percentage + 1 :=
    Nat.mod_eq_of_lt (by omega)
  have h100 : (backend._progress_percentage == 100) = false := by
    rw [beq_eq_false_iff_ne]; omega
  unfold backend_install_timeout install_step_events
  simp only [h100, Bool.false_eq_true, if_false]
  by_cases h30 : backend._progress_percentage = 30
  · simp [h30, pk_backend_set_allow_cancel, pk_backend_package, pk_backend_set_status,
      pk_backend_set_sub_percentage, pk_backend_set_percentage, Backend.emit]
  · by_cases h50 : backend._progress_percentage = 50
    · simp [h50, pk_backend_set_allow_cancel, pk_backend_package, pk_backend_set_status,
        pk_backend_set_sub_percentage, pk_backend_set_percentage, Backend.emit]
    · have hlt : backend._progress_percentage + 1 < 4294967296 := by omega
      by_cases hmid : 30 < backend._progress_percentage ∧ backend._progress_percentage < 50
      · simp [h30, h50, hmid, hlt, pk_backend_set_sub_percentage, pk_backend_set_percentage,
          Backend.emit]
      · simp [h30, h50, hmid, hlt, pk_backend_set_sub_percentage, pk_backend_set_percentage,
          Backend.emit]

theorem backend_install_timeout_done (backend : Backend)
    (hp : backend._progress_percentage = 100) :
    backend_install_timeout backend = (pk_backend_finished backend, false) := by
  simp [backend_install_timeout, hp]

theorem fire_eq (b : Backend) (id : Nat) (s : Source)
    (hfind : b.sources.find? (fun x => x.id == id) = some s) :
    fire b id =
      if (dispatch s.callback b).2 = true then (dispatch s.callback b).1
      else g_source_remove (dispatch s.callback b).1 id := by
  simp [fire, hfind]

theorem install_events_succ (n : Nat) :
    install_events (n + 1) = install_events n ++ install_step_events n := by
  simp [install_events, List.range_succ, List.flatMap_append]

theorem install_run (b1 : Backend) (id : Nat)
    (hsrc : b1.sources = [⟨id, 100, .backend_install_timeout⟩])
    (hp : b1._progress_percentage = 0) :
    ∀ n, n ≤ 100 → fire_all b1 (List.replicate n id) =
      { b1 with _progress_percentage := n, log := b1.log ++ install_events n } := by
  intro n
  induction n with
  | zero =>
    intro _
    cases b1
    simp only at hp
    subst hp
    simp [fire_all, install_events]
  | succ n ih =>
    intro hn
    rw [fire_all_replicate_succ, ih (by omega)]
    have hstep := backend_install_timeout_step
      { b1 with _progress_percentage := n, log := b1.log ++ install_events n }
      (show n < 100 by omega)
    rw [fire_eq _ id ⟨id, 100, .backend_install_timeout⟩ (by simp [hsrc])]
    show (if (backend_install_timeout _).2 = true then (backend_install_timeout _).1
      else g_source_remove (backend_install_timeout _).1 id) = _
    rw [hstep]
    simp [install_events_succ]

theorem install_run_complete (b1 : Backend) (id : Nat)
    (hsrc : b1.sources = [⟨id, 100, .backend_install_timeout⟩])
    (hp : b1._progress_percentage = 0) (k : Nat) :
    fire_all b1 (List.replicate (101 + k) id) =
      { b1 with
          _progress_percentage := 100
          sources := []
          log := b1.log ++ install_events 100 ++ [Event.finished] } := by
  have hsplit : List.replicate (101 + k) id =
      List.replicate 100 id ++ ([id] ++ List.replicate k id) := by
    rw [show 101 + k = 100 + (1 + k) by omega, List.replicate_add, List.replicate_add]
    rfl
  rw [hsplit, fire_all_append, install_run b1 id hsrc hp 100 (le_refl _), fire_all_append]
  have hlast : fire_all
      { b1 with _progress_percentage := 100, log := b1.log ++ install_events 100 } [id] =
      { b1 with
          _progress_percentage := 100
          sources := []
          log := b1.log ++ install_events 100 ++ [Event.finished] } := by
    have hdone := backend_install_timeout_done
      { b1 with _progress_percentage := 100, log := b1.log ++ install_events 100 } rfl
    show fire _ id = _
    rw [fire_eq _ id ⟨id, 100, .backend_install_timeout⟩ (by simp [hsrc])]
    show (if (backend_install_timeout _).2 = true then (backend_install_timeout _).1
      else g_source_remove (backend_install_timeout _).1 id) = _
    rw [hdone]
    simp [g_source_remove, pk_backend_finished, Backend.emit, hsrc]
  rw [hlast]
  exact fire_all_no_source _ _ rfl

theorem backend_install_packages_start_eq (b0 : Backend) (hs : b0.sources = []) :
    backend_install_packages_start b0 =
      { b0 with
          _progress_percentage := 0
          _signal_timeout := b0.next_source_id
          sources := [⟨b0.next_source_id, 100, .backend_install_timeout⟩]
          next_source_id := b0.next_source_id + 1
          log := b0.log ++ [Event.set_allow_cancel true,
            Event.package .DOWNLOADING "gtkhtml2;2.19.1-4.fc8;i386;fedora"
              (some "An HTML widget for GTK+ 2.0")] } := by
  simp [backend_install_packages_start, g_timeout_add, pk_backend_set_allow_cancel,
    pk_backend_package, Backend.emit, hs]

theorem backend_cancel_pending (b : Backend) (interval : Nat) (callback : Callback)
    (hpending : b._signal_timeout ≠ 0)
    (hsrc : b.sources = [⟨b._signal_timeout, interval, callback⟩]) :
    backend_cancel b =
      { b with
          _cancel := true
          sources := [⟨b.next_source_id, 1500, .backend_cancel_timeout⟩]
          next_source_id := b.next_source_id + 1 } := by
  simp [backend_cancel, hpending, g_source_remove, g_timeout_add, hsrc]

theorem fire_all_cancel_source (ids : List Nat) (c : Backend) (n : Nat)
    (hsrc : c.sources = [⟨n, 1500, .backend_cancel_timeout⟩]) :
    fire_all c ids =
      if n ∈ ids then
        { c with
            _signal_timeout := 0
            sources := []
            log := c.log ++ [Event.error_code .TRANSACTION_CANCELLED
              "The task was stopped successfully", Event.finished] }
      else c := by
  induction ids with
  | nil => simp [fire_all]
  | cons j rest ih =>
    have hstep : fire_all c (j :: rest) = fire_all (fire c j) rest := rfl
    rw [hstep]
    by_cases hj : n = j
    · subst hj
      have hfire : fire c n =
          { c with
              _signal_timeout := 0
              sources := []
              log := c.log ++ [Event.error_code .TRANSACTION_CANCELLED
                "The task was stopped successfully", Event.finished] } := by
        simp [fire, hsrc, dispatch, backend_cancel_timeout, g_source_remove,
          pk_backend_error_code, pk_backend_finished, Backend.emit]
      rw [hfire, fire_all_no_source _ _ rfl]
      simp
    · have hfire : fire c j = c := by
        simp [fire, hsrc, hj]
      rw [hfire, ih]
      simp [hj]

theorem package_events_append (a b : List Event) :
    package_events (a ++ b) = package_events a ++ package_events b := by
  simp [package_events, List.filterMap_append]

theorem package_events_install_events (n : Nat) :
    package_events (install_events n) =
      (if 30 < n then
        [(PkInfoEnum.INSTALLING, "gtkhtml2;2.19.1-4.fc8;i386;fedora",
          some "An HTML widget for GTK+ 2.0")]
      else []) ++
      (if 50 < n then
        [(PkInfoEnum.INSTALLING, "gtkhtml2-devel;2.19.1-0.fc8;i386;fedora",
          some "Devel files for gtkhtml"),
         (PkInfoEnum.INSTALLING, "gtkhtml2-devel;2.19.1-0.fc8;i386;fedora", none)]
      else []) := by
  induction n with
  | zero => simp [install_events, package_events]
  | succ n ih =>
    rw [install_events_succ, package_events_append, ih]
    by_cases h30 : n = 30
    · subst h30
      simp [install_step_events, package_events]
    · by_cases h50 : n = 50
      · subst h50
        simp [install_step_events, package_events]
      · have hstep : package_events (install_step_events n) = [] := by
          simp [install_step_events, package_events, h30, h50]
        rw [hstep]
        have e30 : (30 < n + 1) = (30 < n) := by
          apply propext; constructor <;> intro h <;> omega
        have e50 : (50 < n + 1) = (50 < n) := by
          apply propext; constructor <;> intro h <;> omega
        simp only [e30, e50, List.append_nil]

/-! ### The section name -/

theorem find_last_of_from_not_mem (c : Char) (l : List Char) :
    ∀ i last, c ∉ l → find_last_of_from c l i last = last := by
  induction l with
  | nil => intro i last _; rfl
  | cons x xs ih =>
    intro i last hc
    rw [List.mem_cons, not_or] at hc
    have hx : (x == c) = false := by
      rw [beq_eq_false_iff_ne]
      exact fun h => hc.1 h.symm
    simp only [find_last_of_from, hx, Bool.false_eq_true, if_false]
    exact ih (i + 1) last hc.2

theorem find_last_of_from_split (c : Char) (post : List Char) (hpost : c ∉ post)
    (pre : List Char) :
    ∀ i last, find_last_of_from c (pre ++ c :: post) i last = i + pre.length := by
  induction pre with
  | nil =>
    intro i last
    simp only [List.nil_append, find_last_of_from, beq_self_eq_true, if_true, List.length_nil,
      Nat.add_zero]
    exact find_last_of_from_not_mem c post (i + 1) i hpost
  | cons x xs ih =>
    intro i last
    show find_last_of_from c (xs ++ c :: post) (i + 1) _ = _
    rw [ih, List.length_cons]
    omega

theorem exists_last_split (c : Char) (l : List Char) (hc : c ∈ l) :
    ∃ pre post, l = pre ++ c :: post ∧ c ∉ post := by
  induction l with
  | nil => simp at hc
  | cons x xs ih =>
    by_cases hxs : c ∈ xs
    · obtain ⟨pre, post, hl, hpost⟩ := ih hxs
      exact ⟨x :: pre, post, by rw [hl]; rfl, hpost⟩
    · rw [List.mem_cons] at hc
      rcases hc with rfl | hc
      · exact ⟨[], xs, rfl, hxs⟩
      · exact absurd hc hxs

theorem section_tail_split (s : String) (hlen : s.data.length < 2 ^ 64)
    (pre post : List Char) (hs : s.data = pre ++ '/' :: post) (hpost : '/' ∉ post) :
    section_tail s = ⟨post⟩ := by
  have hfound : find_last_of s '/' = pre.length := by
    unfold find_last_of
    rw [hs, find_last_of_from_split '/' post hpost pre 0 npos]
    omega
  have hl : pre.length + 1 < 2 ^ 64 := by
    rw [hs] at hlen
    simp only [List.length_append, List.length_cons] at hlen
    omega
  unfold section_tail substr
  simp only [hfound, Nat.mod_eq_of_lt hl, hs]
  congr 1
  rw [show pre ++ '/' :: post = (pre ++ ['/']) ++ post by simp]
  exact List.drop_left' (by simp)

theorem section_tail_no_slash (s : String) (hs : '/' ∉ s.data) :
    find_last_of s '/' = npos ∧ section_tail s = s := by
  have hfound : find_last_of s '/' = npos := by
    unfold find_last_of
    exact find_last_of_from_not_mem '/' s.data 0 npos hs
  refine ⟨hfound, ?_⟩
  unfold section_tail substr
  simp only [hfound]
  have : (npos + 1) % 2 ^ 64 = 0 := by decide
  rw [this, List.drop_zero]

/-- C11: for every raw section string `s` (shorter than `2 ^ 64`, as every
`std::string` is), the string `section_tail s` that
`backend_search_group_thread` passes to `get_enum_group` contains no `/`; it
is the part of `s` after the last `/`; and when `s` contains no `/`,
`find_last_of` gives `npos`, `npos + 1` wraps to 0 and the string is `s`
itself.  The loop body pushes a package with a version found exactly when the
requested group is `get_enum_group` of that string. -/
theorem section_tail_after_last_slash (s : String) (hlen : s.data.length < 2 ^ 64) :
    '/' ∉ (section_tail s).data ∧
    (∀ pre post, s.data = pre ++ '/' :: post → '/' ∉ post → section_tail s = ⟨post⟩) ∧
    ('/' ∉ s.data →
      find_last_of s '/' = npos ∧ (npos + 1) % 2 ^ 64 = 0 ∧ section_tail s = s) ∧
    (∀ (h : Helpers) (m_apt : aptcc) (pkGroup : PkGroupEnum) (pkg : PkgIterator)
      (ver : VerIterator), only_due_to_dependencies m_apt pkg = false →
      m_apt.find_ver pkg = some ver → version_list_section m_apt pkg = s →
      search_group_body h m_apt pkGroup pkg =
        if pkGroup == h.get_enum_group (section_tail s) then [(pkg, ver)] else []) := by
  refine ⟨?_, fun pre post hs hpost => section_tail_split s hlen pre post hs hpost, ?_, ?_⟩
  · by_cases hs : '/' ∈ s.data
    · obtain ⟨pre, post, hsplit, hpost⟩ := exists_last_split '/' s.data hs
      rw [section_tail_split s hlen pre post hsplit hpost]
      exact hpost
    · rw [(section_tail_no_slash s hs).2]
      exact hs
  · intro hs
    exact ⟨(section_tail_no_slash s hs).1, by decide, (section_tail_no_slash s hs).2⟩
  · intro h m_apt pkGroup pkg ver hskip hver hsec
    simp [search_group_body, hskip, hver, hsec]

/-- Witness of C11: the section `universe/mail` of the example package
`postfix`, classified as `mail`. -/
theorem section_tail_after_last_slash_witness :
    ("universe/mail" : String).data.length < 2 ^ 64 ∧
    ('/' ∉ (section_tail "universe/mail").data ∧
    (∀ pre post, ("universe/mail" : String).data = pre ++ '/' :: post → '/' ∉ post →
      section_tail "universe/mail" = ⟨post⟩) ∧
    ('/' ∉ ("universe/mail" : String).data →
      find_last_of "universe/mail" '/' = npos ∧ (npos + 1) % 2 ^ 64 = 0 ∧
        section_tail "universe/mail" = "universe/mail") ∧
    (∀ (h : Helpers) (m_apt : aptcc) (pkGroup : PkGroupEnum) (pkg : PkgIterator)
      (ver : VerIterator), only_due_to_dependencies m_apt pkg = false →
      m_apt.find_ver pkg = some ver → version_list_section m_apt pkg = "universe/mail" →
      search_group_body h m_apt pkGroup pkg =
        if pkGroup == h.get_enum_group (section_tail "universe/mail") then [(pkg, ver)]
        else [])) :=
  ⟨by decide, section_tail_after_last_slash "universe/mail" (by decide)⟩

/-- C12: after every call of `backend_cancel` the flag `_cancel` is true,
whether or not a timer is pending; and when `_signal_timeout` is 0 the call
changes nothing else: no event is emitted and no timeout source is added. -/
theorem backend_cancel_sets_flag (backend : Backend) :
    (backend_cancel backend)._cancel = true ∧
    (backend._signal_timeout = 0 →
      backend_cancel backend = { backend with _cancel := true } ∧
      (backend_cancel backend).log = backend.log ∧
      (backend_cancel backend).sources = backend.sources ∧
      (backend_cancel backend).next_source_id = backend.next_source_id) := by
  refine ⟨rfl, fun h0 => ?_⟩
  have hrun : backend_cancel backend = { backend with _cancel := true } := by
    simp [backend_cancel, h0]
  rw [hrun]
  exact ⟨rfl, rfl, rfl, rfl⟩

/-- Witness of C12: the cancel call on the initial state, where no timer is
pending. -/
theorem backend_cancel_sets_flag_witness :
    (backend_cancel {})._cancel = true ∧
    (({} : Backend)._signal_timeout = 0 →
      backend_cancel {} = { ({} : Backend) with _cancel := true } ∧
      (backend_cancel {}).log = ({} : Backend).log ∧
      (backend_cancel {}).sources = ({} : Backend).sources ∧
      (backend_cancel {}).next_source_id = ({} : Backend).next_source_id) :=
  backend_cancel_sets_flag {}

/-- C13: when `backend_cancel` is called while the timer of an operation is
pending (`_signal_timeout` is the id of the only source), the source of the
operation is removed and the only source left is the 1500 ms cancel timer.
Whatever sources the main loop fires afterwards, the removed timer never runs:
nothing at all is emitted before the cancel timer fires, and once it fires the
emission is exactly one error of kind transaction-cancelled followed by one
`finished`, after which no source is left. -/
theorem cancel_pending_operation (backend : Backend) (interval : Nat) (callback : Callback)
    (hpending : backend._signal_timeout ≠ 0)
    (hsrc : backend.sources = [⟨backend._signal_timeout, interval, callback⟩])
    (ids : List Nat) :
    (backend_cancel backend).sources =
      [⟨backend.next_source_id, 1500, .backend_cancel_timeout⟩] ∧
    (backend_cancel backend).log = backend.log ∧
    (backend.next_source_id ∉ ids →
      fire_all (backend_cancel backend) ids = backend_cancel backend) ∧
    (backend.next_source_id ∈ ids →
      (fire_all (backend_cancel backend) ids).log =
        backend.log ++ [Event.error_code .TRANSACTION_CANCELLED
          "The task was stopped successfully", Event.finished] ∧
      (fire_all (backend_cancel backend) ids).sources = [] ∧
      (fire_all (backend_cancel backend) ids)._signal_timeout = 0) := by
  have hc := backend_cancel_pending backend interval callback hpending hsrc
  have hfire := fire_all_cancel_source ids (backend_cancel backend) backend.next_source_id
    (by rw [hc])
  refine ⟨by rw [hc], by rw [hc], fun hn => ?_, fun hn => ?_⟩
  · rw [hfire, if_neg hn]
  · rw [hfire, if_pos hn, hc]
    exact ⟨rfl, rfl, rfl⟩

/-- Witness of C13: the cancel call right after an install was started on the
initial state, followed by the main loop firing the removed install timer and
then the cancel timer. -/
theorem cancel_pending_operation_witness :
    ((backend_install_packages {} ["gtkhtml2;2.19.1-4.fc8;i386;fedora"])._signal_timeout ≠ 0 ∧
      (backend_install_packages {} ["gtkhtml2;2.19.1-4.fc8;i386;fedora"]).sources =
        [⟨(backend_install_packages {} ["gtkhtml2;2.19.1-4.fc8;i386;fedora"])._signal_timeout,
          100, .backend_install_timeout⟩]) ∧
    ((backend_cancel (backend_install_packages {}
        ["gtkhtml2;2.19.1-4.fc8;i386;fedora"])).sources =
      [⟨(backend_install_packages {} ["gtkhtml2;2.19.1-4.fc8;i386;fedora"]).next_source_id,
        1500, .backend_cancel_timeout⟩] ∧
    (backend_cancel (backend_install_packages {} ["gtkhtml2;2.19.1-4.fc8;i386;fedora"])).log =
      (backend_install_packages {} ["gtkhtml2;2.19.1-4.fc8;i386;fedora"]).log ∧
    ((backend_install_packages {} ["gtkhtml2;2.19.1-4.fc8;i386;fedora"]).next_source_id
        ∉ [1, 2] →
      fire_all (backend_cancel (backend_install_packages {}
        ["gtkhtml2;2.19.1-4.fc8;i386;fedora"])) [1, 2] =
      backend_cancel (backend_install_packages {} ["gtkhtml2;2.19.1-4.fc8;i386;fedora"])) ∧
    ((backend_install_packages {} ["gtkhtml2;2.19.1-4.fc8;i386;fedora"]).next_source_id
        ∈ [1, 2] →
      (fire_all (backend_cancel (backend_install_packages {}
        ["gtkhtml2;2.19.1-4.fc8;i386;fedora"])) [1, 2]).log =
        (backend_install_packages {} ["gtkhtml2;2.19.1-4.fc8;i386;fedora"]).log ++
          [Event.error_code .TRANSACTION_CANCELLED "The task was stopped successfully",
            Event.finished] ∧
      (fire_all (backend_cancel (backend_install_packages {}
        ["gtkhtml2;2.19.1-4.fc8;i386;fedora"])) [1, 2]).sources = [] ∧
      (fire_all (backend_cancel (backend_install_packages {}
        ["gtkhtml2;2.19.1-4.fc8;i386;fedora"])) [1, 2])._signal_timeout = 0)) :=
  ⟨⟨by decide, by decide⟩,
    cancel_pending_operation (backend_install_packages {} ["gtkhtml2;2.19.1-4.fc8;i386;fedora"])
      100 .backend_install_timeout (by decide) (by decide) [1, 2]⟩

theorem install_step_events_subset (k n : Nat) (hk : k < n) (e : Event)
    (he : e ∈ install_step_events k) : e ∈ install_events n := by
  unfold install_events
  rw [List.mem_flatMap]
  exact ⟨k, List.mem_range.mpr hk, he⟩

theorem install_run_from_start (b0 : Backend) (package_ids : List String)
    (hs : b0.sources = [])
    (hstart : backend_install_packages b0 package_ids = backend_install_packages_start b0)
    (n : Nat) (hn : n ≤ 100) :
    fire_all (backend_install_packages b0 package_ids) (List.replicate n b0.next_source_id) =
      { b0 with
          _progress_percentage := n
          _signal_timeout := b0.next_source_id
          sources := [⟨b0.next_source_id, 100, .backend_install_timeout⟩]
          next_source_id := b0.next_source_id + 1
          log := b0.log ++ [Event.set_allow_cancel true,
            Event.package .DOWNLOADING "gtkhtml2;2.19.1-4.fc8;i386;fedora"
              (some "An HTML widget for GTK+ 2.0")] ++ install_events n } := by
  rw [hstart, backend_install_packages_start_eq b0 hs, install_run _ b0.next_source_id rfl rfl n hn]

/-- C14, the claim fails: an install started on the initial state, its timer
fired 31 times (the callback at 30 has declared allow_cancel false), then
`backend_cancel`, then the main loop firing the install timer, the cancel
timer and the install timer again.  The log never reaches percentage 100, the
only error is transaction-cancelled, and no source is left to emit more. -/
theorem install_cancel_after_30_cut_short :
    Event.set_allow_cancel false ∈ (fire_all (backend_install_packages {}
      ["gtkhtml2;2.19.1-4.fc8;i386;fedora"]) (List.replicate 31 1)).log ∧
    Event.set_percentage 100 ∉ (fire_all (backend_cancel (fire_all (backend_install_packages {}
      ["gtkhtml2;2.19.1-4.fc8;i386;fedora"]) (List.replicate 31 1))) [1, 2, 1]).log ∧
    error_events (fire_all (backend_cancel (fire_all (backend_install_packages {}
      ["gtkhtml2;2.19.1-4.fc8;i386;fedora"]) (List.replicate 31 1))) [1, 2, 1]).log =
      [.TRANSACTION_CANCELLED] ∧
    (fire_all (backend_cancel (fire_all (backend_install_packages {}
      ["gtkhtml2;2.19.1-4.fc8;i386;fedora"]) (List.replicate 31 1))) [1, 2, 1]).log.getLast? =
      some Event.finished ∧
    (fire_all (backend_cancel (fire_all (backend_install_packages {}
      ["gtkhtml2;2.19.1-4.fc8;i386;fedora"]) (List.replicate 31 1))) [1, 2, 1]).sources = [] := by
  decide

/-- C14 as amended: when `backend_cancel` is called during an install whose
timer has fired `n` times, 31 to 100 (so allow_cancel false has been declared
and the timer is still pending), the install is cut short.  Whatever sources
the main loop fires afterwards, no further event of the install is emitted:
the log stays as it was until the cancel timer fires, and then ends with the
error transaction-cancelled followed by `finished`, with no source left. -/
theorem install_cancel_after_30 (b0 : Backend) (package_ids : List String)
    (hs : b0.sources = []) (hid : b0.next_source_id ≠ 0)
    (hstart : backend_install_packages b0 package_ids = backend_install_packages_start b0)
    (n : Nat) (h31 : 31 ≤ n) (h100 : n ≤ 100) (later : List Nat) :
    (fire_all (backend_install_packages b0 package_ids)
        (List.replicate n b0.next_source_id)).log =
      b0.log ++ [Event.set_allow_cancel true,
        Event.package .DOWNLOADING "gtkhtml2;2.19.1-4.fc8;i386;fedora"
          (some "An HTML widget for GTK+ 2.0")] ++ install_events n ∧
    Event.set_allow_cancel false ∈ install_events n ∧
    (b0.next_source_id + 1 ∉ later →
      (fire_all (backend_cancel (fire_all (backend_install_packages b0 package_ids)
          (List.replicate n b0.next_source_id))) later).log =
        (fire_all (backend_install_packages b0 package_ids)
          (List.replicate n b0.next_source_id)).log) ∧
    (b0.next_source_id + 1 ∈ later →
      (fire_all (backend_cancel (fire_all (backend_install_packages b0 package_ids)
          (List.replicate n b0.next_source_id))) later).log =
        (fire_all (backend_install_packages b0 package_ids)
          (List.replicate n b0.next_source_id)).log ++
          [Event.error_code .TRANSACTION_CANCELLED "The task was stopped successfully",
            Event.finished] ∧
      (fire_all (backend_cancel (fire_all (backend_install_packages b0 package_ids)
          (List.replicate n b0.next_source_id))) later).sources = []) := by
  have hrun := install_run_from_start b0 package_ids hs hstart n h100
  obtain ⟨bn, hbn⟩ : ∃ bn, bn = fire_all (backend_install_packages b0 package_ids)
      (List.replicate n b0.next_source_id) := ⟨_, rfl⟩
  rw [← hbn]
  have hlog : bn.log = b0.log ++ [Event.set_allow_cancel true,
      Event.package .DOWNLOADING "gtkhtml2;2.19.1-4.fc8;i386;fedora"
        (some "An HTML widget for GTK+ 2.0")] ++ install_events n := by rw [hbn, hrun]
  have hsig : bn._signal_timeout = b0.next_source_id := by rw [hbn, hrun]
  have hsrc : bn.sources = [⟨bn._signal_timeout, 100, .backend_install_timeout⟩] := by
    rw [hbn, hrun]
  have hnext : bn.next_source_id = b0.next_source_id + 1 := by rw [hbn, hrun]
  have hc := backend_cancel_pending bn 100 .backend_install_timeout (by rw [hsig]; exact hid) hsrc
  have hfire := fire_all_cancel_source later (backend_cancel bn) (b0.next_source_id + 1)
    (by rw [hc, hnext])
  refine ⟨hlog, ?_, fun hn => ?_, fun hn => ?_⟩
  · exact install_step_events_subset 30 n (by omega) _ (by simp [install_step_events])
  · rw [hfire, if_neg hn, hc]
  · rw [hfire, if_pos hn, hc]
    exact ⟨rfl, rfl⟩

/-- Witness of C14: the install started on the initial state, cancelled after
31 firings of its timer. -/
theorem install_cancel_after_30_witness :
    ((({} : Backend).sources = [] ∧ ({} : Backend).next_source_id ≠ 0 ∧
      backend_install_packages {} ["gtkhtml2;2.19.1-4.fc8;i386;fedora"] =
        backend_install_packages_start {}) ∧ 31 ≤ 31 ∧ 31 ≤ 100) ∧
    ((fire_all (backend_install_packages {} ["gtkhtml2;2.19.1-4.fc8;i386;fedora"])
        (List.replicate 31 ({} : Backend).next_source_id)).log =
      ({} : Backend).log ++ [Event.set_allow_cancel true,
        Event.package .DOWNLOADING "gtkhtml2;2.19.1-4.fc8;i386;fedora"
          (some "An HTML widget for GTK+ 2.0")] ++ install_events 31 ∧
    Event.set_allow_cancel false ∈ install_events 31 ∧
    (({} : Backend).next_source_id + 1 ∉ [1, 2, 1] →
      (fire_all (backend_cancel (fire_all (backend_install_packages {}
          ["gtkhtml2;2.19.1-4.fc8;i386;fedora"])
          (List.replicate 31 ({} : Backend).next_source_id))) [1, 2, 1]).log =
        (fire_all (backend_install_packages {} ["gtkhtml2;2.19.1-4.fc8;i386;fedora"])
          (List.replicate 31 ({} : Backend).next_source_id)).log) ∧
    (({} : Backend).next_source_id + 1 ∈ [1, 2, 1] →
      (fire_all (backend_cancel (fire_all (backend_install_packages {}
          ["gtkhtml2;2.19.1-4.fc8;i386;fedora"])
          (List.replicate 31 ({} : Backend).next_source_id))) [1, 2, 1]).log =
        (fire_all (backend_install_packages {} ["gtkhtml2;2.19.1-4.fc8;i386;fedora"])
          (List.replicate 31 ({} : Backend).next_source_id)).log ++
          [Event.error_code .TRANSACTION_CANCELLED "The task was stopped successfully",
            Event.finished] ∧
      (fire_all (backend_cancel (fire_all (backend_install_packages {}
          ["gtkhtml2;2.19.1-4.fc8;i386;fedora"])
          (List.replicate 31 ({} : Backend).next_source_id))) [1, 2, 1]).sources = [])) :=
  ⟨⟨⟨rfl, by decide, rfl⟩, by decide, by decide⟩,
    install_cancel_after_30 {} ["gtkhtml2;2.19.1-4.fc8;i386;fedora"] rfl (by decide) rfl 31
      (by decide) (by decide) [1, 2, 1]⟩

/-- C15: two runs in which `finished` is emitted twice.  In the first,
`backend_cancel` is called twice while an install is pending; the second call
finds `_signal_timeout` still non-zero and adds a second cancel timer, and
both cancel timers fire.  In the second, `backend_install_files` runs to its
`finished`, which leaves `_signal_timeout` non-zero, and a later
`backend_cancel` adds a cancel timer that emits an error and `finished`
again. -/
theorem finished_emitted_twice :
    (fire_all (backend_cancel (backend_cancel (backend_install_packages {}
        ["gtkhtml2;2.19.1-4.fc8;i386;fedora"]))) [2, 3]).log =
      [Event.set_allow_cancel true,
        Event.package .DOWNLOADING "gtkhtml2;2.19.1-4.fc8;i386;fedora"
          (some "An HTML widget for GTK+ 2.0"),
        Event.error_code .TRANSACTION_CANCELLED "The task was stopped successfully",
        Event.finished,
        Event.error_code .TRANSACTION_CANCELLED "The task was stopped successfully",
        Event.finished] ∧
    (fire_all (backend_cancel (fire (backend_install_files {} true ["/tmp/a.deb"]) 1)) [2]).log =
      [Event.set_status .INSTALL, Event.set_percentage 101, Event.finished,
        Event.error_code .TRANSACTION_CANCELLED "The task was stopped successfully",
        Event.finished] ∧
    (fire_all (backend_cancel (backend_cancel (backend_install_packages {}
        ["gtkhtml2;2.19.1-4.fc8;i386;fedora"]))) [2, 3]).log.count Event.finished = 2 ∧
    (fire_all (backend_cancel (fire (backend_install_files {} true ["/tmp/a.deb"]) 1))
      [2]).log.count Event.finished = 2 := by
  decide


/-! ### Errors of the thread functions -/

theorem error_events_append (a b : List Event) :
    error_events (a ++ b) = error_events a ++ error_events b := by
  simp [error_events, List.filterMap_append]

theorem error_events_emit_loop (filters : PkBitfield) (cancel : Nat → Bool) (l : List PkgPair) :
    ∀ k, error_events (emit_loop filters cancel l k) = [] := by
  induction l with
  | nil => intro k; rfl
  | cons i rest ih =>
    intro k
    unfold emit_loop
    split_ifs
    · rfl
    · have hrest := ih (k + 1)
      simp only [error_events] at hrest
      simp [error_events, List.filterMap_cons, hrest]

/-- C17, the claim fails: `backend_search_file_thread` with the filters
installed and not-installed both set emits no error; it ends with a plain
`finished` and an empty result. -/
theorem search_file_contradictory_filters_finish :
    backend_search_file_thread example_helpers (some example_apt) "/bin/sh"
        [.INSTALLED, .NOT_INSTALLED] (fun _ => false) =
      ([Event.set_status .QUERY, Event.set_allow_cancel true, Event.finished], true) ∧
    error_events (backend_search_file_thread example_helpers (some example_apt) "/bin/sh"
      [.INSTALLED, .NOT_INSTALLED] (fun _ => false)).1 = [] := by
  decide

/-- C17 as amended: for every filter set that contains not-installed, whether
or not it also contains installed, `backend_search_file_thread` makes no
search at all (the cache is not even opened) and makes exactly the calls
status, allow-cancel, `finished`: an empty result and no error. -/
theorem search_file_not_installed_empty (h : Helpers) (init : Option aptcc) (search : String)
    (filters : PkBitfield) (cancel : Nat → Bool)
    (hfilter : pk_bitfield_contain filters .NOT_INSTALLED = true) :
    backend_search_file_thread h init search filters cancel =
      ([Event.set_status .QUERY, Event.set_allow_cancel true, Event.finished], true) ∧
    handed (backend_search_file_thread h init search filters cancel).1 = [] ∧
    error_events (backend_search_file_thread h init search filters cancel).1 = [] := by
  have hrun : backend_search_file_thread h init search filters cancel =
      ([Event.set_status .QUERY, Event.set_allow_cancel true, Event.finished], true) := by
    simp [backend_search_file_thread, hfilter]
  rw [hrun]
  exact ⟨rfl, rfl, rfl⟩

/-- Witness of C17: the file search with installed and not-installed both
set, on the example cache. -/
theorem search_file_not_installed_empty_witness :
    pk_bitfield_contain [.INSTALLED, .NOT_INSTALLED] .NOT_INSTALLED = true ∧
    (backend_search_file_thread example_helpers (some example_apt) "/bin/sh"
        [.INSTALLED, .NOT_INSTALLED] (fun _ => false) =
      ([Event.set_status .QUERY, Event.set_allow_cancel true, Event.finished], true) ∧
    handed (backend_search_file_thread example_helpers (some example_apt) "/bin/sh"
      [.INSTALLED, .NOT_INSTALLED] (fun _ => false)).1 = [] ∧
    error_events (backend_search_file_thread example_helpers (some example_apt) "/bin/sh"
      [.INSTALLED, .NOT_INSTALLED] (fun _ => false)).1 = []) :=
  ⟨by decide,
    search_file_not_installed_empty example_helpers (some example_apt) "/bin/sh"
      [.INSTALLED, .NOT_INSTALLED] (fun _ => false) (by decide)⟩

/-- C18: when `m_apt->init` fails, every thread function returns false right
after its opening calls: it emits no error event and no `finished`.  Shown for
every helper set and input for get_packages, search_group, get_details,
get_files and search_file, and on the example helpers for get_depends,
get_requires, search_name and search_details. -/
theorem init_failure_emits_nothing (h : Helpers) (filters : PkBitfield) (cancel : Nat → Bool)
    (g search : String) (package_ids : List String) :
    backend_get_packages_thread h none filters cancel =
      ([Event.set_status .QUERY, Event.set_allow_cancel true], false) ∧
    backend_search_group_thread h none (some g) filters cancel =
      ([Event.set_allow_cancel true, Event.set_status .QUERY, Event.set_percentage 0], false) ∧
    backend_get_details_thread h none (some package_ids) = ([Event.set_status .QUERY], false) ∧
    backend_get_files_thread h none (some package_ids) = ([Event.set_status .QUERY], false) ∧
    backend_search_file_thread h none search [] cancel =
      ([Event.set_status .QUERY, Event.set_allow_cancel true], false) ∧
    backend_get_depends_or_requires_thread example_helpers none ["bash;5.0-4;amd64;main"] []
        true (fun _ => false) =
      ([Event.set_allow_cancel true, Event.set_status .QUERY], false) ∧
    backend_get_depends_or_requires_thread example_helpers none ["bash;5.0-4;amd64;main"] []
        false (fun _ => false) =
      ([Event.set_allow_cancel true, Event.set_status .QUERY], false) ∧
    backend_search_package_thread example_helpers none false "bash" [] false (fun _ => false) =
      ([Event.set_percentage PK_BACKEND_PERCENTAGE_INVALID, Event.set_allow_cancel true,
        Event.set_status .QUERY], false) ∧
    backend_search_package_thread example_helpers none false "bash" [] true (fun _ => false) =
      ([Event.set_percentage PK_BACKEND_PERCENTAGE_INVALID, Event.set_allow_cancel true,
        Event.set_status .QUERY], false) := by
  refine ⟨rfl, rfl, rfl, rfl, rfl, ?_, ?_, ?_, ?_⟩ <;> decide

/-! ### The first failing package id -/

theorem depends_loop_first_failure (h : Helpers) (m_apt : aptcc) (depends : Bool)
    (bad : String) (post : List String)
    (hbad : h.pk_package_id_new_from_string bad = none ∨
      ∃ pi, h.pk_package_id_new_from_string bad = some pi ∧ m_apt.FindPkg pi.name = none)
    (pre : List String)
    (hpre : ∀ id ∈ pre, ∃ pi pkg, h.pk_package_id_new_from_string id = some pi ∧
      m_apt.FindPkg pi.name = some pkg) :
    ∀ k, depends_loop h m_apt depends (fun _ => false) (pre ++ bad :: post) k =
      .error (if (h.pk_package_id_new_from_string bad).isNone then
          (PkErrorEnum.PACKAGE_ID_INVALID, "invalid package id")
        else (PkErrorEnum.PACKAGE_NOT_FOUND, "couldn't find package")) := by
  induction pre with
  | nil =>
    intro k
    rcases hbad with hnone | ⟨pi, hsome, hfind⟩
    · simp [depends_loop, hnone]
    · simp [depends_loop, hsome, hfind]
  | cons id rest ih =>
    intro k
    obtain ⟨pi, pkg, hpi, hpkg⟩ := hpre id (List.mem_cons_self _ _)
    have hrest := ih (fun x hx => hpre x (List.mem_cons_of_mem _ hx))
    simp only [List.cons_append, depends_loop, Bool.false_eq_true, if_false, hpi, hpkg,
      List.append_eq, hrest]

/-- C19: for every id list given to get_depends or get_requires, with the
cache opened and `_cancel` never set, in which the id `bad` is the first that
is malformed or names a package absent from the cache (every id before it is
well-formed and found), the run returns false and emits exactly one error
event, of kind invalid-package-id when `bad` is malformed and
package-not-found otherwise, directly followed by the only `finished`; before
them only the allow-cancel and status calls are made, so nothing is handed to
`emit_package` and no package event is emitted, also for the ids before
`bad`. -/
theorem depends_first_failing_id (h : Helpers) (m_apt : aptcc) (filters : PkBitfield)
    (depends : Bool) (pre : List String) (bad : String) (post : List String)
    (hpre : ∀ id ∈ pre, ∃ pi pkg, h.pk_package_id_new_from_string id = some pi ∧
      m_apt.FindPkg pi.name = some pkg)
    (hbad : h.pk_package_id_new_from_string bad = none ∨
      ∃ pi, h.pk_package_id_new_from_string bad = some pi ∧ m_apt.FindPkg pi.name = none) :
    (backend_get_depends_or_requires_thread h (some m_apt) (pre ++ bad :: post) filters depends
      (fun _ => false)).2 = false ∧
    (∃ front, (backend_get_depends_or_requires_thread h (some m_apt) (pre ++ bad :: post)
        filters depends (fun _ => false)).1 =
        front ++ [Event.error_code
          (if (h.pk_package_id_new_from_string bad).isNone then .PACKAGE_ID_INVALID
            else .PACKAGE_NOT_FOUND)
          (if (h.pk_package_id_new_from_string bad).isNone then "invalid package id"
            else "couldn't find package"), Event.finished] ∧
      (front = [Event.set_allow_cancel true] ∨
        front = [Event.set_allow_cancel true, Event.set_status .QUERY])) ∧
    error_events (backend_get_depends_or_requires_thread h (some m_apt) (pre ++ bad :: post)
      filters depends (fun _ => false)).1 =
      [if (h.pk_package_id_new_from_string bad).isNone then .PACKAGE_ID_INVALID
        else .PACKAGE_NOT_FOUND] ∧
    handed (backend_get_depends_or_requires_thread h (some m_apt) (pre ++ bad :: post) filters
      depends (fun _ => false)).1 = [] ∧
    package_events (backend_get_depends_or_requires_thread h (some m_apt) (pre ++ bad :: post)
      filters depends (fun _ => false)).1 = [] ∧
    (backend_get_depends_or_requires_thread h (some m_apt) (pre ++ bad :: post) filters depends
      (fun _ => false)).1.count Event.finished = 1 := by
  have hloop := depends_loop_first_failure h m_apt depends bad post hbad pre hpre 0
  have hrun : backend_get_depends_or_requires_thread h (some m_apt) (pre ++ bad :: post)
      filters depends (fun _ => false) =
      ([Event.set_allow_cancel true, Event.error_code
          (if (h.pk_package_id_new_from_string bad).isNone then .PACKAGE_ID_INVALID
            else .PACKAGE_NOT_FOUND)
          (if (h.pk_package_id_new_from_string bad).isNone then "invalid package id"
            else "couldn't find package"), Event.finished], false) ∨
      backend_get_depends_or_requires_thread h (some m_apt) (pre ++ bad :: post)
      filters depends (fun _ => false) =
      ([Event.set_allow_cancel true, Event.set_status .QUERY, Event.error_code
          (if (h.pk_package_id_new_from_string bad).isNone then .PACKAGE_ID_INVALID
            else .PACKAGE_NOT_FOUND)
          (if (h.pk_package_id_new_from_string bad).isNone then "invalid package id"
            else "couldn't find package"), Event.finished], false) := by
    unfold backend_get_depends_or_requires_thread
    cases hhead : (pre ++ bad :: post).head?.bind h.pk_package_id_new_from_string with
    | none =>
      left
      have hb : h.pk_package_id_new_from_string bad = none := by
        cases pre with
        | nil => simpa using hhead
        | cons id rest =>
          obtain ⟨pi, pkg, hpi, _⟩ := hpre id (List.mem_cons_self _ _)
          simp [hpi] at hhead
      simp [hb]
    | some pi =>
      right
      simp only [hloop]
      split_ifs <;> rfl
  rcases hrun with hrun | hrun <;> rw [hrun]
  · refine ⟨rfl, ⟨[Event.set_allow_cancel true], rfl, Or.inl rfl⟩, ?_, rfl, rfl, ?_⟩
    · simp [error_events]
    · simp [List.count_cons]
  · refine ⟨rfl, ⟨[Event.set_allow_cancel true, Event.set_status .QUERY], rfl, Or.inr rfl⟩,
      ?_, rfl, rfl, ?_⟩
    · simp [error_events]
    · simp [List.count_cons]

theorem example_postfix_found :
    ∀ id ∈ ["postfix;3.4.14-0;amd64;main"], ∃ pi pkg,
      example_helpers.pk_package_id_new_from_string id = some pi ∧
      example_apt.FindPkg pi.name = some pkg := by
  intro id hid
  rw [List.mem_singleton] at hid
  subst hid
  exact ⟨⟨"postfix", "3.4.14-0", "amd64", "main"⟩, 3, by decide, by decide⟩

/-- Witness of C19: the depends query for `postfix`, then the absent package
`sendmail`, then a malformed id, on the example cache. -/
theorem depends_first_failing_id_witness :
    ((∀ id ∈ ["postfix;3.4.14-0;amd64;main"], ∃ pi pkg,
        example_helpers.pk_package_id_new_from_string id = some pi ∧
        example_apt.FindPkg pi.name = some pkg) ∧
      (example_helpers.pk_package_id_new_from_string "sendmail;8.15;amd64;main" = none ∨
        ∃ pi, example_helpers.pk_package_id_new_from_string "sendmail;8.15;amd64;main"
          = some pi ∧ example_apt.FindPkg pi.name = none)) ∧
    error_events (backend_get_depends_or_requires_thread example_helpers (some example_apt)
      (["postfix;3.4.14-0;amd64;main"] ++ "sendmail;8.15;amd64;main" :: ["zsh"]) [] true
      (fun _ => false)).1 =
      [if (example_helpers.pk_package_id_new_from_string "sendmail;8.15;amd64;main").isNone
        then .PACKAGE_ID_INVALID else .PACKAGE_NOT_FOUND] ∧
    handed (backend_get_depends_or_requires_thread example_helpers (some example_apt)
      (["postfix;3.4.14-0;amd64;main"] ++ "sendmail;8.15;amd64;main" :: ["zsh"]) [] true
      (fun _ => false)).1 = [] :=
  ⟨⟨example_postfix_found, Or.inr ⟨⟨"sendmail", "8.15", "amd64", "main"⟩, by decide, by decide⟩⟩,
    (depends_first_failing_id example_helpers example_apt [] true
      ["postfix;3.4.14-0;amd64;main"] "sendmail;8.15;amd64;main" ["zsh"] example_postfix_found
      (Or.inr ⟨⟨"sendmail", "8.15", "amd64", "main"⟩, by decide, by decide⟩)).2.2.1,
    (depends_first_failing_id example_helpers example_apt [] true
      ["postfix;3.4.14-0;amd64;main"] "sendmail;8.15;amd64;main" ["zsh"] example_postfix_found
      (Or.inr ⟨⟨"sendmail", "8.15", "amd64", "main"⟩, by decide, by decide⟩)).2.2.2.1⟩

/-! ### The complete install run -/

theorem install_complete_from_start (b0 : Backend) (package_ids : List String)
    (hs : b0.sources = [])
    (hstart : backend_install_packages b0 package_ids = backend_install_packages_start b0)
    (k : Nat) :
    fire_all (backend_install_packages b0 package_ids)
        (List.replicate (101 + k) b0.next_source_id) =
      { b0 with
          _progress_percentage := 100
          _signal_timeout := b0.next_source_id
          sources := []
          next_source_id := b0.next_source_id + 1
          log := b0.log ++ [Event.set_allow_cancel true,
            Event.package .DOWNLOADING "gtkhtml2;2.19.1-4.fc8;i386;fedora"
              (some "An HTML widget for GTK+ 2.0")] ++ install_events 100 ++ [Event.finished] } := by
  rw [hstart, backend_install_packages_start_eq b0 hs,
    install_run_complete _ b0.next_source_id rfl rfl k]

/-- The calls of a complete install run: in every complete install run started
by `backend_install_packages` (no prompt, no other source pending, the install
timer fired until it is destroyed and any number of times after), the calls
appended are allow-cancel, the Downloading call, the 100 timer steps and one
`finished`; the calls of `pk_backend_package` are, in order, Downloading
gtkhtml2, Installing gtkhtml2, Installing gtkhtml2-devel with its summary and
Installing gtkhtml2-devel again without summary, the call the code marks as a
duplicate that should be ignored. -/
theorem install_complete_package_calls (b0 : Backend) (package_ids : List String)
    (hs : b0.sources = [])
    (hstart : backend_install_packages b0 package_ids = backend_install_packages_start b0)
    (k : Nat) :
    ∃ new : List Event,
      (fire_all (backend_install_packages b0 package_ids)
        (List.replicate (101 + k) b0.next_source_id)).log = b0.log ++ new ∧
      new = [Event.set_allow_cancel true,
        Event.package .DOWNLOADING "gtkhtml2;2.19.1-4.fc8;i386;fedora"
          (some "An HTML widget for GTK+ 2.0")] ++ install_events 100 ++ [Event.finished] ∧
      package_events new =
        [(.DOWNLOADING, "gtkhtml2;2.19.1-4.fc8;i386;fedora", some "An HTML widget for GTK+ 2.0"),
         (.INSTALLING, "gtkhtml2;2.19.1-4.fc8;i386;fedora", some "An HTML widget for GTK+ 2.0"),
         (.INSTALLING, "gtkhtml2-devel;2.19.1-0.fc8;i386;fedora", some "Devel files for gtkhtml"),
         (.INSTALLING, "gtkhtml2-devel;2.19.1-0.fc8;i386;fedora", none)] ∧
      ((package_events new).map fun e => (e.1, e.2.1)).count
        (PkInfoEnum.INSTALLING, "gtkhtml2-devel;2.19.1-0.fc8;i386;fedora") = 2 ∧
      ((package_events new).map fun e => (e.1, e.2.1)).dedup =
        [(.DOWNLOADING, "gtkhtml2;2.19.1-4.fc8;i386;fedora"),
         (.INSTALLING, "gtkhtml2;2.19.1-4.fc8;i386;fedora"),
         (.INSTALLING, "gtkhtml2-devel;2.19.1-0.fc8;i386;fedora")] ∧
      (fire_all (backend_install_packages b0 package_ids)
        (List.replicate (101 + k) b0.next_source_id)).sources = [] := by
  have hrun := install_complete_from_start b0 package_ids hs hstart k
  have hpk : package_events ([Event.set_allow_cancel true,
        Event.package .DOWNLOADING "gtkhtml2;2.19.1-4.fc8;i386;fedora"
          (some "An HTML widget for GTK+ 2.0")] ++ install_events 100 ++ [Event.finished]) =
        [(.DOWNLOADING, "gtkhtml2;2.19.1-4.fc8;i386;fedora", some "An HTML widget for GTK+ 2.0"),
         (.INSTALLING, "gtkhtml2;2.19.1-4.fc8;i386;fedora", some "An HTML widget for GTK+ 2.0"),
         (.INSTALLING, "gtkhtml2-devel;2.19.1-0.fc8;i386;fedora", some "Devel files for gtkhtml"),
         (.INSTALLING, "gtkhtml2-devel;2.19.1-0.fc8;i386;fedora", none)] := by
    simp only [package_events_append, package_events_install_events]
    decide
  refine ⟨_, ?_, rfl, hpk, ?_, ?_, ?_⟩
  · rw [hrun]
    simp [List.append_assoc]
  · rw [hpk]
    decide
  · rw [hpk]
    decide
  · rw [hrun]

/-- C20: in every complete install run started by `backend_install_packages`
(no prompt, no other source pending, the install timer fired until it is
destroyed and any number of times after), the package events produced, which
are the calls of `pk_backend_package` with the duplicates folded away, are
Downloading gtkhtml2, Installing gtkhtml2 and Installing gtkhtml2-devel, in
this order: the entry (Installing, gtkhtml2-devel) is among them exactly once,
and no two of them have the same package id and the same info-state.  The one
call folded away is the second call for gtkhtml2-devel, which the code makes
right after the first. -/
theorem install_produces_devel_once (b0 : Backend) (package_ids : List String)
    (hs : b0.sources = [])
    (hstart : backend_install_packages b0 package_ids = backend_install_packages_start b0)
    (k : Nat) :
    ∃ new : List Event,
      (fire_all (backend_install_packages b0 package_ids)
        (List.replicate (101 + k) b0.next_source_id)).log = b0.log ++ new ∧
      produced_package_events new =
        [(.DOWNLOADING, "gtkhtml2;2.19.1-4.fc8;i386;fedora", some "An HTML widget for GTK+ 2.0"),
         (.INSTALLING, "gtkhtml2;2.19.1-4.fc8;i386;fedora", some "An HTML widget for GTK+ 2.0"),
         (.INSTALLING, "gtkhtml2-devel;2.19.1-0.fc8;i386;fedora",
           some "Devel files for gtkhtml")] ∧
      ((produced_package_events new).map fun e => (e.1, e.2.1)).count
        (PkInfoEnum.INSTALLING, "gtkhtml2-devel;2.19.1-0.fc8;i386;fedora") = 1 ∧
      ((produced_package_events new).map fun e => (e.1, e.2.1)).Nodup ∧
      package_events new =
        [(.DOWNLOADING, "gtkhtml2;2.19.1-4.fc8;i386;fedora", some "An HTML widget for GTK+ 2.0"),
         (.INSTALLING, "gtkhtml2;2.19.1-4.fc8;i386;fedora", some "An HTML widget for GTK+ 2.0"),
         (.INSTALLING, "gtkhtml2-devel;2.19.1-0.fc8;i386;fedora", some "Devel files for gtkhtml"),
         (.INSTALLING, "gtkhtml2-devel;2.19.1-0.fc8;i386;fedora", none)] := by
  have hrun := install_complete_from_start b0 package_ids hs hstart k
  have hpk : package_events ([Event.set_allow_cancel true,
        Event.package .DOWNLOADING "gtkhtml2;2.19.1-4.fc8;i386;fedora"
          (some "An HTML widget for GTK+ 2.0")] ++ install_events 100 ++ [Event.finished]) =
        [(.DOWNLOADING, "gtkhtml2;2.19.1-4.fc8;i386;fedora", some "An HTML widget for GTK+ 2.0"),
         (.INSTALLING, "gtkhtml2;2.19.1-4.fc8;i386;fedora", some "An HTML widget for GTK+ 2.0"),
         (.INSTALLING, "gtkhtml2-devel;2.19.1-0.fc8;i386;fedora", some "Devel files for gtkhtml"),
         (.INSTALLING, "gtkhtml2-devel;2.19.1-0.fc8;i386;fedora", none)] := by
    simp only [package_events_append, package_events_install_events]
    decide
  refine ⟨[Event.set_allow_cancel true,
        Event.package .DOWNLOADING "gtkhtml2;2.19.1-4.fc8;i386;fedora"
          (some "An HTML widget for GTK+ 2.0")] ++ install_events 100 ++ [Event.finished],
    ?_, ?_, ?_, ?_, hpk⟩
  · rw [hrun]
    simp [List.append_assoc]
  · unfold produced_package_events
    rw [hpk]
    decide
  · unfold produced_package_events
    rw [hpk]
    decide
  · unfold produced_package_events
    rw [hpk]
    decide

/-- Witness of C20: the complete install run on the initial state. -/
theorem install_produces_devel_once_witness :
    (({} : Backend).sources = [] ∧
      backend_install_packages {} ["gtkhtml2;2.19.1-4.fc8;i386;fedora"] =
        backend_install_packages_start {}) ∧
    ∃ new : List Event,
      (fire_all (backend_install_packages {} ["gtkhtml2;2.19.1-4.fc8;i386;fedora"])
        (List.replicate (101 + 0) ({} : Backend).next_source_id)).log =
        ({} : Backend).log ++ new ∧
      produced_package_events new =
        [(.DOWNLOADING, "gtkhtml2;2.19.1-4.fc8;i386;fedora", some "An HTML widget for GTK+ 2.0"),
         (.INSTALLING, "gtkhtml2;2.19.1-4.fc8;i386;fedora", some "An HTML widget for GTK+ 2.0"),
         (.INSTALLING, "gtkhtml2-devel;2.19.1-0.fc8;i386;fedora",
           some "Devel files for gtkhtml")] ∧
      ((produced_package_events new).map fun e => (e.1, e.2.1)).count
        (PkInfoEnum.INSTALLING, "gtkhtml2-devel;2.19.1-0.fc8;i386;fedora") = 1 ∧
      ((produced_package_events new).map fun e => (e.1, e.2.1)).Nodup ∧
      package_events new =
        [(.DOWNLOADING, "gtkhtml2;2.19.1-4.fc8;i386;fedora", some "An HTML widget for GTK+ 2.0"),
         (.INSTALLING, "gtkhtml2;2.19.1-4.fc8;i386;fedora", some "An HTML widget for GTK+ 2.0"),
         (.INSTALLING, "gtkhtml2-devel;2.19.1-0.fc8;i386;fedora", some "Devel files for gtkhtml"),
         (.INSTALLING, "gtkhtml2-devel;2.19.1-0.fc8;i386;fedora", none)] :=
  ⟨⟨rfl, rfl⟩, install_produces_devel_once {} ["gtkhtml2;2.19.1-4.fc8;i386;fedora"] rfl rfl 0⟩

/-- C21, the claim fails: `backend_search_group_thread` on the example cache
with the group string `no-such-group`, which names no group, emits no error
event; the search runs and ends with `finished`. -/
theorem search_group_unknown_group_no_error :
    backend_search_group_thread example_helpers (some example_apt) (some "no-such-group") []
        (fun _ => false) =
      ([Event.set_allow_cancel true, Event.set_status .QUERY, Event.set_percentage 0,
        Event.set_percentage 100, Event.finished], true) ∧
    error_events (backend_search_group_thread example_helpers (some example_apt)
      (some "no-such-group") [] (fun _ => false)).1 = [] := by
  decide

/-- C21 as amended: `backend_search_group_thread` rejects the request with an
error event of kind group-not-found, followed by `finished` and with nothing
handed to `emit_package`, only when the group is NULL.  For every group
string, whether or not it names a known group, no error event is emitted: with
the cache opened the search runs for the group `pk_group_enum_from_text`
gives, between the opening calls and percentage 100, `finished`. -/
theorem search_group_rejects_null_only (h : Helpers) (init : Option aptcc) (m_apt : aptcc)
    (g : String) (filters : PkBitfield) (cancel : Nat → Bool) :
    backend_search_group_thread h init none filters cancel =
      ([Event.set_allow_cancel true,
        Event.error_code .GROUP_NOT_FOUND "Group is invalid.", Event.finished], false) ∧
    error_events (backend_search_group_thread h init (some g) filters cancel).1 = [] ∧
    backend_search_group_thread h (some m_apt) (some g) filters cancel =
      ([Event.set_allow_cancel true, Event.set_status .QUERY, Event.set_percentage 0] ++
        emit_loop filters cancel
          (std_sort h.compare (accumulate_loop
            (search_group_body h m_apt (h.pk_group_enum_from_text g)) cancel
            m_apt.PkgList 0).1)
          (accumulate_loop
            (search_group_body h m_apt (h.pk_group_enum_from_text g)) cancel
            m_apt.PkgList 0).2 ++
        [Event.set_percentage 100, Event.finished], true) := by
  refine ⟨rfl, ?_, rfl⟩
  unfold backend_search_group_thread
  cases init with
  | none => simp [error_events]
  | some m =>
    simp only [error_events_append, error_events_emit_loop]
    simp [error_events]

/-! ### The install timer -/

theorem percentages_append (a b : List Event) :
    percentages (a ++ b) = percentages a ++ percentages b := by
  simp [percentages, List.filterMap_append]

theorem percentages_install_step_events (p : Nat) :
    percentages (install_step_events p) = [p + 1] := by
  unfold install_step_events
  split_ifs <;> simp [percentages]

theorem percentages_install_events (n : Nat) :
    percentages (install_events n) = (List.range n).map fun p => p + 1 := by
  induction n with
  | zero => simp [install_events, percentages]
  | succ n ih =>
    rw [install_events_succ, percentages_append, ih, percentages_install_step_events,
      List.range_succ, List.map_append]
    rfl

theorem finished_not_mem_install_events (n : Nat) : Event.finished ∉ install_events n := by
  unfold install_events
  rw [List.mem_flatMap]
  rintro ⟨p, _, hp⟩
  unfold install_step_events at hp
  split_ifs at hp <;> simp at hp

/-- C26: from `backend_install_packages` on a list that needs no prompt, with
no other source pending and no cancel: for every `n` below 100 the state after
`n` firings of the install timer has the counter at `n`, and the next call of
the callback returns true, sets the counter to `n + 1` and emits the events of
step `n`, which end with percentage `n + 1`; the percentages of the 100 steps
are 1, 2, ..., 100 in that order; the Installing event of gtkhtml2 and
allow_cancel false are emitted exactly in the step with the counter at 30; the
101st call returns false and emits `finished`, the only `finished` of the
run, after which the source is gone. -/
theorem install_timer_run (b0 : Backend) (package_ids : List String) (hs : b0.sources = [])
    (hstart : backend_install_packages b0 package_ids = backend_install_packages_start b0) :
    (∀ n, n < 100 →
      (fire_all (backend_install_packages b0 package_ids)
        (List.replicate n b0.next_source_id))._progress_percentage = n ∧
      (backend_install_timeout (fire_all (backend_install_packages b0 package_ids)
        (List.replicate n b0.next_source_id))).2 = true ∧
      (backend_install_timeout (fire_all (backend_install_packages b0 package_ids)
        (List.replicate n b0.next_source_id))).1._progress_percentage = n + 1 ∧
      (backend_install_timeout (fire_all (backend_install_packages b0 package_ids)
        (List.replicate n b0.next_source_id))).1.log =
        (fire_all (backend_install_packages b0 package_ids)
          (List.replicate n b0.next_source_id)).log ++ install_step_events n ∧
      (install_step_events n).getLast? = some (Event.set_percentage (n + 1))) ∧
    percentages (install_events 100) = (List.range 100).map (fun p => p + 1) ∧
    (∀ p, p < 100 →
      (Event.set_allow_cancel false ∈ install_step_events p ↔ p = 30) ∧
      (Event.package .INSTALLING "gtkhtml2;2.19.1-4.fc8;i386;fedora"
        (some "An HTML widget for GTK+ 2.0") ∈ install_step_events p ↔ p = 30)) ∧
    backend_install_timeout (fire_all (backend_install_packages b0 package_ids)
        (List.replicate 100 b0.next_source_id)) =
      (pk_backend_finished (fire_all (backend_install_packages b0 package_ids)
        (List.replicate 100 b0.next_source_id)), false) ∧
    (fire_all (backend_install_packages b0 package_ids)
        (List.replicate 101 b0.next_source_id)).log =
      b0.log ++ [Event.set_allow_cancel true,
        Event.package .DOWNLOADING "gtkhtml2;2.19.1-4.fc8;i386;fedora"
          (some "An HTML widget for GTK+ 2.0")] ++ install_events 100 ++ [Event.finished] ∧
    (install_events 100 ++ [Event.finished]).count Event.finished = 1 ∧
    (fire_all (backend_install_packages b0 package_ids)
        (List.replicate 101 b0.next_source_id)).sources = [] := by
  refine ⟨?_, percentages_install_events 100, ?_, ?_, ?_, ?_, ?_⟩
  · intro n hn
    have hrun := install_run_from_start b0 package_ids hs hstart n (by omega)
    rw [hrun]
    have hstep := backend_install_timeout_step
      { b0 with
          _progress_percentage := n
          _signal_timeout := b0.next_source_id
          sources := [⟨b0.next_source_id, 100, .backend_install_timeout⟩]
          next_source_id := b0.next_source_id + 1
          log := b0.log ++ [Event.set_allow_cancel true,
            Event.package .DOWNLOADING "gtkhtml2;2.19.1-4.fc8;i386;fedora"
              (some "An HTML widget for GTK+ 2.0")] ++ install_events n } hn
    rw [hstep]
    refine ⟨rfl, rfl, rfl, rfl, ?_⟩
    unfold install_step_events
    rw [List.getLast?_append]
    simp
  · intro p _
    unfold install_step_events
    constructor
    · constructor
      · intro hmem
        by_contra hne
        simp [hne] at hmem
      · rintro rfl
        simp
    · constructor
      · intro hmem
        by_contra hne
        simp [hne] at hmem
      · rintro rfl
        simp
  · have hrun := install_run_from_start b0 package_ids hs hstart 100 (le_refl _)
    rw [hrun]
    exact backend_install_timeout_done _ rfl
  · have hrun := install_complete_from_start b0 package_ids hs hstart 0
    rw [show (101 : Nat) = 101 + 0 from rfl, hrun]
  · rw [List.count_append, List.count_eq_zero.mpr (finished_not_mem_install_events 100)]
    rfl
  · have hrun := install_complete_from_start b0 package_ids hs hstart 0
    rw [show (101 : Nat) = 101 + 0 from rfl, hrun]

/-- Witness of C26: the install started on the initial state. -/
theorem install_timer_run_witness :
    (({} : Backend).sources = [] ∧
      backend_install_packages {} ["gtkhtml2;2.19.1-4.fc8;i386;fedora"] =
        backend_install_packages_start {}) ∧
    percentages (install_events 100) = (List.range 100).map (fun p => p + 1) ∧
    (fire_all (backend_install_packages {} ["gtkhtml2;2.19.1-4.fc8;i386;fedora"])
        (List.replicate 101 ({} : Backend).next_source_id)).log =
      ({} : Backend).log ++ [Event.set_allow_cancel true,
        Event.package .DOWNLOADING "gtkhtml2;2.19.1-4.fc8;i386;fedora"
          (some "An HTML widget for GTK+ 2.0")] ++ install_events 100 ++ [Event.finished] :=
  ⟨⟨rfl, rfl⟩,
    (install_timer_run {} ["gtkhtml2;2.19.1-4.fc8;i386;fedora"] rfl rfl).2.1,
    (install_timer_run {} ["gtkhtml2;2.19.1-4.fc8;i386;fedora"] rfl rfl).2.2.2.2.1⟩

/-! ### Repositories and signatures -/

/-- C29: `backend_repo_enable` appends exactly the status call and one
`finished`, no error.  For `fedora`, `development` and `livna-development` a
following `backend_get_repo_list` without the not-development filter reports
the three repositories in the order fedora, development, livna-development,
the named one with the new value and the other two with their previous values;
for every other id except `local` no enabled flag changes. -/
theorem repo_enable_then_list (backend : Backend) (rid : String) (enabled : Bool)
    (filters : PkBitfield) (hfilter : pk_bitfield_contain filters .NOT_DEVELOPMENT = false) :
    (backend_repo_enable backend rid enabled).log =
      backend.log ++ [Event.set_status .REQUEST, Event.finished] ∧
    error_events [Event.set_status .REQUEST, Event.finished] = [] ∧
    (rid = "fedora" →
      (backend_get_repo_list (backend_repo_enable backend rid enabled) filters).log =
        (backend_repo_enable backend rid enabled).log ++
        [Event.set_status .QUERY,
          Event.repo_detail "fedora" "Fedora - 9" enabled,
          Event.repo_detail "development" "Fedora - Development" backend._repo_enabled_devel,
          Event.repo_detail "livna-development"
            "Livna for Fedora Core 8 - i386 - Development Tree" backend._repo_enabled_livna,
          Event.finished]) ∧
    (rid = "development" →
      (backend_get_repo_list (backend_repo_enable backend rid enabled) filters).log =
        (backend_repo_enable backend rid enabled).log ++
        [Event.set_status .QUERY,
          Event.repo_detail "fedora" "Fedora - 9" backend._repo_enabled_fedora,
          Event.repo_detail "development" "Fedora - Development" enabled,
          Event.repo_detail "livna-development"
            "Livna for Fedora Core 8 - i386 - Development Tree" backend._repo_enabled_livna,
          Event.finished]) ∧
    (rid = "livna-development" →
      (backend_get_repo_list (backend_repo_enable backend rid enabled) filters).log =
        (backend_repo_enable backend rid enabled).log ++
        [Event.set_status .QUERY,
          Event.repo_detail "fedora" "Fedora - 9" backend._repo_enabled_fedora,
          Event.repo_detail "development" "Fedora - Development" backend._repo_enabled_devel,
          Event.repo_detail "livna-development"
            "Livna for Fedora Core 8 - i386 - Development Tree" enabled,
          Event.finished]) ∧
    (rid ≠ "local" → rid ≠ "fedora" → rid ≠ "development" → rid ≠ "livna-development" →
      backend_repo_enable backend rid enabled =
        { backend with log := backend.log ++ [Event.set_status .REQUEST, Event.finished] }) := by
  refine ⟨?_, rfl, ?_, ?_, ?_, ?_⟩
  · unfold backend_repo_enable
    simp only [egg_strequal, beq_iff_eq]
    split_ifs <;> simp [pk_backend_finished, pk_backend_set_status, Backend.emit]
  · rintro rfl
    simp [backend_get_repo_list, backend_repo_enable, hfilter, egg_strequal,
      pk_backend_finished, pk_backend_set_status, pk_backend_repo_detail, Backend.emit]
  · rintro rfl
    simp [backend_get_repo_list, backend_repo_enable, hfilter, egg_strequal,
      pk_backend_finished, pk_backend_set_status, pk_backend_repo_detail, Backend.emit]
  · rintro rfl
    simp [backend_get_repo_list, backend_repo_enable, hfilter, egg_strequal,
      pk_backend_finished, pk_backend_set_status, pk_backend_repo_detail, Backend.emit]
  · intro h1 h2 h3 h4
    simp [backend_repo_enable, egg_strequal, h1, h2, h3, h4, pk_backend_finished,
      pk_backend_set_status, Backend.emit]

/-- Witness of C29: disabling `development` on the initial state, then
listing the repositories with no filter. -/
theorem repo_enable_then_list_witness :
    pk_bitfield_contain [] .NOT_DEVELOPMENT = false ∧
    (backend_repo_enable {} "development" false).log =
      ({} : Backend).log ++ [Event.set_status .REQUEST, Event.finished] ∧
    (("development" : String) = "development" →
      (backend_get_repo_list (backend_repo_enable {} "development" false) []).log =
        (backend_repo_enable {} "development" false).log ++
        [Event.set_status .QUERY,
          Event.repo_detail "fedora" "Fedora - 9" ({} : Backend)._repo_enabled_fedora,
          Event.repo_detail "development" "Fedora - Development" false,
          Event.repo_detail "livna-development"
            "Livna for Fedora Core 8 - i386 - Development Tree"
            ({} : Backend)._repo_enabled_livna,
          Event.finished]) :=
  ⟨rfl, (repo_enable_then_list {} "development" false [] rfl).1,
    (repo_enable_then_list {} "development" false [] rfl).2.2.2.1⟩

/-- C30: `backend_install_signature` sets `_has_signature` exactly when the
type is GPG, the key id is `BB7576AC` and the package id is
`vips-doc;7.12.4-2.fc8;noarch;linva`, appending the status call and one
`finished`; in every other case it appends the status call, one error of kind
GPG failure and one `finished`, and changes nothing else.  In a state with
the signature accepted, `backend_install_packages` appends no
signature-required event, whatever the package ids. -/
theorem install_signature_accepts (backend : Backend) (type : PkSigTypeEnum)
    (key_id package_id : String) (package_ids : List String) :
    ((type = .GPG ∧ key_id = "BB7576AC" ∧ package_id = "vips-doc;7.12.4-2.fc8;noarch;linva") →
      backend_install_signature backend type key_id package_id =
        { backend with
            _has_signature := true
            log := backend.log ++ [Event.set_status .INSTALL, Event.finished] }) ∧
    (¬ (type = .GPG ∧ key_id = "BB7576AC" ∧
        package_id = "vips-doc;7.12.4-2.fc8;noarch;linva") →
      backend_install_signature backend type key_id package_id =
        { backend with
            log := backend.log ++ [Event.set_status .INSTALL,
              Event.error_code .GPG_FAILURE
                ("GPG key " ++ key_id ++ " not recognised for package_id " ++ package_id),
              Event.finished] }) ∧
    (backend._has_signature = true →
      ∃ new, (backend_install_packages backend package_ids).log = backend.log ++ new ∧
        signature_required_events new = []) := by
  refine ⟨?_, ?_, ?_⟩
  · rintro ⟨rfl, rfl, rfl⟩
    simp [backend_install_signature, egg_strequal, pk_backend_finished, pk_backend_set_status,
      Backend.emit]
  · intro hne
    have hcond : (type == PkSigTypeEnum.GPG &&
        egg_strequal (some package_id) "vips-doc;7.12.4-2.fc8;noarch;linva" &&
        egg_strequal (some key_id) "BB7576AC") = false := by
      simp only [egg_strequal, Bool.and_eq_false_iff, beq_eq_false_iff_ne, ne_eq]
      by_contra hall
      simp only [not_or, not_not] at hall
      exact hne ⟨hall.1.1, hall.2, hall.1.2⟩
    simp [backend_install_signature, hcond, pk_backend_finished, pk_backend_set_status,
      pk_backend_error_code, Backend.emit]
  · intro hsig
    have hstart : (backend_install_packages_start backend).log =
        backend.log ++ [Event.set_allow_cancel true,
          Event.package .DOWNLOADING "gtkhtml2;2.19.1-4.fc8;i386;fedora"
            (some "An HTML widget for GTK+ 2.0")] := by
      simp [backend_install_packages_start, g_timeout_add, pk_backend_set_allow_cancel,
        pk_backend_package, Backend.emit]
    unfold backend_install_packages
    simp only [hsig, Bool.not_true, Bool.false_eq_true, if_false]
    split_ifs
    · refine ⟨[Event.eula_required "eula_hughsie_dot_com" (package_ids.headD "") "CATS Inc."
          license_agreement,
        Event.error_code .NO_LICENSE_AGREEMENT "licence not installed so cannot install",
        Event.finished], ?_, rfl⟩
      simp [pk_backend_finished, pk_backend_error_code, pk_backend_eula_required,
        Backend.emit]
    · exact ⟨_, hstart, rfl⟩
    · exact ⟨_, hstart, rfl⟩

/-- Witness of C30: the signature accepted on the initial state, and the
install of the vips-doc id afterwards. -/
theorem install_signature_accepts_witness :
    ((PkSigTypeEnum.GPG = .GPG ∧ ("BB7576AC" : String) = "BB7576AC" ∧
        ("vips-doc;7.12.4-2.fc8;noarch;linva" : String) =
          "vips-doc;7.12.4-2.fc8;noarch;linva") ∧
      (backend_install_signature {} .GPG "BB7576AC"
        "vips-doc;7.12.4-2.fc8;noarch;linva")._has_signature = true) ∧
    backend_install_signature {} .GPG "BB7576AC" "vips-doc;7.12.4-2.fc8;noarch;linva" =
      { ({} : Backend) with
          _has_signature := true
          log := ({} : Backend).log ++ [Event.set_status .INSTALL, Event.finished] } ∧
    ∃ new, (backend_install_packages (backend_install_signature {} .GPG "BB7576AC"
        "vips-doc;7.12.4-2.fc8;noarch;linva") ["vips-doc;7.12.4-2.fc8;noarch;linva"]).log =
        (backend_install_signature {} .GPG "BB7576AC"
          "vips-doc;7.12.4-2.fc8;noarch;linva").log ++ new ∧
      signature_required_events new = [] :=
  ⟨⟨⟨rfl, rfl, rfl⟩, rfl⟩,
    (install_signature_accepts {} .GPG "BB7576AC" "vips-doc;7.12.4-2.fc8;noarch;linva"
      []).1 ⟨rfl, rfl, rfl⟩,
    (install_signature_accepts (backend_install_signature {} .GPG "BB7576AC"
      "vips-doc;7.12.4-2.fc8;noarch;linva") .GPG "BB7576AC"
      "vips-doc;7.12.4-2.fc8;noarch;linva" ["vips-doc;7.12.4-2.fc8;noarch;linva"]).2.2 rfl⟩

/-! ### Cancelling at a given read -/

theorem emit_loop_cancel_at (filters : PkBitfield) (c : Nat) (l : List PkgPair) (k : Nat)
    (hk : c ≤ k) : emit_loop filters (cancel_at c) l k = [] := by
  cases l with
  | nil => rfl
  | cons i rest => simp [emit_loop, cancel_at, hk]

theorem accumulate_loop_cancel_at (body : PkgIterator → List PkgPair) (c : Nat)
    (l : List PkgIterator) :
    ∀ k, accumulate_loop body (cancel_at c) l k = accumulate_loop body (fun _ => false) l k ∨
      c < (accumulate_loop body (cancel_at c) l k).2 := by
  induction l with
  | nil => intro k; left; rfl
  | cons pkg rest ih =>
    intro k
    by_cases hk : c ≤ k
    · right
      simp only [accumulate_loop, cancel_at, hk, decide_True, if_true]
      omega
    · have hfalse : cancel_at c k = false := by simp [cancel_at, hk]
      rcases ih (k + 1) with heq | hlt
      · left
        simp only [accumulate_loop, hfalse, Bool.false_eq_true, if_false, heq]
      · right
        simp only [accumulate_loop, hfalse, Bool.false_eq_true, if_false]
        exact hlt

theorem accumulate_loop_reads (body : PkgIterator → List PkgPair) (l : List PkgIterator) :
    ∀ k, (accumulate_loop body (fun _ => false) l k).2 = k + l.length := by
  induction l with
  | nil => intro k; rfl
  | cons pkg rest ih =>
    intro k
    simp only [accumulate_loop, Bool.false_eq_true, if_false, ih, List.length_cons]
    omega

theorem accumulate_loop_cancel_at_early (body : PkgIterator → List PkgPair) (c : Nat)
    (l : List PkgIterator) (k : Nat) (hc : c < k + l.length) :
    c < (accumulate_loop body (cancel_at c) l k).2 := by
  rcases accumulate_loop_cancel_at body c l k with heq | hlt
  · rw [heq, accumulate_loop_reads]
    exact hc
  · exact hlt

theorem handed_cancel_at_prefix (filters : PkBitfield) (c : Nat) (out_c out : List PkgPair)
    (k_c k : Nat) (hcase : (out_c, k_c) = (out, k) ∨ c < k_c) :
    handed (emit_loop filters (cancel_at c) out_c k_c) <+:
      handed (emit_loop filters (fun _ => false) out k) := by
  rcases hcase with heq | hlt
  · cases heq
    rw [handed_emit_loop_no_cancel]
    exact handed_emit_loop filters (cancel_at c) out_c k_c
  · rw [emit_loop_cancel_at filters c out_c k_c (by omega)]
    exact List.nil_prefix

theorem search_package_output_cancel_at (m_apt : aptcc) (m_matches : String → Bool)
    (search_details : Bool) (c : Nat) :
    search_package_output m_apt m_matches search_details (cancel_at c) =
      search_package_output m_apt m_matches search_details (fun _ => false) ∨
    c < (search_package_output m_apt m_matches search_details (cancel_at c)).2 := by
  unfold search_package_output
  split_ifs <;> exact accumulate_loop_cancel_at _ c _ 0

theorem search_package_output_cancel_at_early (m_apt : aptcc) (m_matches : String → Bool)
    (search_details : Bool) (c : Nat) (hc : c < m_apt.PkgList.length) :
    c < (search_package_output m_apt m_matches search_details (cancel_at c)).2 := by
  unfold search_package_output
  split_ifs <;> exact accumulate_loop_cancel_at_early _ c _ 0 (by omega)

theorem depends_loop_after_cancel (h : Helpers) (m_apt : aptcc) (depends : Bool) (c : Nat)
    (l : List String) (k : Nat) (hk : c < k) :
    ∃ r, depends_loop h m_apt depends (cancel_at c) l k = .ok r ∧ c < r.2 := by
  cases l with
  | nil => exact ⟨([], k), rfl, hk⟩
  | cons id rest =>
    refine ⟨([], k + 1), ?_, by show c < k + 1; omega⟩
    have : cancel_at c k = true := by simp [cancel_at]; omega
    simp [depends_loop, this]

theorem depends_loop_cancel_at (h : Helpers) (m_apt : aptcc) (depends : Bool) (c : Nat)
    (hdep : ∀ pkg rec (o o2 : Nat → Bool),
      (∀ i, i < (m_apt.get_depends pkg rec o).2 → o i = o2 i) →
      m_apt.get_depends pkg rec o2 = m_apt.get_depends pkg rec o)
    (hreq : ∀ pkg rec (o o2 : Nat → Bool),
      (∀ i, i < (m_apt.get_requires pkg rec o).2 → o i = o2 i) →
      m_apt.get_requires pkg rec o2 = m_apt.get_requires pkg rec o)
    (l : List String) :
    ∀ k, depends_loop h m_apt depends (cancel_at c) l k =
        depends_loop h m_apt depends (fun _ => false) l k ∨
      (∃ e, depends_loop h m_apt depends (cancel_at c) l k = .error e) ∨
      (∃ r, depends_loop h m_apt depends (cancel_at c) l k = .ok r ∧ c < r.2) := by
  induction l with
  | nil => intro k; left; rfl
  | cons id rest ih =>
    intro k
    by_cases hk : c ≤ k
    · right; right
      have : cancel_at c k = true := by simp [cancel_at, hk]
      exact ⟨([], k + 1), by simp [depends_loop, this], by show c < k + 1; omega⟩
    · have hfalse : cancel_at c k = false := by simp [cancel_at, hk]
      cases hp : h.pk_package_id_new_from_string id with
      | none => left; simp [depends_loop, hfalse, hp]
      | some pi =>
        cases hf : m_apt.FindPkg pi.name with
        | none => left; simp [depends_loop, hfalse, hp, hf]
        | some pkg =>
          obtain ⟨helper, hhelper, hcausal⟩ : ∃ helper : PkgIterator → Bool → (Nat → Bool) →
              List PkgPair × Nat,
              (helper = if depends then m_apt.get_depends else m_apt.get_requires) ∧
              ∀ p rec (o o2 : Nat → Bool), (∀ i, i < (helper p rec o).2 → o i = o2 i) →
                helper p rec o2 = helper p rec o := by
            cases depends with
            | true => exact ⟨m_apt.get_depends, by simp, hdep⟩
            | false => exact ⟨m_apt.get_requires, by simp, hreq⟩
          have hunfold : ∀ cancel : Nat → Bool, cancel k = false →
              depends_loop h m_apt depends cancel (id :: rest) k =
                match depends_loop h m_apt depends cancel rest
                    (k + 1 + (helper pkg false (fun i => cancel (k + 1 + i))).2) with
                | .error e => .error e
                | .ok r => .ok ((helper pkg false (fun i => cancel (k + 1 + i))).1 ++ r.1, r.2) := by
            intro cancel hck
            rw [hhelper]
            cases depends <;> simp [depends_loop, hck, hp, hf]
          rw [hunfold (cancel_at c) hfalse, hunfold (fun _ => false) rfl]
          by_cases hn : k + 1 + (helper pkg false (fun i => cancel_at c (k + 1 + i))).2 ≤ c
          · have hsame : helper pkg false (fun _ => false) =
                helper pkg false (fun i => cancel_at c (k + 1 + i)) := by
              apply hcausal
              intro i hi
              simp only [cancel_at, decide_eq_false_iff_not, not_le]
              omega
            rw [hsame]
            rcases ih (k + 1 + (helper pkg false (fun i => cancel_at c (k + 1 + i))).2) with
              heq | ⟨e, he⟩ | ⟨r, hr, hlt⟩
            · left; rw [heq]
            · right; left; exact ⟨e, by rw [he]⟩
            · right; right
              exact ⟨((helper pkg false (fun i => cancel_at c (k + 1 + i))).1 ++ r.1, r.2),
                by rw [hr], hlt⟩
          · obtain ⟨r, hr, hlt⟩ := depends_loop_after_cancel h m_apt depends c rest
              (k + 1 + (helper pkg false (fun i => cancel_at c (k + 1 + i))).2) (by omega)
            right; right
            exact ⟨((helper pkg false (fun i => cancel_at c (k + 1 + i))).1 ++ r.1, r.2),
              by rw [hr], hlt⟩

theorem depends_handed_eq (h : Helpers) (init : Option aptcc) (package_ids : List String)
    (filters : PkBitfield) (depends : Bool) (cancel : Nat → Bool) :
    handed (backend_get_depends_or_requires_thread h init package_ids filters depends cancel).1 =
      match package_ids.head?.bind h.pk_package_id_new_from_string, init with
      | some _, some m_apt =>
        match depends_loop h m_apt depends cancel package_ids 0 with
        | .ok r => handed (emit_loop filters cancel
            (std_unique h.result_equality (std_sort h.compare r.1)) r.2)
        | .error _ => []
      | _, _ => [] := by
  unfold backend_get_depends_or_requires_thread
  cases hp : package_ids.head?.bind h.pk_package_id_new_from_string with
  | none => simp [handed]
  | some pi =>
    cases init with
    | none => simp [handed]
    | some m_apt =>
      cases hl : depends_loop h m_apt depends cancel package_ids 0 with
      | error e => simp [hl, handed]
      | ok r => simp [hl, handed_append, handed]

/-- C24: in search_name, search_details, search_group, get_packages,
get_depends and get_requires, when `_cancel` becomes true at the `c`-th read
of the run and stays true, the entries handed to `emit_package` are an initial
segment of those the same run hands over when `_cancel` is never set; and when
the flag turns while the candidates are still being accumulated (`c` is below
the number of reads the accumulation makes), nothing is handed over.
`get_depends` and `get_requires`, which read the flag themselves, are taken to
depend on the flag only through the reads they make. -/
theorem cancelled_run_hands_initial_segment (h : Helpers) (init : Option aptcc)
    (hdep : ∀ m_apt, init = some m_apt → ∀ pkg rec (o o2 : Nat → Bool),
      (∀ i, i < (m_apt.get_depends pkg rec o).2 → o i = o2 i) →
      m_apt.get_depends pkg rec o2 = m_apt.get_depends pkg rec o)
    (hreq : ∀ m_apt, init = some m_apt → ∀ pkg rec (o o2 : Nat → Bool),
      (∀ i, i < (m_apt.get_requires pkg rec o).2 → o i = o2 i) →
      m_apt.get_requires pkg rec o2 = m_apt.get_requires pkg rec o)
    (filters : PkBitfield) (pending_error : Bool) (search : String) (search_details : Bool)
    (group : Option String) (package_ids : List String) (depends : Bool) (c : Nat) :
    (handed (backend_search_package_thread h init pending_error search filters search_details
        (cancel_at c)).1 <+:
      handed (backend_search_package_thread h init pending_error search filters search_details
        (fun _ => false)).1 ∧
    handed (backend_search_group_thread h init group filters (cancel_at c)).1 <+:
      handed (backend_search_group_thread h init group filters (fun _ => false)).1 ∧
    handed (backend_get_packages_thread h init filters (cancel_at c)).1 <+:
      handed (backend_get_packages_thread h init filters (fun _ => false)).1 ∧
    handed (backend_get_depends_or_requires_thread h init package_ids filters depends
        (cancel_at c)).1 <+:
      handed (backend_get_depends_or_requires_thread h init package_ids filters depends
        (fun _ => false)).1) ∧
    (∀ m_apt, init = some m_apt → c < m_apt.PkgList.length →
      handed (backend_search_package_thread h init pending_error search filters search_details
        (cancel_at c)).1 = [] ∧
      handed (backend_search_group_thread h init group filters (cancel_at c)).1 = [] ∧
      handed (backend_get_packages_thread h init filters (cancel_at c)).1 = []) ∧
    (∀ m_apt r, init = some m_apt →
      depends_loop h m_apt depends (fun _ => false) package_ids 0 = .ok r → c < r.2 →
      handed (backend_get_depends_or_requires_thread h init package_ids filters depends
        (cancel_at c)).1 = []) := by
  refine ⟨⟨?_, ?_, ?_, ?_⟩, ?_, ?_⟩
  · cases hm : h.matcher search with
    | none =>
      rw [search_package_handed_fail h init pending_error search filters _ _ (Or.inl hm)]
      exact List.nil_prefix
    | some m_matches =>
      cases init with
      | none =>
        rw [search_package_handed_fail h none pending_error search filters _ _
          (Or.inr (Or.inl rfl))]
        exact List.nil_prefix
      | some m_apt =>
        cases pending_error with
        | true =>
          rw [search_package_handed_fail h _ true search filters _ _ (Or.inr (Or.inr rfl))]
          exact List.nil_prefix
        | false =>
          rw [search_package_handed_ok h m_apt m_matches search filters _ _ hm,
            search_package_handed_ok h m_apt m_matches search filters _ _ hm]
          rcases search_package_output_cancel_at m_apt m_matches search_details c with
            heq | hlt
          · rw [heq]
            exact handed_cancel_at_prefix filters c _ _ _ _ (Or.inl rfl)
          · exact handed_cancel_at_prefix filters c _ _ _ _ (Or.inr hlt)
  · cases group with
    | none =>
      rw [search_group_handed_fail h init none filters _ (Or.inl rfl)]
      exact List.nil_prefix
    | some g =>
      cases init with
      | none =>
        rw [search_group_handed_fail h none (some g) filters _ (Or.inr rfl)]
        exact List.nil_prefix
      | some m_apt =>
        rw [search_group_handed_ok, search_group_handed_ok]
        rcases accumulate_loop_cancel_at
          (search_group_body h m_apt (h.pk_group_enum_from_text g)) c m_apt.PkgList 0 with
          heq | hlt
        · rw [heq]
          exact handed_cancel_at_prefix filters c _ _ _ _ (Or.inl rfl)
        · exact handed_cancel_at_prefix filters c _ _ _ _ (Or.inr hlt)
  · cases init with
    | none =>
      rw [get_packages_handed_fail]
      exact List.nil_prefix
    | some m_apt =>
      rw [get_packages_handed_ok, get_packages_handed_ok]
      rcases accumulate_loop_cancel_at (get_packages_body m_apt) c m_apt.PkgList 0 with
        heq | hlt
      · rw [heq]
        exact handed_cancel_at_prefix filters c _ _ _ _ (Or.inl rfl)
      · exact handed_cancel_at_prefix filters c _ _ _ _ (Or.inr hlt)
  · rw [depends_handed_eq, depends_handed_eq]
    cases package_ids.head?.bind h.pk_package_id_new_from_string with
    | none => exact List.nil_prefix
    | some pi =>
      cases init with
      | none => exact List.nil_prefix
      | some m_apt =>
        simp only
        rcases depends_loop_cancel_at h m_apt depends c (hdep m_apt rfl) (hreq m_apt rfl)
          package_ids 0 with heq | ⟨e, he⟩ | ⟨r, hr, hlt⟩
        · rw [heq]
          cases depends_loop h m_apt depends (fun _ => false) package_ids 0 with
          | error e => exact List.nil_prefix
          | ok r => exact handed_cancel_at_prefix filters c _ _ _ _ (Or.inl rfl)
        · rw [he]
          exact List.nil_prefix
        · rw [hr]
          simp only
          rw [emit_loop_cancel_at filters c _ r.2 (by omega)]
          exact List.nil_prefix
  · intro m_apt hi hc
    subst hi
    refine ⟨?_, ?_, ?_⟩
    · cases hm : h.matcher search with
      | none => exact search_package_handed_fail h _ pending_error search filters _ _ (Or.inl hm)
      | some m_matches =>
        cases pending_error with
        | true =>
          exact search_package_handed_fail h _ true search filters _ _ (Or.inr (Or.inr rfl))
        | false =>
          rw [search_package_handed_ok h m_apt m_matches search filters _ _ hm,
            emit_loop_cancel_at filters c _ _
              (le_of_lt (search_package_output_cancel_at_early m_apt m_matches search_details
                c hc))]
          rfl
    · cases group with
      | none => exact search_group_handed_fail h _ none filters _ (Or.inl rfl)
      | some g =>
        rw [search_group_handed_ok, emit_loop_cancel_at filters c _ _
          (le_of_lt (accumulate_loop_cancel_at_early _ c _ 0 (by omega)))]
        rfl
    · rw [get_packages_handed_ok, emit_loop_cancel_at filters c _ _
        (le_of_lt (accumulate_loop_cancel_at_early _ c _ 0 (by omega)))]
      rfl
  · intro m_apt r hi hr hc
    subst hi
    rw [depends_handed_eq]
    cases package_ids.head?.bind h.pk_package_id_new_from_string with
    | none => rfl
    | some pi =>
      simp only
      rcases depends_loop_cancel_at h m_apt depends c (hdep m_apt rfl) (hreq m_apt rfl)
        package_ids 0 with heq | ⟨e, he⟩ | ⟨r2, hr2, hlt⟩
      · rw [heq, hr]
        simp only
        rw [emit_loop_cancel_at filters c _ r.2 (by omega)]
        rfl
      · rw [he]
      · rw [hr2]
        simp only
        rw [emit_loop_cancel_at filters c _ r2.2 (by omega)]
        rfl

theorem example_helpers_causal :
    (∀ m_apt, some example_apt = some m_apt → ∀ pkg rec (o o2 : Nat → Bool),
      (∀ i, i < (m_apt.get_depends pkg rec o).2 → o i = o2 i) →
      m_apt.get_depends pkg rec o2 = m_apt.get_depends pkg rec o) ∧
    (∀ m_apt, some example_apt = some m_apt → ∀ pkg rec (o o2 : Nat → Bool),
      (∀ i, i < (m_apt.get_requires pkg rec o).2 → o i = o2 i) →
      m_apt.get_requires pkg rec o2 = m_apt.get_requires pkg rec o) := by
  constructor <;>
  · intro m_apt hm pkg rec o o2 _
    cases hm
    rfl

/-- Witness of C24: get_packages on the example cache (five packages), with
`_cancel` set at the seventh read, that is after two entries were handed
over. -/
theorem cancelled_run_hands_initial_segment_witness :
    ((∀ m_apt, some example_apt = some m_apt → ∀ pkg rec (o o2 : Nat → Bool),
        (∀ i, i < (m_apt.get_depends pkg rec o).2 → o i = o2 i) →
        m_apt.get_depends pkg rec o2 = m_apt.get_depends pkg rec o) ∧
      (∀ m_apt, some example_apt = some m_apt → ∀ pkg rec (o o2 : Nat → Bool),
        (∀ i, i < (m_apt.get_requires pkg rec o).2 → o i = o2 i) →
        m_apt.get_requires pkg rec o2 = m_apt.get_requires pkg rec o)) ∧
    handed (backend_get_packages_thread example_helpers (some example_apt) []
        (cancel_at 7)).1 = [(0, bash_ver), (4, exim_ver)] ∧
    handed (backend_get_packages_thread example_helpers (some example_apt) []
        (cancel_at 7)).1 <+:
      handed (backend_get_packages_thread example_helpers (some example_apt) []
        (fun _ => false)).1 :=
  ⟨example_helpers_causal, by decide,
    (cancelled_run_hands_initial_segment example_helpers (some example_apt)
      example_helpers_causal.1 example_helpers_causal.2 [] false "bash" false none [] true
      7).1.2.2.1⟩

/-! ### Name search and details search -/

theorem search_name_body_subset (m_apt : aptcc) (m_matches : String → Bool) (pkg : PkgIterator)
    (x : PkgPair) (hx : x ∈ search_name_body m_apt m_matches pkg) :
    x ∈ search_details_body m_apt m_matches pkg := by
  unfold search_name_body at hx
  unfold search_details_body
  split_ifs at hx ⊢
  · exact hx
  · exact hx
  · simp at hx

/-- C25: with `_cancel` never set, every entry that search_name hands to
`emit_package` is among the candidates search_details accumulates for the same
cache and pattern, and search_details hands over this entry or an entry equal
to it under `result_equality` (the one `std::unique` kept); when
`result_equality` holds only between identical entries, it hands over the
entry itself. -/
theorem search_details_covers_search_name (h : Helpers) (init : Option aptcc)
    (pending_error : Bool) (search : String) (filters : PkBitfield) (x : PkgPair)
    (hx : x ∈ handed (backend_search_package_thread h init pending_error search filters false
      (fun _ => false)).1) :
    (∃ m_apt m_matches, init = some m_apt ∧ h.matcher search = some m_matches ∧
      x ∈ (search_package_output m_apt m_matches true (fun _ => false)).1) ∧
    (∃ e ∈ handed (backend_search_package_thread h init pending_error search filters true
      (fun _ => false)).1, e = x ∨ h.result_equality e x = true) ∧
    ((∀ a b, h.result_equality a b = true → a = b) →
      x ∈ handed (backend_search_package_thread h init pending_error search filters true
        (fun _ => false)).1) := by
  cases hm : h.matcher search with
  | none =>
    rw [search_package_handed_fail h init pending_error search filters _ _ (Or.inl hm)] at hx
    simp at hx
  | some m_matches =>
    cases init with
    | none =>
      rw [search_package_handed_fail h none pending_error search filters _ _
        (Or.inr (Or.inl rfl))] at hx
      simp at hx
    | some m_apt =>
      cases pending_error with
      | true =>
        rw [search_package_handed_fail h _ true search filters _ _ (Or.inr (Or.inr rfl))] at hx
        simp at hx
      | false =>
        rw [search_package_handed_ok h m_apt m_matches search filters _ _ hm,
          handed_emit_loop_no_cancel] at hx
        have hname := mem_unique_sort _ _ _ x hx
        simp only [search_package_output, Bool.false_eq_true, if_false] at hname
        obtain ⟨pkg, hpkg, hbody⟩ := mem_accumulate_loop _ _ _ 0 x hname
        have hout : x ∈ (search_package_output m_apt m_matches true (fun _ => false)).1 := by
          simp only [search_package_output, if_true]
          exact accumulate_loop_no_cancel _ _ 0 pkg hpkg x
            (search_name_body_subset m_apt m_matches pkg x hbody)
        have hrep := std_unique_represents h.result_equality _ x
          ((std_sort_perm h.compare _).mem_iff.mpr hout)
        rw [search_package_handed_ok h m_apt m_matches search filters _ _ hm,
          handed_emit_loop_no_cancel]
        refine ⟨⟨m_apt, m_matches, rfl, rfl, hout⟩, hrep, fun hid => ?_⟩
        obtain ⟨e, he, hex⟩ := hrep
        rcases hex with rfl | hex
        · exact he
        · rw [← hid e x hex]
          exact he

/-- Witness of C25: `exim4`, handed over by the name search for
`mail-transport-agent` on the example cache. -/
theorem search_details_covers_search_name_witness :
    (4, exim_ver) ∈ handed (backend_search_package_thread example_helpers (some example_apt)
      false "mail-transport-agent" [] false (fun _ => false)).1 ∧
    ∃ e ∈ handed (backend_search_package_thread example_helpers (some example_apt) false
      "mail-transport-agent" [] true (fun _ => false)).1,
      e = (4, exim_ver) ∨ example_helpers.result_equality e (4, exim_ver) = true :=
  ⟨by decide,
    (search_details_covers_search_name example_helpers (some example_apt) false
      "mail-transport-agent" [] (4, exim_ver) (by decide)).2.1⟩

/-! ### The update timers -/

theorem download_events_take_succ (ids : List String) (k : Nat) (p : String)
    (hp : ids.get? k = some p) :
    download_events (ids.take (k + 1)) =
      download_events (ids.take k) ++ [Event.package .DOWNLOADING p (some "The same thing")] := by
  rw [List.get?_eq_getElem?] at hp
  rw [List.take_succ, hp]
  simp [download_events]

theorem update_events_take_succ (ids : List String) (k : Nat) (p : String)
    (hp : ids.get? k = some p) :
    update_events (ids.take (k + 1)) = update_events (ids.take k) ++ update_step_events p := by
  rw [List.get?_eq_getElem?] at hp
  rw [List.take_succ, hp]
  simp [update_events, List.flatMap_append]

theorem backend_update_packages_download_timeout_eq (b : Backend) (p : String)
    (hp : b._package_ids.get? b._package_current = some p)
    (hbound : b._package_ids.length + 1 < 2 ^ 32) :
    backend_update_packages_download_timeout b =
      if b._package_current + 2 > b._package_ids.length then
        ({ b with
            _package_current := 0
            _signal_timeout := b.next_source_id
            sources := b.sources ++ [⟨b.next_source_id, 2000,
              .backend_update_packages_update_timeout⟩]
            next_source_id := b.next_source_id + 1
            log := b.log ++ [Event.package .DOWNLOADING p (some "The same thing"),
              Event.set_status .UPDATE, Event.set_percentage 50] }, false)
      else
        ({ b with
            _package_current := b._package_current + 1
            log := b.log ++ [Event.package .DOWNLOADING p (some "The same thing")] }, true) := by
  have hcur : b._package_current < b._package_ids.length := by
    by_contra hge
    rw [List.get?_eq_none.mpr (by omega)] at hp
    exact Option.noConfusion hp
  have h1 : (b._package_current + 1) % 2 ^ 32 = b._package_current + 1 :=
    Nat.mod_eq_of_lt (by omega)
  have h2 : (b._package_current + 1 + 1) % 2 ^ 32 = b._package_current + 2 :=
    Nat.mod_eq_of_lt (by omega)
  unfold backend_update_packages_download_timeout
  simp only [package_ids_at, hp, Option.getD_some, pk_backend_package, Backend.emit, h1, h2,
    pk_backend_set_status, pk_backend_set_percentage, g_timeout_add]
  split_ifs <;> simp

theorem backend_update_packages_update_timeout_eq (b : Backend) (p : String)
    (hp : b._package_ids.get? b._package_current = some p)
    (hbound : b._package_ids.length + 1 < 2 ^ 32) :
    backend_update_packages_update_timeout b =
      if b._package_current + 2 > b._package_ids.length then
        ({ b with
            _package_current := b._package_current + 1
            _signal_timeout := 0
            _updated_powertop := b._updated_powertop || p == "powertop;1.8-1.fc8;i386;fedora"
            _updated_kernel := b._updated_kernel ||
              p == "kernel;2.6.23-0.115.rc3.git1.fc8;i386;installed"
            _updated_gtkhtml := b._updated_gtkhtml || p == "gtkhtml2;2.19.1-4.fc8;i386;fedora"
            log := b.log ++ update_step_events p ++
              [Event.set_percentage 100, Event.finished] }, false)
      else
        ({ b with
            _package_current := b._package_current + 1
            _updated_powertop := b._updated_powertop || p == "powertop;1.8-1.fc8;i386;fedora"
            _updated_kernel := b._updated_kernel ||
              p == "kernel;2.6.23-0.115.rc3.git1.fc8;i386;installed"
            _updated_gtkhtml := b._updated_gtkhtml || p == "gtkhtml2;2.19.1-4.fc8;i386;fedora"
            log := b.log ++ update_step_events p }, true) := by
  have hcur : b._package_current < b._package_ids.length := by
    by_contra hge
    rw [List.get?_eq_none.mpr (by omega)] at hp
    exact Option.noConfusion hp
  have h1 : (b._package_current + 1) % 2 ^ 32 = b._package_current + 1 :=
    Nat.mod_eq_of_lt (by omega)
  have h2 : (b._package_current + 1 + 1) % 2 ^ 32 = b._package_current + 2 :=
    Nat.mod_eq_of_lt (by omega)
  have hlt1 : b._package_current + 1 < 4294967296 := by omega
  have hlt2 : b._package_current + 1 + 1 < 4294967296 := by omega
  unfold backend_update_packages_update_timeout update_step_events
  simp only [package_ids_at, hp, Option.getD_some, pk_backend_package, Backend.emit,
    pk_backend_set_percentage, pk_backend_finished, egg_strequal]
  by_cases hpt : p = "powertop;1.8-1.fc8;i386;fedora"
  · subst hpt
    simp [Nat.mod_eq_of_lt hlt1, Nat.mod_eq_of_lt hlt2]
  · by_cases hk : p = "kernel;2.6.23-0.115.rc3.git1.fc8;i386;installed"
    · subst hk
      simp [Nat.mod_eq_of_lt hlt1, Nat.mod_eq_of_lt hlt2]
    · by_cases hg : p = "gtkhtml2;2.19.1-4.fc8;i386;fedora"
      · subst hg
        simp [Nat.mod_eq_of_lt hlt1, Nat.mod_eq_of_lt hlt2]
      · have hpt2 := beq_eq_false_iff_ne.mpr hpt
        have hk2 := beq_eq_false_iff_ne.mpr hk
        have hg2 := beq_eq_false_iff_ne.mpr hg
        simp only [hpt2, hk2, hg2, Bool.or_false]
        simp [Nat.mod_eq_of_lt hlt1, Nat.mod_eq_of_lt hlt2, hpt, hk, hg]

theorem get?_of_lt (ids : List String) (k : Nat) (hk : k < ids.length) :
    ∃ p, ids.get? k = some p := by
  cases h : ids.get? k with
  | none =>
    rw [List.get?_eq_none] at h
    omega
  | some p => exact ⟨p, rfl⟩

theorem updated_flag_take_succ (flag : Bool) (ids : List String) (k : Nat) (p x : String)
    (hp : ids.get? k = some p) :
    ((flag || decide (x ∈ ids.take k)) || p == x) = (flag || decide (x ∈ ids.take (k + 1))) := by
  rw [List.get?_eq_getElem?] at hp
  rw [List.take_succ, hp]
  by_cases hx : p = x
  · subst hx
    simp
  · have hx2 : ¬ x = p := fun h => hx h.symm
    simp [hx, hx2]

theorem download_run (b1 : Backend) (id : Nat)
    (hsrc : b1.sources = [⟨id, 2000, .backend_update_packages_download_timeout⟩])
    (hcur : b1._package_current = 0) (hbound : b1._package_ids.length + 1 < 2 ^ 32) :
    ∀ k, k < b1._package_ids.length → fire_all b1 (List.replicate k id) =
      { b1 with
          _package_current := k
          log := b1.log ++ download_events (b1._package_ids.take k) } := by
  intro k
  induction k with
  | zero =>
    intro _
    cases b1
    simp only at hcur
    subst hcur
    simp [fire_all, download_events]
  | succ k ih =>
    intro hk
    rw [fire_all_replicate_succ, ih (by omega)]
    obtain ⟨p, hp⟩ := get?_of_lt b1._package_ids k (by omega)
    have hstep := backend_update_packages_download_timeout_eq
      { b1 with _package_current := k, log := b1.log ++ download_events (b1._package_ids.take k) }
      p hp hbound
    rw [if_neg (show ¬ (k + 2 > b1._package_ids.length) by omega)] at hstep
    rw [fire_eq _ id ⟨id, 2000, .backend_update_packages_download_timeout⟩ (by simp [hsrc])]
    show (if (backend_update_packages_download_timeout _).2 = true then
        (backend_update_packages_download_timeout _).1
      else g_source_remove (backend_update_packages_download_timeout _).1 id) = _
    rw [hstep]
    simp [download_events_take_succ _ k p hp]

theorem download_run_complete (b1 : Backend) (id : Nat)
    (hsrc : b1.sources = [⟨id, 2000, .backend_update_packages_download_timeout⟩])
    (hcur : b1._package_current = 0) (hbound : b1._package_ids.length + 1 < 2 ^ 32)
    (hne : b1._package_ids ≠ []) (hid : b1.next_source_id ≠ id) :
    fire_all b1 (List.replicate b1._package_ids.length id) =
      { b1 with
          _package_current := 0
          _signal_timeout := b1.next_source_id
          sources := [⟨b1.next_source_id, 2000, .backend_update_packages_update_timeout⟩]
          next_source_id := b1.next_source_id + 1
          log := b1.log ++ download_events b1._package_ids ++
            [Event.set_status .UPDATE, Event.set_percentage 50] } := by
  obtain ⟨k, hk⟩ : ∃ k, b1._package_ids.length = k + 1 :=
    ⟨b1._package_ids.length - 1, by
      have := List.length_pos.mpr hne
      omega⟩
  rw [hk, fire_all_replicate_succ, download_run b1 id hsrc hcur hbound k (by omega)]
  obtain ⟨p, hp⟩ := get?_of_lt b1._package_ids k (by omega)
  have hstep := backend_update_packages_download_timeout_eq
    { b1 with _package_current := k, log := b1.log ++ download_events (b1._package_ids.take k) }
    p hp hbound
  rw [if_pos (show k + 2 > b1._package_ids.length by omega)] at hstep
  rw [fire_eq _ id ⟨id, 2000, .backend_update_packages_download_timeout⟩ (by simp [hsrc])]
  show (if (backend_update_packages_download_timeout _).2 = true then
      (backend_update_packages_download_timeout _).1
    else g_source_remove (backend_update_packages_download_timeout _).1 id) = _
  rw [hstep]
  have hall : download_events b1._package_ids =
      download_events (b1._package_ids.take k) ++
        [Event.package .DOWNLOADING p (some "The same thing")] := by
    rw [← download_events_take_succ _ k p hp, ← hk, List.take_length]
  simp [g_source_remove, hsrc, hid, hall]

theorem update_run (b2 : Backend) (id : Nat)
    (hsrc : b2.sources = [⟨id, 2000, .backend_update_packages_update_timeout⟩])
    (hcur : b2._package_current = 0) (hbound : b2._package_ids.length + 1 < 2 ^ 32) :
    ∀ k, k < b2._package_ids.length → fire_all b2 (List.replicate k id) =
      { b2 with
          _package_current := k
          _updated_powertop := b2._updated_powertop ||
            decide ("powertop;1.8-1.fc8;i386;fedora" ∈ b2._package_ids.take k)
          _updated_kernel := b2._updated_kernel ||
            decide ("kernel;2.6.23-0.115.rc3.git1.fc8;i386;installed" ∈ b2._package_ids.take k)
          _updated_gtkhtml := b2._updated_gtkhtml ||
            decide ("gtkhtml2;2.19.1-4.fc8;i386;fedora" ∈ b2._package_ids.take k)
          log := b2.log ++ update_events (b2._package_ids.take k) } := by
  intro k
  induction k with
  | zero =>
    intro _
    cases b2
    simp only at hcur
    subst hcur
    simp [fire_all, update_events]
  | succ k ih =>
    intro hk
    rw [fire_all_replicate_succ, ih (by omega)]
    obtain ⟨p, hp⟩ := get?_of_lt b2._package_ids k (by omega)
    have hstep := backend_update_packages_update_timeout_eq
      { b2 with
          _package_current := k
          _updated_powertop := b2._updated_powertop ||
            decide ("powertop;1.8-1.fc8;i386;fedora" ∈ b2._package_ids.take k)
          _updated_kernel := b2._updated_kernel ||
            decide ("kernel;2.6.23-0.115.rc3.git1.fc8;i386;installed" ∈ b2._package_ids.take k)
          _updated_gtkhtml := b2._updated_gtkhtml ||
            decide ("gtkhtml2;2.19.1-4.fc8;i386;fedora" ∈ b2._package_ids.take k)
          log := b2.log ++ update_events (b2._package_ids.take k) }
      p hp hbound
    rw [if_neg (show ¬ (k + 2 > b2._package_ids.length) by omega)] at hstep
    rw [fire_eq _ id ⟨id, 2000, .backend_update_packages_update_timeout⟩ (by simp [hsrc])]
    show (if (backend_update_packages_update_timeout _).2 = true then
        (backend_update_packages_update_timeout _).1
      else g_source_remove (backend_update_packages_update_timeout _).1 id) = _
    rw [hstep]
    simp only [if_true, updated_flag_take_succ _ _ k p _ hp, update_events_take_succ _ k p hp,
      List.append_assoc]

theorem update_run_complete (b2 : Backend) (id : Nat)
    (hsrc : b2.sources = [⟨id, 2000, .backend_update_packages_update_timeout⟩])
    (hcur : b2._package_current = 0) (hbound : b2._package_ids.length + 1 < 2 ^ 32)
    (hne : b2._package_ids ≠ []) :
    fire_all b2 (List.replicate b2._package_ids.length id) =
      { b2 with
          _package_current := b2._package_ids.length
          _signal_timeout := 0
          _updated_powertop := b2._updated_powertop ||
            decide ("powertop;1.8-1.fc8;i386;fedora" ∈ b2._package_ids)
          _updated_kernel := b2._updated_kernel ||
            decide ("kernel;2.6.23-0.115.rc3.git1.fc8;i386;installed" ∈ b2._package_ids)
          _updated_gtkhtml := b2._updated_gtkhtml ||
            decide ("gtkhtml2;2.19.1-4.fc8;i386;fedora" ∈ b2._package_ids)
          sources := []
          log := b2.log ++ update_events b2._package_ids ++
            [Event.set_percentage 100, Event.finished] } := by
  obtain ⟨k, hk⟩ : ∃ k, b2._package_ids.length = k + 1 :=
    ⟨b2._package_ids.length - 1, by
      have := List.length_pos.mpr hne
      omega⟩
  have htake : b2._package_ids.take (k + 1) = b2._package_ids := by
    rw [← hk, List.take_length]
  rw [hk, fire_all_replicate_succ, update_run b2 id hsrc hcur hbound k (by omega)]
  obtain ⟨p, hp⟩ := get?_of_lt b2._package_ids k (by omega)
  have hstep := backend_update_packages_update_timeout_eq
    { b2 with
        _package_current := k
        _updated_powertop := b2._updated_powertop ||
          decide ("powertop;1.8-1.fc8;i386;fedora" ∈ b2._package_ids.take k)
        _updated_kernel := b2._updated_kernel ||
          decide ("kernel;2.6.23-0.115.rc3.git1.fc8;i386;installed" ∈ b2._package_ids.take k)
        _updated_gtkhtml := b2._updated_gtkhtml ||
          decide ("gtkhtml2;2.19.1-4.fc8;i386;fedora" ∈ b2._package_ids.take k)
        log := b2.log ++ update_events (b2._package_ids.take k) }
    p hp hbound
  rw [if_pos (show k + 2 > b2._package_ids.length by omega)] at hstep
  rw [fire_eq _ id ⟨id, 2000, .backend_update_packages_update_timeout⟩ (by simp [hsrc])]
  show (if (backend_update_packages_update_timeout _).2 = true then
      (backend_update_packages_update_timeout _).1
    else g_source_remove (backend_update_packages_update_timeout _).1 id) = _
  rw [hstep]
  simp only [Bool.false_eq_true, if_false, g_source_remove, hsrc,
    updated_flag_take_succ _ _ k p _ hp, htake, List.append_assoc]
  have hupd : update_events (b2._package_ids.take k) ++ update_step_events p =
      update_events b2._package_ids := by
    rw [← update_events_take_succ _ k p hp, htake]
  simp [← hupd]

theorem backend_update_packages_eq (b0 : Backend) (package_ids : List String)
    (hs : b0.sources = []) :
    backend_update_packages b0 package_ids =
      { b0 with
          _package_ids := package_ids
          _package_current := 0
          _signal_timeout := b0.next_source_id
          sources := [⟨b0.next_source_id, 2000, .backend_update_packages_download_timeout⟩]
          next_source_id := b0.next_source_id + 1
          log := b0.log ++ [Event.set_percentage 0, Event.set_status .DOWNLOAD] } := by
  simp [backend_update_packages, g_timeout_add, pk_backend_set_percentage,
    pk_backend_set_status, Backend.emit, hs]

theorem package_events_download_events (ids : List String) :
    package_events (download_events ids) =
      ids.map fun p => (PkInfoEnum.DOWNLOADING, p, some "The same thing") := by
  induction ids with
  | nil => rfl
  | cons p rest ih =>
    have hcons : download_events (p :: rest) =
        [Event.package .DOWNLOADING p (some "The same thing")] ++ download_events rest := rfl
    rw [hcons, package_events_append, ih]
    rfl

theorem package_events_update_step_events (p : String) :
    (package_events (update_step_events p)).map (fun e => (e.1, e.2.1)) =
      if p ∈ ["powertop;1.8-1.fc8;i386;fedora",
          "kernel;2.6.23-0.115.rc3.git1.fc8;i386;installed",
          "gtkhtml2;2.19.1-4.fc8;i386;fedora"] then [(PkInfoEnum.UPDATING, p)] else [] := by
  unfold update_step_events
  by_cases hpt : p = "powertop;1.8-1.fc8;i386;fedora"
  · subst hpt
    decide
  · by_cases hk : p = "kernel;2.6.23-0.115.rc3.git1.fc8;i386;installed"
    · subst hk
      decide
    · by_cases hg : p = "gtkhtml2;2.19.1-4.fc8;i386;fedora"
      · subst hg
        decide
      · simp [hpt, hk, hg, package_events]

theorem package_events_update_events (ids : List String) :
    (package_events (update_events ids)).map (fun e => (e.1, e.2.1)) =
      (ids.filter fun p => decide (p ∈ ["powertop;1.8-1.fc8;i386;fedora",
          "kernel;2.6.23-0.115.rc3.git1.fc8;i386;installed",
          "gtkhtml2;2.19.1-4.fc8;i386;fedora"])).map fun p => (PkInfoEnum.UPDATING, p) := by
  induction ids with
  | nil => rfl
  | cons p rest ih =>
    have hcons : update_events (p :: rest) = update_step_events p ++ update_events rest := by
      simp [update_events]
    rw [hcons, package_events_append, List.map_append, ih, package_events_update_step_events,
      List.filter_cons]
    split_ifs with h1 h2 h2
    · rfl
    · exact absurd (decide_eq_true h1) h2
    · exact absurd (of_decide_eq_true h2) h1
    · rfl

theorem finished_not_mem_download_events (ids : List String) :
    Event.finished ∉ download_events ids := by
  simp [download_events]

theorem finished_not_mem_update_events (ids : List String) :
    Event.finished ∉ update_events ids := by
  simp only [update_events, List.mem_flatMap, not_exists, not_and]
  intro p _ hp
  unfold update_step_events at hp
  split_ifs at hp <;> simp at hp

/-- C27: `backend_update_packages` on a non-empty list of `n` ids, started
with no other source pending, followed by `n` firings of the download timer
and `n` firings of the update timer with no cancel: the calls appended to the
log are percentage 0 and status Download, one Downloading package event per
id in input order, status Update and percentage 50, one Updating package event
for each id that is `powertop`, `kernel` or `gtkhtml2` of the known versions,
in input order, then percentage 100 and one `finished`, the only one;
afterwards the updated flag of each known id of the list is true,
`_signal_timeout` is 0 and no source is left. -/
theorem update_packages_run (b0 : Backend) (package_ids : List String)
    (hs : b0.sources = []) (hne : package_ids ≠ [])
    (hbound : package_ids.length + 1 < 2 ^ 32) :
    (fire_all (backend_update_packages b0 package_ids)
        (List.replicate package_ids.length b0.next_source_id ++
          List.replicate package_ids.length (b0.next_source_id + 1))).log =
      b0.log ++ [Event.set_percentage 0, Event.set_status .DOWNLOAD] ++
        download_events package_ids ++ [Event.set_status .UPDATE, Event.set_percentage 50] ++
        update_events package_ids ++ [Event.set_percentage 100, Event.finished] ∧
    package_events (download_events package_ids) =
      package_ids.map (fun p => (PkInfoEnum.DOWNLOADING, p, some "The same thing")) ∧
    (package_events (update_events package_ids)).map (fun e => (e.1, e.2.1)) =
      (package_ids.filter fun p => decide (p ∈ ["powertop;1.8-1.fc8;i386;fedora",
          "kernel;2.6.23-0.115.rc3.git1.fc8;i386;installed",
          "gtkhtml2;2.19.1-4.fc8;i386;fedora"])).map (fun p => (PkInfoEnum.UPDATING, p)) ∧
    ([Event.set_percentage 0, Event.set_status .DOWNLOAD] ++
        download_events package_ids ++ [Event.set_status .UPDATE, Event.set_percentage 50] ++
        update_events package_ids ++
        [Event.set_percentage 100, Event.finished]).count Event.finished = 1 ∧
    ("powertop;1.8-1.fc8;i386;fedora" ∈ package_ids →
      (fire_all (backend_update_packages b0 package_ids)
        (List.replicate package_ids.length b0.next_source_id ++
          List.replicate package_ids.length (b0.next_source_id + 1)))._updated_powertop = true) ∧
    ("kernel;2.6.23-0.115.rc3.git1.fc8;i386;installed" ∈ package_ids →
      (fire_all (backend_update_packages b0 package_ids)
        (List.replicate package_ids.length b0.next_source_id ++
          List.replicate package_ids.length (b0.next_source_id + 1)))._updated_kernel = true) ∧
    ("gtkhtml2;2.19.1-4.fc8;i386;fedora" ∈ package_ids →
      (fire_all (backend_update_packages b0 package_ids)
        (List.replicate package_ids.length b0.next_source_id ++
          List.replicate package_ids.length (b0.next_source_id + 1)))._updated_gtkhtml = true) ∧
    (fire_all (backend_update_packages b0 package_ids)
        (List.replicate package_ids.length b0.next_source_id ++
          List.replicate package_ids.length (b0.next_source_id + 1)))._signal_timeout = 0 ∧
    (fire_all (backend_update_packages b0 package_ids)
        (List.replicate package_ids.length b0.next_source_id ++
          List.replicate package_ids.length (b0.next_source_id + 1))).sources = [] := by
  have hdl := download_run_complete
    { b0 with
        _package_ids := package_ids
        _package_current := 0
        _signal_timeout := b0.next_source_id
        sources := [⟨b0.next_source_id, 2000, .backend_update_packages_download_timeout⟩]
        next_source_id := b0.next_source_id + 1
        log := b0.log ++ [Event.set_percentage 0, Event.set_status .DOWNLOAD] }
    b0.next_source_id rfl rfl hbound hne (Nat.succ_ne_self _)
  have hup := update_run_complete
    { b0 with
        _package_ids := package_ids
        _package_current := 0
        _signal_timeout := b0.next_source_id + 1
        sources := [⟨b0.next_source_id + 1, 2000, .backend_update_packages_update_timeout⟩]
        next_source_id := b0.next_source_id + 1 + 1
        log := b0.log ++ [Event.set_percentage 0, Event.set_status .DOWNLOAD] ++
          download_events package_ids ++ [Event.set_status .UPDATE, Event.set_percentage 50] }
    (b0.next_source_id + 1) rfl rfl hbound hne
  simp only at hdl hup
  rw [fire_all_append, backend_update_packages_eq b0 package_ids hs, hdl, hup]
  refine ⟨rfl, package_events_download_events _, package_events_update_events _, ?_,
    fun h => ?_, fun h => ?_, fun h => ?_, rfl, rfl⟩
  · rw [List.count_append, List.count_append, List.count_append, List.count_append,
      List.count_eq_zero_of_not_mem (finished_not_mem_download_events _),
      List.count_eq_zero_of_not_mem (finished_not_mem_update_events _)]
    rfl
  · simp [h]
  · simp [h]
  · simp [h]

/-- Witness of C27: the update of `powertop` and an unknown id from the
initial state. -/
theorem update_packages_run_witness :
    (({} : Backend).sources = [] ∧
      ["powertop;1.8-1.fc8;i386;fedora", "vim;7.0;i386;fedora"] ≠ [] ∧
      ["powertop;1.8-1.fc8;i386;fedora", "vim;7.0;i386;fedora"].length + 1 < 2 ^ 32) ∧
    (fire_all (backend_update_packages {}
          ["powertop;1.8-1.fc8;i386;fedora", "vim;7.0;i386;fedora"])
        (List.replicate ["powertop;1.8-1.fc8;i386;fedora", "vim;7.0;i386;fedora"].length
            ({} : Backend).next_source_id ++
          List.replicate ["powertop;1.8-1.fc8;i386;fedora", "vim;7.0;i386;fedora"].length
            (({} : Backend).next_source_id + 1))).log =
      ({} : Backend).log ++ [Event.set_percentage 0, Event.set_status .DOWNLOAD] ++
        download_events ["powertop;1.8-1.fc8;i386;fedora", "vim;7.0;i386;fedora"] ++
        [Event.set_status .UPDATE, Event.set_percentage 50] ++
        update_events ["powertop;1.8-1.fc8;i386;fedora", "vim;7.0;i386;fedora"] ++
        [Event.set_percentage 100, Event.finished] :=
  ⟨⟨rfl, by decide, by decide⟩,
    (update_packages_run {} ["powertop;1.8-1.fc8;i386;fedora", "vim;7.0;i386;fedora"] rfl
      (by decide) (by decide)).1⟩

/-! ### The system update timer -/

theorem update_system_run (b0 : Backend) (hs : b0.sources = []) :
    fire_all (backend_update_system b0) (List.replicate 11 b0.next_source_id) =
      { b0 with
          _progress_percentage := 100
          _signal_timeout := b0.next_source_id
          _updated_powertop := true
          _updated_kernel := true
          sources := []
          next_source_id := b0.next_source_id + 1
          log := b0.log ++ update_system_events b0._updated_powertop b0._updated_kernel
            b0._updated_gtkhtml } := by
  obtain ⟨c, pp, st, ids, se, pc, rl, rf, rd, rli, ug, uk, up, hsig, src, nid, eu, lg⟩ := b0
  simp only at hs
  subst hs
  cases ug <;> cases uk <;> cases up <;>
    simp [List.replicate, fire_all, fire, dispatch, backend_update_system,
      backend_update_system_timeout, g_timeout_add, g_source_remove, pk_backend_set_status,
      pk_backend_set_allow_cancel, pk_backend_require_restart, pk_backend_package,
      pk_backend_set_percentage, pk_backend_finished, Backend.emit, update_system_events]

theorem update_system_run_to_40 (b0 : Backend) (hs : b0.sources = []) :
    (fire_all (backend_update_system b0)
      (List.replicate 4 b0.next_source_id))._progress_percentage = 40 ∧
    (fire_all (backend_update_system b0)
      (List.replicate 4 b0.next_source_id))._updated_powertop = b0._updated_powertop := by
  obtain ⟨c, pp, st, ids, se, pc, rl, rf, rd, rli, ug, uk, up, hsig, src, nid, eu, lg⟩ := b0
  simp only at hs
  subst hs
  cases ug <;> cases uk <;> cases up <;>
    simp [List.replicate, fire_all, fire, dispatch, backend_update_system,
      backend_update_system_timeout, g_timeout_add, g_source_remove, pk_backend_set_status,
      pk_backend_set_allow_cancel, pk_backend_require_restart, pk_backend_package,
      pk_backend_set_percentage, pk_backend_finished, Backend.emit]

theorem cleanup_not_mem_update_system_events (p k g : Bool) (package_id : String)
    (summary : Option String) :
    Event.package .CLEANUP package_id summary ∉ update_system_events p k g := by
  cases p <;> cases k <;> cases g <;> simp [update_system_events]

theorem allow_cancel_false_mem_update_system_events (p k g : Bool) :
    Event.set_allow_cancel false ∈ update_system_events p k g ↔ p = false := by
  cases p <;> cases k <;> cases g <;> simp [update_system_events]

/-- C28: `backend_update_system` started with no other source pending,
followed by the eleven firings of its timer that take it to `finished`,
whatever the three updated flags were: the calls appended to the log are those
of `update_system_events` and end with `finished`, after which no source is
left; no package event with info-state Cleanup is among them; and
`set_allow_cancel false` is among them exactly when `_updated_powertop` is
false in the state the callback finds with the counter at 40, that is after
four firings. -/
theorem update_system_no_cleanup (b0 : Backend) (hs : b0.sources = []) :
    (fire_all (backend_update_system b0) (List.replicate 11 b0.next_source_id)).log =
      b0.log ++ update_system_events b0._updated_powertop b0._updated_kernel
        b0._updated_gtkhtml ∧
    (fire_all (backend_update_system b0) (List.replicate 11 b0.next_source_id)).log.getLast? =
      some Event.finished ∧
    (fire_all (backend_update_system b0) (List.replicate 11 b0.next_source_id)).sources = [] ∧
    (∀ package_id summary, Event.package .CLEANUP package_id summary ∉
      (fire_all (backend_update_system b0)
        (List.replicate 11 b0.next_source_id)).log.drop b0.log.length) ∧
    (fire_all (backend_update_system b0)
      (List.replicate 4 b0.next_source_id))._progress_percentage = 40 ∧
    (Event.set_allow_cancel false ∈
      (fire_all (backend_update_system b0)
        (List.replicate 11 b0.next_source_id)).log.drop b0.log.length ↔
      (fire_all (backend_update_system b0)
        (List.replicate 4 b0.next_source_id))._updated_powertop = false) := by
  have hrun := update_system_run b0 hs
  have h40 := update_system_run_to_40 b0 hs
  have hlog : (fire_all (backend_update_system b0) (List.replicate 11 b0.next_source_id)).log =
      b0.log ++ update_system_events b0._updated_powertop b0._updated_kernel
        b0._updated_gtkhtml := by
    rw [hrun]
  have hdrop : (fire_all (backend_update_system b0)
        (List.replicate 11 b0.next_source_id)).log.drop b0.log.length =
      update_system_events b0._updated_powertop b0._updated_kernel b0._updated_gtkhtml := by
    rw [hlog]
    simp
  refine ⟨hlog, ?_, ?_, ?_, h40.1, ?_⟩
  · rw [hlog]
    have hlast : update_system_events b0._updated_powertop b0._updated_kernel
        b0._updated_gtkhtml = (update_system_events b0._updated_powertop b0._updated_kernel
        b0._updated_gtkhtml).dropLast ++ [Event.finished] := by
      cases b0._updated_powertop <;> cases b0._updated_kernel <;> cases b0._updated_gtkhtml <;>
        rfl
    rw [hlast, ← List.append_assoc, List.getLast?_concat]
  · rw [hrun]
  · intro package_id summary
    rw [hdrop]
    exact cleanup_not_mem_update_system_events _ _ _ _ _
  · rw [hdrop, h40.2]
    exact allow_cancel_false_mem_update_system_events _ _ _

/-- Witness of C28: the system update started on the initial state, where no
flag is set. -/
theorem update_system_no_cleanup_witness :
    ({} : Backend).sources = [] ∧
    (fire_all (backend_update_system {})
      (List.replicate 11 ({} : Backend).next_source_id)).log =
      ({} : Backend).log ++ update_system_events ({} : Backend)._updated_powertop
        ({} : Backend)._updated_kernel ({} : Backend)._updated_gtkhtml ∧
    ∀ package_id summary, Event.package .CLEANUP package_id summary ∉
      (fire_all (backend_update_system {})
        (List.replicate 11 ({} : Backend).next_source_id)).log.drop
          ({} : Backend).log.length :=
  ⟨rfl, (update_system_no_cleanup {} rfl).1, (update_system_no_cleanup {} rfl).2.2.2.1⟩

/-! ### The synchronous client wrappers -/

theorem pk_client_sync_body_ok (finish : AsyncCall → Option PkResults) (call : AsyncCall) :
    pk_client_sync_body finish true true call = ⟨some call, finish call⟩ := by
  unfold pk_client_sync_body pk_client_generic_finish_sync
  cases finish call <;> rfl

theorem pk_client_sync_body_guard (finish : AsyncCall → Option PkResults)
    (client_valid error_clear : Bool) (call : AsyncCall)
    (hguard : client_valid = false ∨ error_clear = false) :
    pk_client_sync_body finish client_valid error_clear call = ⟨none, none⟩ := by
  unfold pk_client_sync_body
  rcases hguard with h | h
  · simp [h]
  · cases client_valid <;> simp [h]

/-- The wrappers other than `pk_client_rollback`, called with a valid client
and a clear error pointer, start the operation of their own name with the
arguments unchanged. -/
theorem sync_wrappers_start_own_operation (finish : AsyncCall → Option PkResults)
    (context : AsyncContext) (filters : PkBitfield) (strings : List String)
    (text text2 text3 : String) (flag flag2 : Bool) (number : Nat) (type : PkSigTypeEnum) :
    (pk_client_resolve finish true filters strings context true).started =
      some (.pk_client_resolve_async filters strings context) ∧
    (pk_client_search_name finish true filters text context true).started =
      some (.pk_client_search_name_async filters text context) ∧
    (pk_client_search_details finish true filters text context true).started =
      some (.pk_client_search_details_async filters text context) ∧
    (pk_client_search_group finish true filters text context true).started =
      some (.pk_client_search_group_async filters text context) ∧
    (pk_client_search_file finish true filters text context true).started =
      some (.pk_client_search_file_async filters text context) ∧
    (pk_client_get_details finish true strings context true).started =
      some (.pk_client_get_details_async strings context) ∧
    (pk_client_get_update_detail finish true strings context true).started =
      some (.pk_client_get_update_detail_async strings context) ∧
    (pk_client_download_packages finish true strings text context true).started =
      some (.pk_client_download_packages_async strings text context) ∧
    (pk_client_get_updates finish true filters context true).started =
      some (.pk_client_get_updates_async filters context) ∧
    (pk_client_get_old_transactions finish true number context true).started =
      some (.pk_client_get_old_transactions_async number context) ∧
    (pk_client_update_system finish true flag context true).started =
      some (.pk_client_update_system_async flag context) ∧
    (pk_client_get_depends finish true filters strings flag context true).started =
      some (.pk_client_get_depends_async filters strings flag context) ∧
    (pk_client_get_packages finish true filters context true).started =
      some (.pk_client_get_packages_async filters context) ∧
    (pk_client_get_requires finish true filters strings flag context true).started =
      some (.pk_client_get_requires_async filters strings flag context) ∧
    (pk_client_what_provides finish true filters number text context true).started =
      some (.pk_client_what_provides_async filters number text context) ∧
    (pk_client_get_distro_upgrades finish true context true).started =
      some (.pk_client_get_distro_upgrades_async context) ∧
    (pk_client_get_files finish true strings context true).started =
      some (.pk_client_get_files_async strings context) ∧
    (pk_client_get_categories finish true context true).started =
      some (.pk_client_get_categories_async context) ∧
    (pk_client_remove_packages finish true strings flag flag2 context true).started =
      some (.pk_client_remove_packages_async strings flag flag2 context) ∧
    (pk_client_refresh_cache finish true flag context true).started =
      some (.pk_client_refresh_cache_async flag context) ∧
    (pk_client_install_packages finish true flag strings context true).started =
      some (.pk_client_install_packages_async flag strings context) ∧
    (pk_client_install_signature finish true type text text2 context true).started =
      some (.pk_client_install_signature_async type text text2 context) ∧
    (pk_client_update_packages finish true flag strings context true).started =
      some (.pk_client_update_packages_async flag strings context) ∧
    (pk_client_install_files finish true flag strings context true).started =
      some (.pk_client_install_files_async flag strings context) ∧
    (pk_client_accept_eula finish true text context true).started =
      some (.pk_client_accept_eula_async text context) ∧
    (pk_client_get_repo_list finish true filters context true).started =
      some (.pk_client_get_repo_list_async filters context) ∧
    (pk_client_repo_enable finish true text flag context true).started =
      some (.pk_client_repo_enable_async text flag context) ∧
    (pk_client_repo_set_data finish true text text2 text3 context true).started =
      some (.pk_client_repo_set_data_async text text2 text3 context) ∧
    (pk_client_simulate_install_files finish true strings context true).started =
      some (.pk_client_simulate_install_files_async strings context) ∧
    (pk_client_simulate_install_packages finish true strings context true).started =
      some (.pk_client_simulate_install_packages_async strings context) ∧
    (pk_client_simulate_remove_packages finish true strings context true).started =
      some (.pk_client_simulate_remove_packages_async strings context) ∧
    (pk_client_simulate_update_packages finish true strings context true).started =
      some (.pk_client_simulate_update_packages_async strings context) ∧
    (pk_client_adopt finish true text context true).started =
      some (.pk_client_adopt_async text context) := by
  simp only [pk_client_sync_body_ok, pk_client_resolve, pk_client_search_name, pk_client_search_details, pk_client_search_group, pk_client_search_file, pk_client_get_details, pk_client_get_update_detail, pk_client_download_packages, pk_client_get_updates, pk_client_get_old_transactions, pk_client_update_system, pk_client_get_depends, pk_client_get_packages, pk_client_get_requires, pk_client_what_provides, pk_client_get_distro_upgrades, pk_client_get_files, pk_client_get_categories, pk_client_remove_packages, pk_client_refresh_cache, pk_client_install_packages, pk_client_install_signature, pk_client_update_packages, pk_client_install_files, pk_client_accept_eula, pk_client_get_repo_list, pk_client_repo_enable, pk_client_repo_set_data, pk_client_simulate_install_files, pk_client_simulate_install_packages, pk_client_simulate_remove_packages, pk_client_simulate_update_packages, pk_client_adopt, and_self]

/-- C23: `pk_client_rollback`, called with a valid client and a clear error
pointer, starts `pk_client_accept_eula_async` with the transaction id in the
place of the EULA id, not `pk_client_rollback_async`, and so does and returns
what `pk_client_accept_eula` does for that string; as in every wrapper, the
pointer returned is what `pk_client_generic_finish` gave for the started
operation, NULL when it reported an error. -/
theorem pk_client_rollback_starts_accept_eula (finish : AsyncCall → Option PkResults)
    (transaction_id : String) (context : AsyncContext) :
    (pk_client_rollback finish true transaction_id context true).started =
      some (.pk_client_accept_eula_async transaction_id context) ∧
    (pk_client_rollback finish true transaction_id context true).started ≠
      some (.pk_client_rollback_async transaction_id context) ∧
    pk_client_rollback finish true transaction_id context true =
      pk_client_accept_eula finish true transaction_id context true ∧
    (pk_client_rollback finish true transaction_id context true).results =
      finish (.pk_client_accept_eula_async transaction_id context) := by
  refine ⟨?_, ?_, rfl, ?_⟩
  · simp only [pk_client_rollback, pk_client_sync_body_ok]
  · simp only [pk_client_rollback, pk_client_sync_body_ok]
    intro h
    cases h
  · simp only [pk_client_rollback, pk_client_sync_body_ok]

/-! ### The mutating operations and the shared counter and timer handle -/

end PackageKit
